import Mathlib

/-!
# School backend: authorization gate and academic-session consistency

A shallow embedding of `src/utils/dateHelper.js`, `src/middleware/permission.js`,
`src/middleware/auth.middleware.js`, `src/middleware/contextStore.js`,
`src/repo/academicSession.repo.js`, `src/services/academicSession.service.js`,
`src/repo/user.repo.js`, `src/services/user.service.js`, the listing guards of
`src/services/teacher.service.js` and `src/services/student.service.js`, the
`createInstituteAdmin` and `createInstituteUser` handlers of
`src/controllers/user.controller.js` and the `createSession`, `getAllSessions`,
`getCurrentSession`, `updateSession`, `setCurrentSession` and `findSessionByDate` handlers
of `src/controllers/academicSession.controller.js`, followed by the properties
established about them.
-/

set_option autoImplicit false

namespace School

/-! ## dateHelper.js -/

/-- A value handed to the date helpers where a date is expected.
`falsy` is a value for which `!v` holds: undefined, null or the empty string;
`unparseable` is a truthy value for which `new Date(v)` is an Invalid Date;
`at ms` is a truthy value (a Date object or a parseable string) whose time value is `ms`
milliseconds since the epoch. The time value of a valid date lies within `maxTime` of
the epoch. -/
inductive DateInput where
  | falsy
  | unparseable
  | at (ms : Int)
  deriving DecidableEq, Repr

/-- Milliseconds in a day: the literal `1000 * 60 * 60 * 24` of the source. -/
def msPerDay : Int := 1000 * 60 * 60 * 24

/-- The largest magnitude of a time value: 8.64e15 milliseconds either side of the
epoch. -/
def maxTime : Int := 8640000000000000

/-- `TimeClip(time)` of the language for an integer `time`: the time value itself, or
NaN, here `none`, when its magnitude exceeds `maxTime`. -/
def timeClip (time : Int) : Option Int :=
  if -maxTime ≤ time ∧ time ≤ maxTime then some time else none

/-- The time zone of the host process. `offsetAtUTC t` is the zone's offset from UTC, in
milliseconds, in effect at the time value `t` (the `LocalTZA(t, true)` of the language);
`offsetAtLocal l` is the offset with which the local time `l` is read back
(`LocalTZA(l, false)`). The two agree except around a clock change. -/
structure Zone where
  offsetAtUTC : Int → Int
  offsetAtLocal : Int → Int

/-- A zone whose clocks are never changed: local time is UTC plus `offset`
milliseconds. -/
def Zone.fixed (offset : Int) : Zone :=
  ⟨fun _ => offset, fun _ => offset⟩

/-- The zone of a host that runs on UTC. -/
def utc : Zone := Zone.fixed 0

/-- `isValidDate(date)`: `false` for a falsy value, otherwise whether `new Date(date)`
has a time value that is not NaN. -/
def isValidDate : DateInput → Bool
  | .falsy => false
  | .unparseable => false
  | .at _ => true

/-- The local calendar day of a time value, numbered from the epoch:
`Day(LocalTime(ms))`. -/
def localDay (tz : Zone) (ms : Int) : Int :=
  (ms + tz.offsetAtUTC ms) / msPerDay

/-- The time value after `d.setHours(0, 0, 0, 0)` on a valid date of time value `ms`:
`TimeClip(UTC(MakeDate(Day(LocalTime(ms)), 0)))`, the midnight that begins the local day
of `ms`; `none` is NaN, the date has become an Invalid Date. -/
def setHoursZero (tz : Zone) (ms : Int) : Option Int :=
  let date := localDay tz ms * msPerDay
  timeClip (date - tz.offsetAtLocal date)

/-- The time value after `d.setHours(23, 59, 59, 999)`: the last millisecond of the local
day of `ms`; `none` is NaN. -/
def setHoursLast (tz : Zone) (ms : Int) : Option Int :=
  let date := localDay tz ms * msPerDay + (msPerDay - 1)
  timeClip (date - tz.offsetAtLocal date)

/-- `Math.ceil(a / b)` for an integer `a` and a positive integer `b`. The source divides
in double precision: for a quotient below 10^8 the ceiling of the double is the ceiling
of the exact quotient, and a larger quotient is above `maxDays` either way, so the
comparisons with `minDays` and `maxDays` are those of the exact value. -/
def ceilDiv (a b : Int) : Int :=
  -((-a) / b)

/-- The object returned by `validateDateRange`: `{ valid, error }`. -/
structure DateValidation where
  valid : Bool
  error : Option String
  deriving DecidableEq, Repr

/-- `validateDateRange(startDate, endDate)`. When `setHours` leaves `start` or `end` an
Invalid Date, `start >= end` compares with NaN and is false, `diffTime` and `diffDays`
are NaN, `diffDays < minDays` and `diffDays > maxDays` are false, and the last `return`
is reached. -/
def validateDateRange (tz : Zone) (startDate endDate : DateInput) : DateValidation :=
  match startDate, endDate with
  | .falsy, _ => ⟨false, some "Both start date and end date are required"⟩
  | _, .falsy => ⟨false, some "Both start date and end date are required"⟩
  | .unparseable, _ => ⟨false, some "Invalid start date format"⟩
  | .at _, .unparseable => ⟨false, some "Invalid end date format"⟩
  | .at s, .at e =>
    match setHoursZero tz s, setHoursZero tz e with
    | some start, some end_ =>
      if start ≥ end_ then
        ⟨false, some "Start date must be before end date"⟩
      else
        let diffTime := end_ - start
        let diffDays := ceilDiv diffTime msPerDay
        let minDays : Int := 30
        let maxDays : Int := 730
        if diffDays < minDays then
          ⟨false, some "Session duration must be at least 30 days"⟩
        else if diffDays > maxDays then
          ⟨false, some "Session duration cannot exceed 730 days (2 years)"⟩
        else
          ⟨true, none⟩
    | _, _ => ⟨true, none⟩

/-- A date range object `{ startDate, endDate }`. -/
structure DateRange where
  startDate : DateInput
  endDate : DateInput
  deriving DecidableEq, Repr

/-- The time value of `new Date(v)` for a value that passed `isValidDate`. -/
def DateInput.time : DateInput → Int
  | .at ms => ms
  | _ => 0

/-- `doDateRangesOverlap(range1, range2)`. -/
def doDateRangesOverlap (range1 range2 : DateRange) : Bool :=
  let start1 := range1.startDate
  let end1 := range1.endDate
  let start2 := range2.startDate
  let end2 := range2.endDate
  if !isValidDate start1 || !isValidDate end1 || !isValidDate start2 || !isValidDate end2 then
    false
  else
    let s1 := start1.time
    let e1 := end1.time
    let s2 := start2.time
    let e2 := end2.time
    decide (s1 ≤ e2) && decide (s2 ≤ e1)

/-- `isDateInRange(date, startDate, endDate)`; a comparison with an Invalid Date is
false. -/
def isDateInRange (tz : Zone) (date startDate endDate : DateInput) : Bool :=
  if !isValidDate date || !isValidDate startDate || !isValidDate endDate then
    false
  else
    match setHoursZero tz date.time, setHoursZero tz startDate.time,
      setHoursLast tz endDate.time with
    | some checkDate, some start, some end_ =>
      decide (checkDate ≥ start) && decide (checkDate ≤ end_)
    | _, _, _ => false

/-! ## constants/enums.js and models/user.model.js -/

/-- The `role` path of the user schema: `enum: [SUPER_ADMIN, INSTITUTE_ADMIN, TEACHER,
STUDENT, PARENT, STAFF, USER]`. -/
inductive Role where
  | SUPER_ADMIN
  | INSTITUTE_ADMIN
  | TEACHER
  | STUDENT
  | PARENT
  | STAFF
  | USER
  deriving DecidableEq, Repr

/-- Modelled from the spec: `constants/enums.js` is not among the sources; every role
constant it exports is taken to be the string of its own name, as the spec writes them
(`TEACHER`, `STUDENT`, `PARENT`, `STAFF`, `USER`). -/
def Role.value : Role → String
  | .SUPER_ADMIN => "SUPER_ADMIN"
  | .INSTITUTE_ADMIN => "INSTITUTE_ADMIN"
  | .TEACHER => "TEACHER"
  | .STUDENT => "STUDENT"
  | .PARENT => "PARENT"
  | .STAFF => "STAFF"
  | .USER => "USER"

/-- A database identifier (`mongoose.Types.ObjectId`); an ObjectId object is always truthy. -/
structure ObjectId where
  n : Nat
  deriving DecidableEq, Repr

/-- A stored user document as `User.findById(id).lean()` returns it, restricted to the
paths the authorization gate reads. The schema gives `role` and `instituteId` defaults,
so both keys are present; `instituteId = none` is the stored `null`. -/
structure UserDoc where
  _id : ObjectId
  email : String
  password : String
  role : Role
  instituteId : Option ObjectId
  isActive : Bool
  isDeleted : Bool
  deriving DecidableEq, Repr

/-! ## middleware/permission.js -/

/-- The object literal `ROLES`, in source order: computed key and array of capabilities. -/
def ROLES : List (String × List String) :=
  [ (Role.SUPER_ADMIN.value,
      [ "CREATE_NEW_INSTITUTES", "GET_ALL_INSTITUTES", "GET_INSTITUTE_BY_ID",
        "UPDATE_INSTITUTE", "DELETE_INSTITUTE", "CREATE_INSTITUTE_ADMIN", "GET_ALL_USERS",
        "UPDATE_USER_STATUS", "GET_INSTITUTE_BY_ID" ]),
    (Role.INSTITUTE_ADMIN.value,
      [ "GET_MY_INSTITUTE", "UPDATE_MY_INSTITUTE", "CREATE_USER", "GET_INSTITUTE_USERS",
        "UPDATE_USER", "DELETE_USER", "CREATE_CLASS", "GET_CLASSES", "UPDATE_CLASS",
        "DELETE_CLASS" ]),
    (Role.TEACHER.value, [ "GET_MY_PROFILE", "GET_MY_STUDENTS", "GET_CLASSES" ]),
    (Role.STUDENT.value, [ "GET_MY_PROFILE", "GET_CLASSES" ]) ]

/-- A value passed as `userRole`: a string, `null` or `undefined`. -/
inductive RoleArg where
  | str (s : String)
  | null
  | undefined
  deriving DecidableEq, Repr

/-- The property key a value is converted to by the member access `ROLES[userRole]`. -/
def RoleArg.toPropertyKey : RoleArg → String
  | .str s => s
  | .null => "null"
  | .undefined => "undefined"

/-- The property names every object literal inherits from `Object.prototype`. -/
def objectPrototypeKeys : List String :=
  [ "constructor", "__defineGetter__", "__defineSetter__", "hasOwnProperty",
    "__lookupGetter__", "__lookupSetter__", "isPrototypeOf", "propertyIsEnumerable",
    "toString", "valueOf", "__proto__", "toLocaleString" ]

/-- What the member access `ROLES[key]` evaluates to. -/
inductive RolesMember where
  /-- An own property: the capability array of a listed role. -/
  | capabilities (list : List String)
  /-- A property inherited from `Object.prototype`: a function (or, for `__proto__`, the
  prototype object), none of which has an `includes` property. -/
  | inherited
  /-- No such property. -/
  | undefined
  deriving DecidableEq, Repr

/-- The lookup `ROLES[key]`: own properties first, then the prototype. -/
def rolesMember (key : String) : RolesMember :=
  match ROLES.lookup key with
  | some list => .capabilities list
  | none => if key ∈ objectPrototypeKeys then .inherited else .undefined

/-- An exception thrown by JavaScript code. -/
inductive JsError where
  /-- A `TypeError` raised by the language (calling something that is not a function). -/
  | typeError
  /-- An `Error` carrying the given `message`. -/
  | error (message : String)
  /-- A validation or cast error raised by the schema layer itself. -/
  | validation
  /-- A duplicate-key error raised by a unique index. -/
  | duplicateKey
  deriving DecidableEq, Repr

/-- `hasPermission(userRole, permission)`:
`ROLES[userRole]?.includes(permission) || false`. The optional chain yields `undefined`
when `ROLES[userRole]` is nullish; otherwise `.includes` is looked up on the value and
called, which throws when the value has no such method. -/
def hasPermission (userRole : RoleArg) (permission : String) : Except JsError Bool :=
  match rolesMember userRole.toPropertyKey with
  | .undefined => .ok false
  | .capabilities list => .ok (list.contains permission || false)
  | .inherited => .error .typeError

/-! ## middleware/contextStore.js -/

/-- The decoded claims of a token. A key is `none` when it is absent from the payload. -/
structure Payload where
  userId : Option String
  email : Option String
  role : Option String
  instituteId : Option String
  deriving DecidableEq, Repr

/-- The object `{ ...payload, ...existingUser }`: every key of the stored document
overrides the token's key of the same name; `userId` is a key of the token only. -/
structure AuthUser where
  userId : Option String
  _id : ObjectId
  email : String
  password : String
  role : Role
  instituteId : Option ObjectId
  isActive : Bool
  isDeleted : Bool
  deriving DecidableEq, Repr

/-- The object spread `{ ...payload, ...existingUser }`. -/
def spread (payload : Payload) (existingUser : UserDoc) : AuthUser :=
  { userId := payload.userId
    _id := existingUser._id
    email := existingUser.email
    password := existingUser.password
    role := existingUser.role
    instituteId := existingUser.instituteId
    isActive := existingUser.isActive
    isDeleted := existingUser.isDeleted }

/-- The stored document that the merged object carries. -/
def AuthUser.doc (u : AuthUser) : UserDoc :=
  { _id := u._id, email := u.email, password := u.password, role := u.role,
    instituteId := u.instituteId, isActive := u.isActive, isDeleted := u.isDeleted }

/-- A value held in the request-scoped store. -/
inductive CtxValue where
  | undefined
  | id (o : ObjectId)
  | role (r : Role)
  | user (u : AuthUser)
  deriving DecidableEq, Repr

/-- The `Map` of one request. -/
abbrev Store := List (String × CtxValue)

/-- `store.set(key, value)` on a `Map`: replaces the entry of an existing key. -/
def Store.set (store : Store) (key : String) (value : CtxValue) : Store :=
  (key, value) :: store.filter (fun kv => kv.1 != key)

/-- `store.get(key)` on a `Map`. -/
def Store.get (store : Store) (key : String) : CtxValue :=
  (store.lookup key).getD .undefined

/-- `contextMiddleware`: the store the request's call chain runs in, a new empty `Map`. -/
def contextMiddleware : Option Store := some []

/-- `setContext(key, value)`; `context.getStore()` is `none` outside any request scope. -/
def setContext (store : Option Store) (key : String) (value : CtxValue) : Option Store :=
  match store with
  | some m => some (m.set key value)
  | none => none

/-- `getContext(key)`. -/
def getContext (store : Option Store) (key : String) : CtxValue :=
  match store with
  | some m => m.get key
  | none => .undefined

/-- `setUserId(userId)`. -/
def setUserId (store : Option Store) (userId : ObjectId) : Option Store :=
  setContext store "userId" (.id userId)

/-- `getUserId()`. -/
def getUserId (store : Option Store) : CtxValue := getContext store "userId"

/-- `setUserRole(role)`. -/
def setUserRole (store : Option Store) (role : Role) : Option Store :=
  setContext store "role" (.role role)

/-- `getUserRole()`. -/
def getUserRole (store : Option Store) : CtxValue := getContext store "role"

/-- `setInstituteId(instituteId)`. -/
def setInstituteId (store : Option Store) (instituteId : ObjectId) : Option Store :=
  setContext store "instituteId" (.id instituteId)

/-- `getInstituteId()`. -/
def getInstituteId (store : Option Store) : CtxValue := getContext store "instituteId"

/-- `setUser(user)`. -/
def setUser (store : Option Store) (user : AuthUser) : Option Store :=
  setContext store "user" (.user user)

/-- `getUser()`. -/
def getUser (store : Option Store) : CtxValue := getContext store "user"

/-- The fields of the request object that the gate writes, and the request-scoped store. -/
structure RequestState where
  user : Option AuthUser
  instituteId : Option ObjectId
  store : Option Store
  deriving DecidableEq, Repr

/-- `setAuthContext(req, user)`. -/
def setAuthContext (req : RequestState) (user : AuthUser) : RequestState :=
  let req : RequestState := { req with user := some user }
  let req : RequestState := { req with store := setUserId req.store user._id }
  let req : RequestState := { req with store := setUserRole req.store user.role }
  let req : RequestState := { req with store := setUser req.store user }
  if user.role ≠ Role.SUPER_ADMIN then
    match user.instituteId with
    | some instituteId =>
      { req with instituteId := some instituteId, store := setInstituteId req.store instituteId }
    | none => req
  else req

/-! ## utils/responseHelper.js -/

/-- The kinds of the spec's error taxonomy, and `ServerError` for the generic failure. -/
inductive ErrorKind where
  | Unauthenticated
  | Forbidden
  | NotFound
  | Gone
  | Conflict
  | InvalidRequest
  | InvalidDateRange
  | TenantRequired
  | ServerError
  deriving DecidableEq, Repr

/-- A failure response: its kind and the `message` of its body. -/
structure Response where
  kind : ErrorKind
  message : String
  deriving DecidableEq, Repr

/-- Modelled from the spec: `utils/responseHelper.js` is not among the sources;
`setNotAuthorized` answers with the `Unauthenticated` kind (missing, invalid or expired
token). -/
def setNotAuthorized (message : String) : Response := ⟨.Unauthenticated, message⟩

/-- Modelled from the spec: `utils/responseHelper.js` is not among the sources;
`setForbidden` answers with the `Forbidden` kind. -/
def setForbidden (message : String) : Response := ⟨.Forbidden, message⟩

/-- Modelled from the spec: `utils/responseHelper.js` is not among the sources;
`setNotFoundError` answers with the `NotFound` kind (referenced entity absent). -/
def setNotFoundError (message : String) : Response := ⟨.NotFound, message⟩

/-! ## middleware/auth.middleware.js -/

/-- The `message` property of a thrown exception. -/
def JsError.message : JsError → String
  | .typeError => "ROLES[userRole]?.includes is not a function"
  | .error message => message
  | .validation => "Validation failed"
  | .duplicateKey => "E11000 duplicate key error collection"

/-- The collaborators of the gate: `jwt.verify(token, secret)`, the `ObjectId` constructor
applied to a string (it throws on a string that is no identifier) and
`User.findById(id).lean()`, which yields the stored document or `null`, or fails. -/
structure AuthEnv where
  jwtVerify : String → Except JsError Payload
  objectId : String → Except JsError ObjectId
  findById : ObjectId → Except JsError (Option UserDoc)

/-- The live entries of `tokenCache`, newest first. -/
abbrev TokenCache := List (String × Payload)

/-- `verifyToken(token)`: the cached claims when present, otherwise `jwt.verify` and
`tokenCache.set`. Returns the claims and the cache afterwards. -/
def verifyToken (env : AuthEnv) (tokenCache : TokenCache) (token : String) :
    Except JsError (Payload × TokenCache) :=
  match tokenCache.lookup token with
  | some cached => .ok (cached, tokenCache)
  | none =>
    match env.jwtVerify token with
    | .error e => .error e
    | .ok decoded => .ok (decoded, (token, decoded) :: tokenCache)

/-- `fetchUserById(userId)`. -/
def fetchUserById (env : AuthEnv) (userId : ObjectId) : Except JsError UserDoc :=
  match env.findById userId with
  | .error e => .error e
  | .ok none => .error (.error "User not found")
  | .ok (some existingUser) =>
    if existingUser.isDeleted then .error (.error "User deleted")
    else if !existingUser.isActive then .error (.error "User inactive")
    else .ok existingUser

/-- The parts of a string between occurrences of `sep`: `s.split(sep)` for a one-character
separator, on the characters of `s`. -/
def splitChars (sep : Char) : List Char → List (List Char)
  | [] => [[]]
  | c :: cs =>
    if c = sep then [] :: splitChars sep cs
    else
      match splitChars sep cs with
      | [] => [[c]]
      | part :: parts => (c :: part) :: parts

/-- `authorization?.split(' ')[1]`; `none` is `undefined`. -/
def bearerToken (authorization : Option String) : Option String :=
  match authorization with
  | none => none
  | some header => ((splitChars ' ' header.toList).get? 1).map String.mk

/-- Truthiness of a value that is a string or `undefined`/`null`. -/
def truthy : Option String → Bool
  | none => false
  | some s => s != ""

/-- What one run of the middleware returned by `checkPermission` did: the response it
sent (if any), whether it called `next()`, the identifiers it asked the user collection
for, the request afterwards and the token cache afterwards. -/
structure GateResult where
  response : Option Response
  nextCalled : Bool
  lookups : List ObjectId
  req : RequestState
  tokenCache : TokenCache

/-- The handler of the inner `catch (err)`; a rethrown error reaches the outer `catch`,
which answers `setNotAuthorized`. -/
def catchInner (err : JsError) : Response :=
  if err.message = "User not found" then setNotFoundError "User not found"
  else if err.message = "User deleted" then setNotFoundError "User has been deleted"
  else if err.message = "User inactive" then setForbidden "User account is inactive"
  else setNotAuthorized "Session expired. Please login again"

/-- `checkPermission(requiredPermission)(req, res, next)` on a request whose
`headers.authorization` is `authorization`. -/
def checkPermission (env : AuthEnv) (requiredPermission : Option String)
    (tokenCache : TokenCache) (authorization : Option String) (req : RequestState) :
    GateResult :=
  match bearerToken authorization with
  | none => ⟨some (setNotAuthorized "No token provided"), false, [], req, tokenCache⟩
  | some token =>
    if !truthy (some token) then
      ⟨some (setNotAuthorized "No token provided"), false, [], req, tokenCache⟩
    else
      match verifyToken env tokenCache token with
      | .error _ =>
        ⟨some (setNotAuthorized "Session expired. Please login again"), false, [], req,
          tokenCache⟩
      | .ok (payload, tokenCache) =>
        match payload.userId with
        | none => ⟨some (setNotAuthorized "Invalid token payload"), false, [], req, tokenCache⟩
        | some userId =>
          if !truthy (some userId) then
            ⟨some (setNotAuthorized "Invalid token payload"), false, [], req, tokenCache⟩
          else
            match env.objectId userId with
            | .error err => ⟨some (catchInner err), false, [], req, tokenCache⟩
            | .ok contextUserId =>
              match fetchUserById env contextUserId with
              | .error err => ⟨some (catchInner err), false, [contextUserId], req, tokenCache⟩
              | .ok existingUser =>
                if truthy requiredPermission then
                  match hasPermission (.str existingUser.role.value)
                      (requiredPermission.getD "") with
                  | .error err =>
                    ⟨some (catchInner err), false, [contextUserId], req, tokenCache⟩
                  | .ok false =>
                    ⟨some (setForbidden "Insufficient permissions"), false, [contextUserId],
                      req, tokenCache⟩
                  | .ok true =>
                    ⟨none, true, [contextUserId],
                      setAuthContext req (spread payload existingUser), tokenCache⟩
                else
                  ⟨none, true, [contextUserId],
                    setAuthContext req (spread payload existingUser), tokenCache⟩

/-! ## models/academicSession.model.js -/

/-- A stored academic-session document. Dates are time values in milliseconds. -/
structure Session where
  _id : ObjectId
  instituteId : ObjectId
  name : String
  startDate : Int
  endDate : Int
  isCurrent : Bool
  isActive : Bool
  isDeleted : Bool
  deriving DecidableEq, Repr

/-- The session collection, in insertion order. Storage itself is taken to be reliable:
the only failures are those of the schema (validation, hooks, unique index). -/
abbrev Sessions := List Session

/-- A newly generated identifier: it differs from the `_id` of every stored session. -/
def freshId (db : Sessions) : ObjectId :=
  ⟨db.foldr (fun s m => max s._id.n m) 0 + 1⟩

/-- White space as `String.prototype.trim` understands it, by code point. -/
def isWhiteSpace (c : Char) : Bool :=
  decide (c.toNat ∈ [9, 10, 11, 12, 13, 32, 160, 5760, 8232, 8233, 8239, 8287, 12288, 65279])
    || (decide (8192 ≤ c.toNat) && decide (c.toNat ≤ 8202))

/-- The schema option `trim: true` on `name`: `name.trim()`. -/
def trim (s : String) : String :=
  String.mk ((s.toList.dropWhile isWhiteSpace).reverse.dropWhile isWhiteSpace).reverse

/-- The argument of `createSession`, as the controller builds it:
`{ name, startDate, endDate, isCurrent, instituteId }`. -/
structure CreateData where
  name : String
  startDate : DateInput
  endDate : DateInput
  isCurrent : Bool
  instituteId : ObjectId
  deriving DecidableEq, Repr

/-- The argument of `updateSession`: the keys of the schema that the patch carries, with
values already of the schema's types. A date that is `falsy` stands for a key that is
present with `null` or the empty string. -/
structure SessionPatch where
  name : Option String
  startDate : Option DateInput
  endDate : Option DateInput
  isCurrent : Option Bool
  isActive : Option Bool
  isDeleted : Option Bool
  instituteId : Option ObjectId
  deriving DecidableEq, Repr

/-- Truthiness of a patch's date key. -/
def truthyDate : Option DateInput → Bool
  | none => false
  | some .falsy => false
  | some _ => true

/-- `patched || stored` for a date key. -/
def orStored (patched : Option DateInput) (stored : Int) : DateInput :=
  match patched with
  | none => .at stored
  | some .falsy => .at stored
  | some d => d

/-- The unique index `{ instituteId: 1, name: 1 }`: whether a document other than `self`
already has this pair. -/
def nameTaken (db : Sessions) (self : Option ObjectId) (instituteId : ObjectId)
    (name : String) : Bool :=
  db.any fun s => decide (some s._id ≠ self) && decide (s.instituteId = instituteId)
    && decide (s.name = name)

/-! ## repo/academicSession.repo.js -/

/-- The query object the `getAllSessions` handler builds: `instituteId`, and the values
of the query-string keys `isCurrent` and `isActive`; `none` is an absent key. The
repository tests a flag with `value === true || value === 'true'`, which of all the values
a query string can give holds for the string `true` alone. -/
structure SessionQuery where
  instituteId : Option ObjectId
  isCurrent : Option String
  isActive : Option String
  deriving DecidableEq, Repr

namespace AcademicSessionRepo

/-- `AcademicSession.create(data)`: schema casting and validators, the `pre('save')`
hook, the unique index, then the insertion with the schema defaults. -/
def createSession (tz : Zone) (db : Sessions) (data : CreateData) :
    Sessions × Except JsError Session :=
  match data.startDate, data.endDate with
  | .at startDate, .at endDate =>
    let name := trim data.name
    if name = "" then (db, .error .validation)
    else
      let dateValidation := validateDateRange tz (.at startDate) (.at endDate)
      if !dateValidation.valid then (db, .error (.error (dateValidation.error.getD "")))
      else if nameTaken db none data.instituteId name then (db, .error .duplicateKey)
      else
        let session : Session :=
          { _id := freshId db, instituteId := data.instituteId, name := name,
            startDate := startDate, endDate := endDate, isCurrent := data.isCurrent,
            isActive := true, isDeleted := false }
        (db ++ [session], .ok session)
  | _, _ => (db, .error .validation)

/-- `AcademicSession.findById(sessionId).lean()`. -/
def getSessionById (db : Sessions) (id : ObjectId) : Option Session :=
  db.find? fun s => s._id = id

/-- `getAllSessions({ instituteId, isDeleted: false })`, without the sort. -/
def getAllSessions (db : Sessions) (instituteId : ObjectId) : List Session :=
  db.filter fun s => !s.isDeleted && decide (s.instituteId = instituteId)

/-- `getAllSessions(query)` for a query of the `getAllSessions` handler: the filter
`{ isDeleted: false }` with `instituteId` when the query has a truthy one and with
`isCurrent` and `isActive` when the query has the key, then the sort by `startDate`,
latest first (documents with the same start date stay in stored order). -/
def getAllSessionsBy (db : Sessions) (query : SessionQuery) : List Session :=
  (db.filter fun s =>
    !s.isDeleted
      && (match query.instituteId with
        | none => true
        | some instituteId => decide (s.instituteId = instituteId))
      && (match query.isCurrent with
        | none => true
        | some value => s.isCurrent == decide (value = "true"))
      && (match query.isActive with
        | none => true
        | some value => s.isActive == decide (value = "true"))).insertionSort
    fun a b => a.startDate ≥ b.startDate

/-- `getCurrentSession(instituteId)`. -/
def getCurrentSession (db : Sessions) (instituteId : ObjectId) : Option Session :=
  db.find? fun s =>
    decide (s.instituteId = instituteId) && s.isCurrent && s.isActive && !s.isDeleted

/-- `AcademicSession.findByIdAndUpdate(id, { $set: ... }, { new: true })` for a `$set`
that touches neither a date nor an indexed key: the collection and the updated document
afterwards, `none` when no document has the identifier. -/
def findByIdAndUpdate (db : Sessions) (id : ObjectId) (set : Session → Session) :
    Sessions × Option Session :=
  match db.find? fun s => s._id = id with
  | none => (db, none)
  | some found => (db.map fun s => if s._id = id then set s else s, some (set found))

/-- The `updateMany` of `setCurrentSession`: `isCurrent: false` on every document of the
institute that has `isCurrent: true`. -/
def unsetCurrent (db : Sessions) (instituteId : ObjectId) : Sessions :=
  db.map fun s =>
    if s.instituteId = instituteId ∧ s.isCurrent = true then { s with isCurrent := false }
    else s

/-- `setCurrentSession(instituteId, sessionId)`; a `sessionId` of `null` makes
`new mongoose.Types.ObjectId(sessionId)` a newly generated identifier. -/
def setCurrentSession (db : Sessions) (instituteId : ObjectId) (sessionId : Option ObjectId) :
    Sessions × Option Session :=
  let newSessionId := match sessionId with
    | some id => id
    | none => freshId db
  let db := unsetCurrent db instituteId
  findByIdAndUpdate db newSessionId fun s => { s with isCurrent := true, isActive := true }

/-- The time value a patch's date key is cast to; `none` when the cast or the `required`
validator rejects it. -/
def castDate : Option DateInput → Option (Option Int)
  | none => some none
  | some (.at ms) => some (some ms)
  | some _ => none

/-- `updateSession(id, data)`:
`findByIdAndUpdate(id, { $set: data }, { new: true, runValidators: true })` with the
schema's casting and validators, the pre-update hook, and the unique index. -/
def updateSession (tz : Zone) (db : Sessions) (id : ObjectId) (data : SessionPatch) :
    Sessions × Except JsError (Option Session) :=
  match castDate data.startDate, castDate data.endDate with
  | some startDate, some endDate =>
    if data.name.map trim = some "" then (db, .error .validation)
    else
      match db.find? fun s => s._id = id with
      | none => (db, .ok none)
      | some doc =>
        let dateValidation :=
          if truthyDate data.startDate || truthyDate data.endDate then
            validateDateRange tz (orStored data.startDate doc.startDate)
              (orStored data.endDate doc.endDate)
          else ⟨true, none⟩
        if !dateValidation.valid then (db, .error (.error (dateValidation.error.getD "")))
        else
          let updated : Session :=
            { _id := doc._id
              instituteId := data.instituteId.getD doc.instituteId
              name := (data.name.map trim).getD doc.name
              startDate := startDate.getD doc.startDate
              endDate := endDate.getD doc.endDate
              isCurrent := data.isCurrent.getD doc.isCurrent
              isActive := data.isActive.getD doc.isActive
              isDeleted := data.isDeleted.getD doc.isDeleted }
          if nameTaken db (some id) updated.instituteId updated.name then
            (db, .error .duplicateKey)
          else (db.map fun s => if s._id = id then updated else s, .ok (some updated))
  | _, _ => (db, .error .validation)

/-- `deleteSession(id)`. -/
def deleteSession (db : Sessions) (id : ObjectId) : Sessions × Option Session :=
  findByIdAndUpdate db id fun s =>
    { s with isDeleted := true, isActive := false, isCurrent := false }

/-- `findSessionByDate(instituteId, date)` for a `date` whose time value is `date`. When
`setHours` leaves `checkDate` an Invalid Date, the cast of the filter
`{ startDate: { $lte: checkDate }, ... }` fails and `findOne` rejects with a cast
error. -/
def findSessionByDate (tz : Zone) (db : Sessions) (instituteId : ObjectId) (date : Int) :
    Except JsError (Option Session) :=
  match setHoursZero tz date with
  | none => .error .validation
  | some checkDate =>
    .ok (db.find? fun s =>
      decide (s.instituteId = instituteId) && decide (s.startDate ≤ checkDate)
        && decide (s.endDate ≥ checkDate) && s.isActive && !s.isDeleted)

end AcademicSessionRepo

/-! ## services/academicSession.service.js -/

/-- What a service call did: the collection afterwards, the value it returned or the
error it threw, and whether it logged the overlap warning. -/
structure ServiceResult (α : Type) where
  db : Sessions
  result : Except JsError α
  overlapWarned : Bool

namespace AcademicSessionService

/-- The `some(...)` over the fetched sessions: an active, non-deleted session other than
`self` whose range overlaps `range`. -/
def hasOverlap (sessions : List Session) (self : Option ObjectId) (range : DateRange) : Bool :=
  sessions.any fun session =>
    if decide (some session._id = self) || !session.isActive || session.isDeleted then false
    else doDateRangesOverlap range ⟨.at session.startDate, .at session.endDate⟩

/-- `createSession(data)`. The assignment `data.isCurrent = false` is kept: the second
test of `data.isCurrent` reads the assigned value. -/
def createSession (tz : Zone) (db : Sessions) (data : CreateData) : ServiceResult Session :=
  let dateValidation := validateDateRange tz data.startDate data.endDate
  if !dateValidation.valid then ⟨db, .error (.error (dateValidation.error.getD "")), false⟩
  else
    let existingSessions := AcademicSessionRepo.getAllSessions db data.instituteId
    let newRange : DateRange := ⟨data.startDate, data.endDate⟩
    let hasOverlap := hasOverlap existingSessions none newRange
    let (db, data) :=
      if data.isCurrent then
        ((AcademicSessionRepo.setCurrentSession db data.instituteId none).1,
          { data with isCurrent := false })
      else (db, data)
    match AcademicSessionRepo.createSession tz db data with
    | (db, .error e) => ⟨db, .error e, hasOverlap⟩
    | (db, .ok session) =>
      if data.isCurrent then
        let db := (AcademicSessionRepo.setCurrentSession db data.instituteId
          (some session._id)).1
        ⟨db, .ok { session with isCurrent := true }, hasOverlap⟩
      else ⟨db, .ok session, hasOverlap⟩

/-- `setCurrentSession(instituteId, sessionId)`. -/
def setCurrentSession (db : Sessions) (instituteId sessionId : ObjectId) :
    ServiceResult Session :=
  match AcademicSessionRepo.setCurrentSession db instituteId (some sessionId) with
  | (db, none) => ⟨db, .error (.error "Session not found"), false⟩
  | (db, some session) => ⟨db, .ok session, false⟩

/-- `updateSession(id, data)`. -/
def updateSession (tz : Zone) (db : Sessions) (id : ObjectId) (data : SessionPatch) :
    ServiceResult (Option Session) :=
  match AcademicSessionRepo.getSessionById db id with
  | none => ⟨db, .error (.error "Session not found"), false⟩
  | some existingSession =>
    let startDate := orStored data.startDate existingSession.startDate
    let endDate := orStored data.endDate existingSession.endDate
    let dateValidation :=
      if truthyDate data.startDate || truthyDate data.endDate then
        validateDateRange tz startDate endDate
      else ⟨true, none⟩
    if !dateValidation.valid then ⟨db, .error (.error (dateValidation.error.getD "")), false⟩
    else
      let hasOverlap :=
        if truthyDate data.startDate || truthyDate data.endDate then
          hasOverlap (AcademicSessionRepo.getAllSessions db existingSession.instituteId)
            (some id) ⟨startDate, endDate⟩
        else false
      let db :=
        if data.isCurrent = some true then
          match AcademicSessionRepo.getSessionById db id with
          | some session =>
            (AcademicSessionRepo.setCurrentSession db session.instituteId (some id)).1
          | none => db
        else db
      match AcademicSessionRepo.updateSession tz db id data with
      | (db, .error e) => ⟨db, .error e, hasOverlap⟩
      | (db, .ok session) => ⟨db, .ok session, hasOverlap⟩

/-- `getAllSessions(query)`, as the `getAllSessions` handler calls it. -/
def getAllSessions (db : Sessions) (query : SessionQuery) : List Session :=
  AcademicSessionRepo.getAllSessionsBy db query

/-- `getCurrentSession(instituteId)`. -/
def getCurrentSession (db : Sessions) (instituteId : ObjectId) : Option Session :=
  AcademicSessionRepo.getCurrentSession db instituteId

/-- `deleteSession(id)`. -/
def deleteSession (db : Sessions) (id : ObjectId) : ServiceResult Session :=
  match AcademicSessionRepo.deleteSession db id with
  | (db, none) => ⟨db, .error (.error "Session not found"), false⟩
  | (db, some session) => ⟨db, .ok session, false⟩

/-- `findSessionByDate(instituteId, date)`. -/
def findSessionByDate (tz : Zone) (db : Sessions) (instituteId : ObjectId) (date : Int) :
    Except JsError (Option Session) :=
  AcademicSessionRepo.findSessionByDate tz db instituteId date

end AcademicSessionService

/-- One call of the session service. -/
inductive SessionCall where
  | createSession (data : CreateData)
  | setCurrentSession (instituteId sessionId : ObjectId)
  | updateSession (id : ObjectId) (data : SessionPatch)
  deriving DecidableEq, Repr

/-- The collection after one call, whether it returned or threw. -/
def SessionCall.run (tz : Zone) (db : Sessions) : SessionCall → Sessions
  | .createSession data => (AcademicSessionService.createSession tz db data).db
  | .setCurrentSession instituteId sessionId =>
    (AcademicSessionService.setCurrentSession db instituteId sessionId).db
  | .updateSession id data => (AcademicSessionService.updateSession tz db id data).db

/-- The collection after a sequence of calls executed one after another. -/
def runCalls (tz : Zone) (db : Sessions) (calls : List SessionCall) : Sessions :=
  calls.foldl (SessionCall.run tz) db

/-- The sessions of an institute that have `isCurrent = true`. -/
def currentSessions (db : Sessions) (instituteId : ObjectId) : List Session :=
  db.filter fun s => decide (s.instituteId = instituteId) && s.isCurrent

/-! ## models/user.model.js and models/institute.model.js: stored records -/

/-- A stored user document with the further paths the user service reads and writes.
`email`, `firstName` and `lastName` are stored as the schema's setters leave them. -/
structure UserRecord extends UserDoc where
  firstName : String
  lastName : String
  phoneNo : Option String
  countryCode : Option String
  deriving DecidableEq, Repr

/-- The user collection, in insertion order. Reads are taken to be reliable. -/
abbrev Users := List UserRecord

/-- A stored institute document, restricted to the paths the user service reads. -/
structure InstituteDoc where
  _id : ObjectId
  isActive : Bool
  isDeleted : Bool
  deriving DecidableEq, Repr

/-- The institute collection. -/
abbrev Institutes := List InstituteDoc

/-- The collaborators of the user service: `String.prototype.toLowerCase`,
`bcrypt.hash(password, 10)` and `bcrypt.compare(password, hash)`, the string form of an
identifier (`_id.toString()`), `jwt.sign` as `generateToken` calls it, and the storage
write of `updateLastLogin`, which may fail. -/
structure UserEnv where
  toLowerCase : String → String
  hash : String → String
  compare : String → String → Bool
  idToString : ObjectId → String
  jwtSign : Payload → Except JsError String
  updateLastLogin : ObjectId → Except JsError Unit

/-- The setters of the `email` path (`lowercase: true, trim: true`), which the schema
layer applies to a stored value and to a query filter alike; also
`email.toLowerCase().trim()`. -/
def castEmail (env : UserEnv) (email : String) : String :=
  trim (env.toLowerCase email)

/-- The role a string of the `role` path's `enum` stands for. -/
def Role.ofValue? (s : String) : Option Role :=
  [Role.SUPER_ADMIN, .INSTITUTE_ADMIN, .TEACHER, .STUDENT, .PARENT, .STAFF, .USER].find?
    fun r => r.value = s

/-- A newly generated identifier: it differs from the `_id` of every stored user. -/
def freshUserId (users : Users) : ObjectId :=
  ⟨users.foldr (fun u m => max u._id.n m) 0 + 1⟩

/-- The `userData` object a creation is called with; `none` is an absent key. It may
carry keys of its own named `role` and `instituteId`. -/
structure UserData where
  firstName : Option String
  lastName : Option String
  email : Option String
  password : Option String
  phoneNo : Option String
  countryCode : Option String
  role : Option String
  instituteId : Option String
  deriving DecidableEq, Repr

/-- The object handed to `User.create`: `{ ...userData, password, role, instituteId }`,
where the three named keys override those of `userData`. -/
structure DataToCreate where
  firstName : Option String
  lastName : Option String
  email : Option String
  password : String
  phoneNo : Option String
  countryCode : Option String
  role : Option String
  instituteId : Option ObjectId
  deriving DecidableEq, Repr

/-- A user as a service returns it: the plain copy of the document after
`delete userResponse.password`; `password = none` is the absent key. -/
structure UserResponse where
  _id : ObjectId
  email : String
  password : Option String
  role : Role
  instituteId : Option ObjectId
  isActive : Bool
  isDeleted : Bool
  firstName : String
  lastName : String
  phoneNo : Option String
  countryCode : Option String
  deriving DecidableEq, Repr

/-- `user.toObject()` followed by `delete userResponse.password`. -/
def deletePassword (user : UserRecord) : UserResponse :=
  { _id := user._id, email := user.email, password := none, role := user.role,
    instituteId := user.instituteId, isActive := user.isActive, isDeleted := user.isDeleted,
    firstName := user.firstName, lastName := user.lastName, phoneNo := user.phoneNo,
    countryCode := user.countryCode }

/-! ## repo/user.repo.js and repo/institute.repo.js -/

namespace UserRepo

/-- The unique index `{ email: 1, instituteId: 1 }`, over every stored document. -/
def emailTaken (users : Users) (email : String) (instituteId : Option ObjectId) : Bool :=
  users.any fun u => decide (u.email = email) && decide (u.instituteId = instituteId)

/-- The unique sparse index `{ phoneNo: 1, countryCode: 1, instituteId: 1 }`. A document
is indexed when it has at least one of the keys, and every stored user has the key
`instituteId`, so every document is indexed, an absent key counting as `null`. -/
def phoneTaken (users : Users) (phoneNo countryCode : Option String)
    (instituteId : Option ObjectId) : Bool :=
  users.any fun u => decide (u.phoneNo = phoneNo) && decide (u.countryCode = countryCode)
    && decide (u.instituteId = instituteId)

/-- `createUser(data)`: `User.create(data)` with the schema's setters, its `required`
and `enum` validators, its defaults and its unique indexes. -/
def createUser (env : UserEnv) (users : Users) (data : DataToCreate) :
    Users × Except JsError UserRecord :=
  let firstName := trim (data.firstName.getD "")
  let lastName := trim (data.lastName.getD "")
  let email := castEmail env (data.email.getD "")
  let role := match data.role with
    | none => some Role.USER
    | some s => Role.ofValue? s
  match role with
  | none => (users, .error .validation)
  | some role =>
    if firstName = "" ∨ lastName = "" ∨ email = "" ∨ data.password = "" then
      (users, .error .validation)
    else if emailTaken users email data.instituteId then (users, .error .duplicateKey)
    else if phoneTaken users data.phoneNo data.countryCode data.instituteId then
      (users, .error .duplicateKey)
    else
      let user : UserRecord :=
        { _id := freshUserId users, email := email, password := data.password, role := role,
          instituteId := data.instituteId, isActive := true, isDeleted := false,
          firstName := firstName, lastName := lastName, phoneNo := data.phoneNo,
          countryCode := data.countryCode }
      (users ++ [user], .ok user)

/-- `getUserByEmail(email, instituteId)`: the query
`{ email, isDeleted: false, instituteId }`, with `instituteId: null` when the argument is
falsy. -/
def getUserByEmail (env : UserEnv) (users : Users) (email : String)
    (instituteId : Option ObjectId) : Option UserRecord :=
  users.find? fun u => decide (u.email = castEmail env email) && !u.isDeleted
    && decide (u.instituteId = instituteId)

/-- `getUserByPhone(phoneNo, countryCode, instituteId)`. -/
def getUserByPhone (users : Users) (phoneNo countryCode : Option String)
    (instituteId : Option ObjectId) : Option UserRecord :=
  if !truthy phoneNo then none
  else
    users.find? fun u => decide (u.phoneNo = phoneNo) && !u.isDeleted
      && (!truthy countryCode || decide (u.countryCode = countryCode))
      && decide (u.instituteId = instituteId)

/-- `getUserByEmailForLogin(email)`: the query
`{ email: email.toLowerCase().trim(), isDeleted: false }`. -/
def getUserByEmailForLogin (env : UserEnv) (users : Users) (email : String) :
    Option UserRecord :=
  users.find? fun u => decide (u.email = castEmail env email) && !u.isDeleted

end UserRepo

namespace InstituteRepo

/-- `getInstituteById(id)`; an `id` of `undefined` makes the identifier a newly generated
one, which no document has. -/
def getInstituteById (institutes : Institutes) (id : Option ObjectId) : Option InstituteDoc :=
  match id with
  | none => none
  | some id => institutes.find? fun i => i._id = id

end InstituteRepo

/-! ## services/user.service.js -/

/-- What a creation did: the user collection afterwards and the value it returned or the
error it threw. -/
structure UserServiceResult (α : Type) where
  users : Users
  result : Except JsError α

/-- The object `login` returns: `{ user: userResponse, token }`. -/
structure LoginSuccess where
  user : UserResponse
  token : String
  deriving DecidableEq, Repr

/-- What one `login` did: the value it returned or the error it threw, the identifiers
it called `updateLastLogin` with, and the payloads it handed to `generateToken`. -/
structure LoginOutcome where
  result : Except JsError LoginSuccess
  lastLoginUpdates : List ObjectId
  signed : List Payload

namespace UserService

/-- `hashPassword(password)`: `bcrypt.hash(password, 10)`, which throws when the data is
`undefined`. -/
def hashPassword (env : UserEnv) (password : Option String) : Except JsError String :=
  match password with
  | none => .error (.error "data and salt arguments required")
  | some password => .ok (env.hash password)

/-- The statements every creation ends with, from `hashPassword` on: the object handed
to `User.create` takes `password`, `role` and `instituteId` from the service and every
other key from `userData`. -/
def hashAndCreate (env : UserEnv) (users : Users) (userData : UserData)
    (role : Option String) (instituteId : Option ObjectId) : UserServiceResult UserResponse :=
  match hashPassword env userData.password with
  | .error e => ⟨users, .error e⟩
  | .ok hashedPassword =>
    let dataToCreate : DataToCreate :=
      { firstName := userData.firstName, lastName := userData.lastName,
        email := userData.email, password := hashedPassword, phoneNo := userData.phoneNo,
        countryCode := userData.countryCode, role := role, instituteId := instituteId }
    match UserRepo.createUser env users dataToCreate with
    | (users, .error e) => ⟨users, .error e⟩
    | (users, .ok user) => ⟨users, .ok (deletePassword user)⟩

/-- The lookup `getUserByEmail(email, instituteId)` with the `email` of `userData`; an
`undefined` email matches no document. -/
def existingUserByEmail (env : UserEnv) (users : Users) (userData : UserData)
    (instituteId : Option ObjectId) : Option UserRecord :=
  match userData.email with
  | none => none
  | some email => UserRepo.getUserByEmail env users email instituteId

/-- The guarded lookup `if (userData.phoneNo) getUserByPhone(...)`. -/
def existingUserByPhone (users : Users) (userData : UserData)
    (instituteId : Option ObjectId) : Option UserRecord :=
  if truthy userData.phoneNo then
    UserRepo.getUserByPhone users userData.phoneNo userData.countryCode instituteId
  else none

/-- `createSuperAdmin(userData)`. -/
def createSuperAdmin (env : UserEnv) (users : Users) (userData : UserData) :
    UserServiceResult UserResponse :=
  if !truthy userData.firstName || !truthy userData.lastName || !truthy userData.email
      || !truthy userData.password then
    ⟨users, .error (.error
      "Missing required fields: firstName, lastName, email, and password are mandatory.")⟩
  else if truthy userData.instituteId then
    ⟨users, .error (.error "Super admin cannot be associated with an institute")⟩
  else if (existingUserByEmail env users userData none).isSome then
    ⟨users, .error (.error "User with this email already exists")⟩
  else if (existingUserByPhone users userData none).isSome then
    ⟨users, .error (.error "User with this phone number already exists")⟩
  else hashAndCreate env users userData (some Role.SUPER_ADMIN.value) none

/-- The three tests on the institute that the tenant-scoped creations share; `none` when
all pass. -/
def instituteFailure (institute : Option InstituteDoc) : Option JsError :=
  match institute with
  | none => some (.error "Institute not found")
  | some institute =>
    if institute.isDeleted then some (.error "Institute has been deleted")
    else if !institute.isActive then some (.error "Institute is not active")
    else none

/-- `createInstituteAdmin(userData, instituteId)`. -/
def createInstituteAdmin (env : UserEnv) (users : Users) (institutes : Institutes)
    (userData : UserData) (instituteId : Option ObjectId) : UserServiceResult UserResponse :=
  if !truthy userData.firstName || !truthy userData.lastName || !truthy userData.email
      || !truthy userData.password then
    ⟨users, .error (.error
      "Missing required fields: firstName, lastName, email, and password are mandatory.")⟩
  else if instituteId.isNone then
    ⟨users, .error (.error "Institute ID is required for institute admin")⟩
  else
    match instituteFailure (InstituteRepo.getInstituteById institutes instituteId) with
    | some e => ⟨users, .error e⟩
    | none =>
      if (existingUserByEmail env users userData instituteId).isSome then
        ⟨users, .error (.error "User with this email already exists in this institute")⟩
      else if (existingUserByPhone users userData instituteId).isSome then
        ⟨users, .error (.error
          "User with this phone number already exists in this institute")⟩
      else hashAndCreate env users userData (some Role.INSTITUTE_ADMIN.value) instituteId

/-- `createInstituteUser(userData, role, instituteId)`. -/
def createInstituteUser (env : UserEnv) (users : Users) (institutes : Institutes)
    (userData : UserData) (role : Option String) (instituteId : Option ObjectId) :
    UserServiceResult UserResponse :=
  match instituteFailure (InstituteRepo.getInstituteById institutes instituteId) with
  | some e => ⟨users, .error e⟩
  | none =>
    if (existingUserByEmail env users userData instituteId).isSome then
      ⟨users, .error (.error "User with this email already exists in this institute")⟩
    else if (existingUserByPhone users userData instituteId).isSome then
      ⟨users, .error (.error "User with this phone number already exists in this institute")⟩
    else hashAndCreate env users userData role instituteId

/-- The `tokenPayload` of `login`:
`{ userId: user._id.toString(), email, role, instituteId: user.instituteId?.toString() || null }`. -/
def tokenPayload (env : UserEnv) (user : UserRecord) : Payload :=
  { userId := some (env.idToString user._id)
    email := some user.email
    role := some user.role.value
    instituteId :=
      match user.instituteId with
      | none => none
      | some instituteId =>
        if truthy (some (env.idToString instituteId)) then some (env.idToString instituteId)
        else none }

/-- `login(email, password)`. -/
def login (env : UserEnv) (users : Users) (institutes : Institutes)
    (email password : Option String) : LoginOutcome :=
  if !truthy email || !truthy password then
    ⟨.error (.error "Email and password are required"), [], []⟩
  else
    match UserRepo.getUserByEmailForLogin env users (email.getD "") with
    | none => ⟨.error (.error "Invalid email or password"), [], []⟩
    | some user =>
      if !user.isActive then ⟨.error (.error "User account is inactive"), [], []⟩
      else if user.isDeleted then ⟨.error (.error "User account has been deleted"), [], []⟩
      else if !env.compare (password.getD "") user.password then
        ⟨.error (.error "Invalid email or password"), [], []⟩
      else
        let instituteError :=
          match user.instituteId with
          | some instituteId =>
            instituteFailure (InstituteRepo.getInstituteById institutes (some instituteId))
          | none => none
        match instituteError with
        | some e => ⟨.error e, [], []⟩
        | none =>
          match env.updateLastLogin user._id with
          | .error e => ⟨.error e, [user._id], []⟩
          | .ok _ =>
            match env.jwtSign (tokenPayload env user) with
            | .error e => ⟨.error e, [user._id], [tokenPayload env user]⟩
            | .ok token =>
              ⟨.ok ⟨deletePassword user, token⟩, [user._id], [tokenPayload env user]⟩

end UserService

/-! ## Listing services: user.service.js, teacher.service.js, student.service.js -/

/-- The `query` object of a listing: its `instituteId` key and its remaining keys. -/
structure ListQuery where
  instituteId : Option String
  filters : List (String × String)
  deriving DecidableEq, Repr

/-- What one listing did: the page it returned or the error it threw, and the queries it
called the repository with. The repository call itself, which counts and fetches the
documents, is a parameter. -/
structure ListOutcome (ρ : Type) where
  result : Except JsError ρ
  repoCalls : List ListQuery

/-- The body the four listing services share: the guard on `query.instituteId` with the
service's own message, then the repository call. -/
def listWithGuard {ρ : Type} (message : String) (repo : ListQuery → Except JsError ρ)
    (query : ListQuery) : ListOutcome ρ :=
  if !truthy query.instituteId then ⟨.error (.error message), []⟩
  else ⟨repo query, [query]⟩

/-- `UserService.getAllUsers(query)`. -/
def UserService.getAllUsers {ρ : Type} (repo : ListQuery → Except JsError ρ)
    (query : ListQuery) : ListOutcome ρ :=
  listWithGuard "Institute ID is required to fetch users." repo query

/-- `UserService.getUsersWithoutProfile(query)`. -/
def UserService.getUsersWithoutProfile {ρ : Type} (repo : ListQuery → Except JsError ρ)
    (query : ListQuery) : ListOutcome ρ :=
  listWithGuard "Institute ID is required to fetch users without profile." repo query

/-- `TeacherService.getAllTeachers(query)`. -/
def TeacherService.getAllTeachers {ρ : Type} (repo : ListQuery → Except JsError ρ)
    (query : ListQuery) : ListOutcome ρ :=
  listWithGuard "Institute ID is required to fetch teachers." repo query

/-- `StudentService.getAllStudents(query)`. -/
def StudentService.getAllStudents {ρ : Type} (repo : ListQuery → Except JsError ρ)
    (query : ListQuery) : ListOutcome ρ :=
  listWithGuard "Institute ID is required to fetch students." repo query

/-! ## controllers/user.controller.js -/

/-- Modelled from the spec: `utils/responseHelper.js` is not among the sources;
`setBadRequest` answers with the `InvalidRequest` kind (malformed input, invalid role). -/
def setBadRequest (message : String) : Response := ⟨.InvalidRequest, message⟩

/-- Modelled from the spec: `utils/responseHelper.js` is not among the sources;
`setServerError` answers with the generic failure, outside the taxonomy. -/
def setServerError (message : String) : Response := ⟨.ServerError, message⟩

/-- What a creation handler answers: a failure response, or `setCreateSuccess` with its
message and the created user. -/
inductive HttpResponse where
  | failure (response : Response)
  | createSuccess (message : String) (user : UserResponse)
  deriving DecidableEq, Repr

/-- The keys of `req.body.user` that the handlers read (`gender`, `dob` and `address`
are passed through and left out here). -/
structure UserBody where
  firstName : Option String
  lastName : Option String
  email : Option String
  password : Option String
  phoneNo : Option String
  countryCode : Option String
  role : Option String
  deriving DecidableEq, Repr

/-- The request of a creation handler: `req.body.user`, `req.body.instituteId` and the
request-scoped store. -/
structure CreateUserRequest where
  user : Option UserBody
  instituteId : Option ObjectId
  store : Option Store
  deriving DecidableEq, Repr

/-- What a creation handler did: its response and the user collection afterwards. -/
structure ControllerResult where
  response : HttpResponse
  users : Users

namespace UserController

/-- The object literal `allowedRoles`: `[TEACHER, STUDENT, PARENT, STAFF, USER]`. -/
def allowedRoles : List String :=
  [Role.TEACHER.value, Role.STUDENT.value, Role.PARENT.value, Role.STAFF.value,
    Role.USER.value]

/-- `getInstituteId() || req.body.instituteId`. -/
def resolveInstituteId (req : CreateUserRequest) : Option ObjectId :=
  match getInstituteId req.store with
  | .id instituteId => some instituteId
  | _ => req.instituteId

/-- The `userData` object literal the handlers build: it has no `role` and no
`instituteId` key. -/
def userDataOf (body : UserBody) : UserData :=
  { firstName := body.firstName, lastName := body.lastName, email := body.email,
    password := body.password, phoneNo := body.phoneNo, countryCode := body.countryCode,
    role := none, instituteId := none }

/-- `req.body.user || {}`. -/
def bodyOf (req : CreateUserRequest) : UserBody :=
  req.user.getD ⟨none, none, none, none, none, none, none⟩

/-- `createInstituteAdmin(req, res)`. -/
def createInstituteAdmin (env : UserEnv) (users : Users) (institutes : Institutes)
    (req : CreateUserRequest) : ControllerResult :=
  let body := bodyOf req
  let instituteId := resolveInstituteId req
  if !truthy body.firstName || !truthy body.lastName || !truthy body.email
      || !truthy body.password then
    ⟨.failure (setBadRequest
      "Missing required fields: firstName, lastName, email, and password are mandatory."),
      users⟩
  else if instituteId.isNone then
    ⟨.failure (setBadRequest "Institute ID is required for institute admin creation."), users⟩
  else
    match UserService.createInstituteAdmin env users institutes (userDataOf body)
        instituteId with
    | ⟨users, .error e⟩ => ⟨.failure (setServerError e.message), users⟩
    | ⟨users, .ok user⟩ => ⟨.createSuccess "Institute admin created successfully" user, users⟩

/-- `createInstituteUser(req, res)`. -/
def createInstituteUser (env : UserEnv) (users : Users) (institutes : Institutes)
    (req : CreateUserRequest) : ControllerResult :=
  let body := bodyOf req
  let instituteId := resolveInstituteId req
  if !truthy body.firstName || !truthy body.lastName || !truthy body.email
      || !truthy body.password then
    ⟨.failure (setBadRequest
      "Missing required fields: firstName, lastName, email, and password are mandatory."),
      users⟩
  else if !truthy body.role then
    ⟨.failure (setBadRequest
      "Role is required. Allowed roles: TEACHER, STUDENT, PARENT, STAFF, USER"), users⟩
  else if !allowedRoles.contains (body.role.getD "") then
    ⟨.failure (setBadRequest
      ("Invalid role. Allowed roles are: " ++ ", ".intercalate allowedRoles)), users⟩
  else if instituteId.isNone then
    ⟨.failure (setBadRequest "Institute ID is required for institute user creation."), users⟩
  else
    match UserService.createInstituteUser env users institutes (userDataOf body) body.role
        instituteId with
    | ⟨users, .error e⟩ => ⟨.failure (setServerError e.message), users⟩
    | ⟨users, .ok user⟩ =>
      ⟨.createSuccess (body.role.getD "" ++ " created successfully") user, users⟩

end UserController

/-! ## controllers/academicSession.controller.js -/

/-- The expression `getInstituteId() || clientSupplied` of the handlers, where
`clientSupplied` is `req.body.instituteId` or `req.query.instituteId`. -/
def contextOrClient (store : Option Store) (clientSupplied : Option ObjectId) :
    Option ObjectId :=
  match getInstituteId store with
  | .id instituteId => some instituteId
  | _ => clientSupplied

/-- The keys of `req.body.session` that `createSession` reads; `isCurrent` is whether the
key is strictly `true`. -/
structure SessionBody where
  name : Option String
  startDate : DateInput
  endDate : DateInput
  isCurrent : Bool
  deriving DecidableEq, Repr

/-- The request of the `createSession` handler: `req.body.session`,
`req.body.instituteId` and the request-scoped store. -/
structure CreateSessionRequest where
  session : Option SessionBody
  instituteId : Option ObjectId
  store : Option Store
  deriving DecidableEq, Repr

/-- The request of the `setCurrentSession` handler: `req.params.id`,
`req.body.instituteId` and the request-scoped store. -/
structure SetCurrentRequest where
  id : ObjectId
  instituteId : Option ObjectId
  store : Option Store
  deriving DecidableEq, Repr

/-- The request of the `updateSession` handler: `req.params.id`, `req.body.session`,
whose keys the handler hands to the service as they are, and the request-scoped store,
which the handler does not read. -/
structure UpdateSessionRequest where
  id : ObjectId
  session : Option SessionPatch
  store : Option Store
  deriving DecidableEq, Repr

/-- The request of the `getAllSessions` handler: the keys `instituteId`, `isCurrent` and
`isActive` of `req.query` and the request-scoped store. -/
structure GetAllSessionsRequest where
  instituteId : Option ObjectId
  isCurrent : Option String
  isActive : Option String
  store : Option Store
  deriving DecidableEq, Repr

/-- The request of the `getCurrentSession` handler: `req.query.instituteId` and the
request-scoped store. -/
structure GetCurrentSessionRequest where
  instituteId : Option ObjectId
  store : Option Store
  deriving DecidableEq, Repr

/-- The request of the `findSessionByDate` handler: `req.query.date`,
`req.query.instituteId` and the request-scoped store. -/
structure FindSessionByDateRequest where
  date : DateInput
  instituteId : Option ObjectId
  store : Option Store
  deriving DecidableEq, Repr

/-- What a reading session handler answers: a failure response, `setSuccess` with a
message and one session or `null`, or `setSuccess` with a message, the sessions and their
count. -/
inductive SessionReadResponse where
  | failure (response : Response)
  | one (message : String) (session : Option Session)
  | many (message : String) (sessions : List Session) (count : Nat)
  deriving DecidableEq, Repr

/-- What a session handler answers: a failure response, `setCreateSuccess` or
`setSuccess` with its message and the session. -/
inductive SessionHttpResponse where
  | failure (response : Response)
  | createSuccess (message : String) (session : Session)
  | success (message : String) (session : Session)
  deriving DecidableEq, Repr

/-- What a session handler did: its response and the session collection afterwards. -/
structure SessionControllerResult where
  response : SessionHttpResponse
  db : Sessions

namespace AcademicSessionController

/-- `createSession(req, res)`. -/
def createSession (tz : Zone) (db : Sessions) (req : CreateSessionRequest) :
    SessionControllerResult :=
  let body := req.session.getD ⟨none, .falsy, .falsy, false⟩
  let instituteId := contextOrClient req.store req.instituteId
  if !truthy body.name || decide (body.startDate = .falsy)
      || decide (body.endDate = .falsy) then
    ⟨.failure (setBadRequest
      "Missing required fields: name, startDate, and endDate are mandatory."), db⟩
  else
    match instituteId with
    | none =>
      ⟨.failure (setBadRequest "Institute ID is required for session creation."), db⟩
    | some instituteId =>
      match AcademicSessionService.createSession tz db
          ⟨body.name.getD "", body.startDate, body.endDate, body.isCurrent, instituteId⟩ with
      | ⟨db, .error e, _⟩ => ⟨.failure (setServerError e.message), db⟩
      | ⟨db, .ok session, _⟩ =>
        ⟨.createSuccess "Academic session created successfully" session, db⟩

/-- `setCurrentSession(req, res)`. -/
def setCurrentSession (db : Sessions) (req : SetCurrentRequest) : SessionControllerResult :=
  let instituteId := contextOrClient req.store req.instituteId
  match instituteId with
  | none => ⟨.failure (setBadRequest "Institute ID is required."), db⟩
  | some instituteId =>
    match AcademicSessionService.setCurrentSession db instituteId req.id with
    | ⟨db, .error e, _⟩ => ⟨.failure (setServerError e.message), db⟩
    | ⟨db, .ok session, _⟩ =>
      ⟨.success "Current academic session set successfully" session, db⟩

/-- `getAllSessions(req, res)`. -/
def getAllSessions (db : Sessions) (req : GetAllSessionsRequest) : SessionReadResponse :=
  let queryInstituteId := contextOrClient req.store req.instituteId
  let sessions :=
    AcademicSessionService.getAllSessions db ⟨queryInstituteId, req.isCurrent, req.isActive⟩
  .many "Academic sessions fetched successfully" sessions sessions.length

/-- `getCurrentSession(req, res)`. -/
def getCurrentSession (db : Sessions) (req : GetCurrentSessionRequest) :
    SessionReadResponse :=
  match contextOrClient req.store req.instituteId with
  | none => .failure (setBadRequest "Institute ID is required.")
  | some instituteId =>
    match AcademicSessionService.getCurrentSession db instituteId with
    | none => .one "No current session found" none
    | some session => .one "Current academic session fetched successfully" (some session)

/-- `findSessionByDate(req, res)`. For a `date` that `new Date` cannot parse the service
call throws: the date stays an Invalid Date after `setHours`, and the filter cannot be
cast. -/
def findSessionByDate (tz : Zone) (db : Sessions) (req : FindSessionByDateRequest) :
    SessionReadResponse :=
  match contextOrClient req.store req.instituteId with
  | none => .failure (setBadRequest "Institute ID is required.")
  | some instituteId =>
    match req.date with
    | .falsy => .failure (setBadRequest "Date is required.")
    | .unparseable => .failure (setServerError JsError.validation.message)
    | .at date =>
      match AcademicSessionService.findSessionByDate tz db instituteId date with
      | .error e => .failure (setServerError e.message)
      | .ok none => .one "No session found for the given date" none
      | .ok (some session) => .one "Session found for the given date" (some session)

/-- `updateSession(req, res)`; `req.body.session || {}` is the patch, the empty object
when the body has no session. -/
def updateSession (tz : Zone) (db : Sessions) (req : UpdateSessionRequest) :
    SessionControllerResult :=
  let updateData := req.session.getD ⟨none, none, none, none, none, none, none⟩
  match AcademicSessionService.updateSession tz db req.id updateData with
  | ⟨db, .error e, _⟩ => ⟨.failure (setServerError e.message), db⟩
  | ⟨db, .ok none, _⟩ => ⟨.failure (setNotFoundError "Academic session not found"), db⟩
  | ⟨db, .ok (some session), _⟩ =>
    ⟨.success "Academic session updated successfully" session, db⟩

end AcademicSessionController

/-! ## Preconditions and sample data -/

deriving instance DecidableEq for Except

/-- The request carries a bearer token that verifies (from the cache or by `jwt.verify`)
to the claims `payload`, leaving the cache `tokenCache2`, and the claims carry a `userId`
that is the identifier `contextUserId`. -/
def VerifiedToken (env : AuthEnv) (tokenCache : TokenCache) (authorization : Option String)
    (payload : Payload) (tokenCache2 : TokenCache) (contextUserId : ObjectId) : Prop :=
  ∃ token userId, bearerToken authorization = some token ∧ truthy (some token) = true ∧
    verifyToken env tokenCache token = .ok (payload, tokenCache2) ∧
    payload.userId = some userId ∧ truthy (some userId) = true ∧
    env.objectId userId = .ok contextUserId

/-- A teacher of institute 1, active and not deleted. -/
def sampleTeacher : UserDoc :=
  ⟨⟨7⟩, "teacher@school.test", "$2b$10$hash", .TEACHER, some ⟨1⟩, true, false⟩

/-- The same teacher after a soft delete. -/
def sampleDeleted : UserDoc := { sampleTeacher with isDeleted := true }

/-- A super admin, who belongs to no institute. -/
def sampleSuperAdmin : UserDoc :=
  ⟨⟨7⟩, "root@school.test", "$2b$10$hash", .SUPER_ADMIN, none, true, false⟩

/-- The claims of the sample token. -/
def samplePayload : Payload :=
  ⟨some "000000000000000000000007", some "teacher@school.test", some "TEACHER", some "1"⟩

/-- An environment in which every token verifies to `samplePayload` and the user
collection answers every lookup with `stored`. -/
def sampleEnv (stored : Option UserDoc) : AuthEnv :=
  { jwtVerify := fun _ => .ok samplePayload
    objectId := fun _ => .ok ⟨7⟩
    findById := fun _ => .ok stored }

/-- A request as it reaches the gate: nothing written yet, the store of
`contextMiddleware`. -/
def freshRequest : RequestState := ⟨none, none, contextMiddleware⟩

/-- Tenant X. -/
def tenantX : ObjectId := ⟨100⟩

/-- Another tenant. -/
def tenantY : ObjectId := ⟨200⟩

/-- The session 2024-04-01 .. 2025-03-31 of tenant X, requested as current. -/
def session2024 : CreateData :=
  ⟨"2024-2025", .at 1711929600000, .at 1743379200000, true, tenantX⟩

/-- The session 2025-04-01 .. 2026-03-31 of tenant X, requested as current. -/
def session2025 : CreateData :=
  ⟨"2025-2026", .at 1743465600000, .at 1774915200000, true, tenantX⟩

/-- The session 2024-04-01 .. 2025-03-31 of tenant X, not requested as current. -/
def plain2024 : CreateData := { session2024 with isCurrent := false }

/-- The session 2025-04-01 .. 2026-03-31 of tenant X, not requested as current. -/
def plain2025 : CreateData := { session2025 with isCurrent := false }

/-- The sample environment with a user collection that fails on every lookup. -/
def failingStorageEnv : AuthEnv :=
  { jwtVerify := fun _ => .ok samplePayload
    objectId := fun _ => .ok ⟨7⟩
    findById := fun _ => .error (.error "connection lost") }

/-- The caller supplied an email and a password, the lookup by email resolves `user`,
`user` is active and the password matches its hash. -/
def CredentialsAccepted (env : UserEnv) (users : Users) (email password : Option String)
    (user : UserRecord) : Prop :=
  truthy email = true ∧ truthy password = true ∧
    UserRepo.getUserByEmailForLogin env users (email.getD "") = some user ∧
    user.isActive = true ∧ env.compare (password.getD "") user.password = true

/-- The identity has no tenant, or its tenant exists, is active and is not deleted. -/
def TenantAccepted (institutes : Institutes) (user : UserRecord) : Prop :=
  ∀ instituteId, user.instituteId = some instituteId →
    UserService.instituteFailure
      (InstituteRepo.getInstituteById institutes (some instituteId)) = none

/-- The four keys every administrator creation requires are present and non-empty. -/
def RequiredFields (userData : UserData) : Prop :=
  truthy userData.firstName = true ∧ truthy userData.lastName = true ∧
    truthy userData.email = true ∧ truthy userData.password = true

/-- A non-deleted identity of the tenant `instituteId` (the untenanted identities when
`none`) already has the email, as the schema stores it. -/
def EmailInUse (env : UserEnv) (users : Users) (email : String)
    (instituteId : Option ObjectId) : Prop :=
  ∃ u ∈ users, u.email = castEmail env email ∧ u.isDeleted = false ∧
    u.instituteId = instituteId

/-- An identity of the tenant `instituteId` (an untenanted identity when `none`),
soft-deleted or not, already has the email, as the schema stores it: the unique index
`{ email, instituteId }` holds the pair. -/
def EmailStored (env : UserEnv) (users : Users) (email : String)
    (instituteId : Option ObjectId) : Prop :=
  ∃ u ∈ users, u.email = castEmail env email ∧ u.instituteId = instituteId

/-- Nothing but its email can stop the creation in the scope `instituteId`: the names,
the email and the hash of the password are not empty as the schema stores them, the
lookup by phone number finds no identity of the scope, and the unique index
`{ phoneNo, countryCode, instituteId }` does not hold the triple of `userData`. -/
def NothingButEmail (env : UserEnv) (users : Users) (userData : UserData)
    (instituteId : Option ObjectId) : Prop :=
  trim (userData.firstName.getD "") ≠ "" ∧ trim (userData.lastName.getD "") ≠ "" ∧
    castEmail env (userData.email.getD "") ≠ "" ∧
    (∃ password, userData.password = some password ∧ env.hash password ≠ "") ∧
    UserService.existingUserByPhone users userData instituteId = none ∧
    UserRepo.phoneTaken users userData.phoneNo userData.countryCode instituteId = false

/-- What a creation did, `out`, is decided by the identities of the scope `instituteId`
that have the email, and by no other identity: it throws exactly when one of them,
soft-deleted or not, has the email; it then stores nothing, and throws the duplicate-key
error of the unique index when all of them are soft-deleted; when none of them has the
email, it stores one more identity, which has the email and the scope, and returns it. -/
def DecidedByEmailOfScope (env : UserEnv) (users : Users) (email : String)
    (instituteId : Option ObjectId) (out : UserServiceResult UserResponse) : Prop :=
  ((∃ e, out.result = .error e) ↔ EmailStored env users email instituteId) ∧
    (EmailStored env users email instituteId →
      out.users = users ∧
        (¬EmailInUse env users email instituteId → out.result = .error .duplicateKey)) ∧
    (¬EmailStored env users email instituteId →
      ∃ u, out.users = users ++ [u] ∧ out.result = .ok (deletePassword u) ∧
        u.email = castEmail env email ∧ u.instituteId = instituteId ∧ u.isDeleted = false)

/-- Collaborators for the examples: ASCII lower-casing, a hash that prefixes the
password, a decimal string form of identifiers, a signer that never fails and a
last-login write that succeeds. -/
def sampleUserEnv : UserEnv :=
  { toLowerCase := fun s => String.mk (s.toList.map Char.toLower)
    hash := fun p => "$2b$10$" ++ p
    compare := fun p h => decide (h = "$2b$10$" ++ p)
    idToString := fun o => String.mk (Nat.toDigits 10 o.n)
    jwtSign := fun payload => .ok ("jwt." ++ payload.userId.getD "")
    updateLastLogin := fun _ => .ok () }

/-- The sample collaborators with a last-login write that fails. -/
def failingLastLoginEnv : UserEnv :=
  { sampleUserEnv with updateLastLogin := fun _ => .error (.error "connection lost") }

/-- The sample teacher as a stored record; the password is `hash`. -/
def teacherRecord : UserRecord :=
  { toUserDoc := sampleTeacher, firstName := "Asha", lastName := "Rao", phoneNo := none,
    countryCode := none }

/-- The sample teacher, soft-deleted. -/
def deletedRecord : UserRecord :=
  { teacherRecord with isDeleted := true }

/-- The sample teacher, deactivated. -/
def inactiveRecord : UserRecord :=
  { teacherRecord with isActive := false }

/-- Institute 1, active and not deleted. -/
def sampleInstitute : InstituteDoc := ⟨⟨1⟩, true, false⟩

/-- The `userData` of a super admin to be created. -/
def rootData : UserData :=
  { firstName := some "Mira", lastName := some "Shah", email := some "Root@School.test",
    password := some "secret", phoneNo := none, countryCode := none, role := none,
    instituteId := none }

/-- The body of a creation request that asks for the role `ADMIN_ROOT`. -/
def adminRootRequest : CreateUserRequest :=
  { user := some ⟨some "Mira", some "Shah", some "mira@school.test", some "secret", none,
      none, some "ADMIN_ROOT"⟩
    instituteId := some ⟨1⟩
    store := contextMiddleware }

/-- Institute 2, active and not deleted. -/
def otherInstitute : InstituteDoc := ⟨⟨2⟩, true, false⟩

/-- The `userData` of a new user whose email is the sample teacher's. -/
def sameEmailData : UserData :=
  { firstName := some "Mira", lastName := some "Shah", email := some "Teacher@School.test",
    password := some "secret", phoneNo := some "5550100", countryCode := none, role := none,
    instituteId := none }

/-- A write to the session collection that keeps the identifier, the institute, the name
and the dates of every document. -/
def KeepsKeys (g : Session → Session) : Prop :=
  ∀ s, (g s)._id = s._id ∧ (g s).instituteId = s.instituteId ∧ (g s).name = s.name ∧
    (g s).startDate = s.startDate ∧ (g s).endDate = s.endDate

/-- A request-scoped store in which the gate has put tenant X. -/
def tenantStore : Option Store := setInstituteId contextMiddleware tenantX

/-- The 2024-2025 session of tenant X as stored, with identifier 1. -/
def stored2024 : Session :=
  ⟨⟨1⟩, tenantX, "2024-2025", 1711929600000, 1743379200000, false, true, false⟩

/-- A later session of tenant X as stored, 2025-04-03 .. 2026-03-31, with identifier 2. -/
def stored2025 : Session :=
  ⟨⟨2⟩, tenantX, "2025-2026", 1743638400000, 1774915200000, true, true, false⟩

/-- A session 2025-04-01 .. 2026-03-31 that asks for the name of the 2024-2025 one. -/
def sameName2025 : CreateData := { plain2025 with name := "2024-2025" }

/-- A summer session 2024-06-01 .. 2024-09-01 of tenant X, inside the 2024-2025 range. -/
def summer2024 : CreateData :=
  ⟨"Summer 2024", .at 1717200000000, .at 1725148800000, false, tenantX⟩

/-- A patch that moves the end date to 2024-04-10, ten days after the start. -/
def shortenPatch : SessionPatch :=
  ⟨none, none, some (.at 1712707200000), none, none, none, none⟩

/-- A patch that moves the end date to 2025-06-30, into the range of the later session. -/
def extendPatch : SessionPatch :=
  ⟨none, none, some (.at 1751241600000), none, none, none, none⟩

/-- The `userData` of an administrator that carries a `role` and an `instituteId` of its
own. -/
def forgedAdminData : UserData :=
  { rootData with role := some "SUPER_ADMIN", instituteId := some "999" }

/-- A token of the sample teacher whose claims ask for the role `SUPER_ADMIN` and for
tenant 999. -/
def forgedPayload : Payload :=
  ⟨some "000000000000000000000007", some "teacher@school.test", some "SUPER_ADMIN",
    some "999"⟩

/-- An environment in which every token verifies to `forgedPayload` and the user
collection answers every lookup with the sample teacher. -/
def forgedEnv : AuthEnv :=
  { jwtVerify := fun _ => .ok forgedPayload
    objectId := fun _ => .ok ⟨7⟩
    findById := fun _ => .ok (some sampleTeacher) }

/-- The clocks of the zone are not set back between the midnights that begin the local
days of `s` and of `e`: the zone's offset from UTC at the second midnight is not below
the offset at the first, and exceeds it by less than a day. Every zone of constant offset
is such, for all `s` and `e`. -/
def NoSetBack (tz : Zone) (s e : Int) : Prop :=
  tz.offsetAtLocal (localDay tz s * msPerDay) ≤ tz.offsetAtLocal (localDay tz e * msPerDay) ∧
    tz.offsetAtLocal (localDay tz e * msPerDay) <
      tz.offsetAtLocal (localDay tz s * msPerDay) + msPerDay

/-- The zone of New York between its clock changes of 13 March 2022 and 9 March 2025:
four hours behind UTC in summer, five in winter, the clocks being changed on 6 November
2022, 12 March 2023, 5 November 2023, 10 March 2024 and 3 November 2024, at 06:00 or
07:00 UTC. A local time that a change skips or repeats is read with the offset before
the change. -/
def newYork : Zone :=
  ⟨fun t =>
      if t < 1667714400000 then -14400000
      else if t < 1678604400000 then -18000000
      else if t < 1699164000000 then -14400000
      else if t < 1710054000000 then -18000000
      else if t < 1730613600000 then -14400000
      else -18000000,
    fun l =>
      if l < 1667714400000 - 14400000 then -14400000
      else if l < 1678604400000 - 14400000 then -18000000
      else if l < 1699164000000 - 14400000 then -14400000
      else if l < 1710054000000 - 14400000 then -18000000
      else if l < 1730613600000 - 14400000 then -14400000
      else -18000000⟩

/-- The zone `Etc/GMT-1`: one hour ahead of UTC throughout. -/
def oneHourAhead : Zone := Zone.fixed 3600000

/-- The zone `Etc/GMT+4`: four hours behind UTC throughout. -/
def fourHoursBehind : Zone := Zone.fixed (-14400000)

/-! ## Properties -/

/-- The day length as a numeral. -/
theorem msPerDay_eq : msPerDay = 86400000 := by decide

/-- In the sample environment the header `Bearer abc` carries a verified token. -/
theorem sampleEnv_verified (stored : Option UserDoc) :
    VerifiedToken (sampleEnv stored) [] (some "Bearer abc") samplePayload
      [("abc", samplePayload)] ⟨7⟩ :=
  ⟨"abc", "000000000000000000000007", by decide, by decide, rfl, rfl, by decide, rfl⟩

/-- C1 (code defect): starting from the empty store, creating two sessions of tenant X,
making the first one current for X and then calling `setCurrentSession` with another
tenant and the second session's id leaves tenant X with two sessions that have
`isCurrent = true`. -/
theorem two_current_sessions_after_cross_tenant_setCurrent :
    (currentSessions
      (runCalls utc []
        [ .createSession plain2024, .createSession plain2025,
          .setCurrentSession tenantX ⟨1⟩, .setCurrentSession tenantY ⟨2⟩ ])
      tenantX).map (fun s => (s._id, s.isCurrent)) = [(⟨1⟩, true), (⟨2⟩, true)] := by
  decide

/-- C2 (code defect): `createSession` with `isCurrent = true` for 2024-04-01..2025-03-31 on
the empty store returns and persists a session with `isCurrent = false`; after the second
creation, again requested as current, tenant X still has no current session. -/
theorem createSession_isCurrent_is_lost :
    ((AcademicSessionService.createSession utc [] session2024).result.toOption.map
        fun s => s.isCurrent) = some false ∧
      (AcademicSessionService.createSession utc [] session2024).db.map
        (fun s => (s._id, s.isCurrent)) = [(⟨1⟩, false)] ∧
      ((AcademicSessionService.createSession utc
        (AcademicSessionService.createSession utc [] session2024).db session2025).result.toOption.map
          fun s => s.isCurrent) = some false ∧
      (AcademicSessionService.createSession utc
        (AcademicSessionService.createSession utc [] session2024).db session2025).db.map
          (fun s => (s._id, s.isCurrent)) = [(⟨1⟩, false), (⟨2⟩, false)] := by
  decide

/-- A time value that `TimeClip` keeps is returned as it is. -/
theorem timeClip_isSome {time : Int} (h : (timeClip time).isSome = true) :
    timeClip time = some time := by
  unfold timeClip at h ⊢
  split_ifs at h ⊢
  · rfl
  · exact absurd h (by simp)

/-- On a host whose zone has a constant offset the clocks are never set back. -/
theorem noSetBack_fixed (offset s e : Int) : NoSetBack (Zone.fixed offset) s e :=
  ⟨le_refl _, by simp [Zone.fixed, msPerDay_eq]⟩

/-- C3 (counterexample): on a host in New York, the range from 20 October
2024 to 18 November 2024, 29 days, is accepted, and the range from 5 November 2022 to 4
November 2024, 730 days, is rejected: the midnights are 29 days and one hour, and 730
days and one hour, apart. On a host one hour ahead of UTC, the range from the earliest
date there is to the epoch, 100000000 days, is accepted: `setHours` leaves the start an
Invalid Date and every comparison with it is false. -/
theorem validateDateRange_misjudges_set_back_and_unrepresentable_midnight :
    ((validateDateRange newYork (.at 1729440000000) (.at 1731949200000)).valid = true ∧
      localDay newYork 1731949200000 - localDay newYork 1729440000000 = 29) ∧
    ((validateDateRange newYork (.at 1667664000000) (.at 1730739600000)).valid = false ∧
      localDay newYork 1730739600000 - localDay newYork 1667664000000 = 730) ∧
    ((validateDateRange oneHourAhead (.at (-8640000000000000)) (.at 0)).valid = true ∧
      setHoursZero oneHourAhead (-8640000000000000) = none ∧
      localDay oneHourAhead 0 - localDay oneHourAhead (-8640000000000000) = 100000000) := by
  decide

/-- C3 (amended): for dates with time values `s` and `e` whose local midnights are time
values, on a host whose clocks are not set back between those two midnights,
`validateDateRange` answers `valid = true` exactly when the local day of `s` is strictly
before the local day of `e` and the number of days between them is at least 30 and at
most 730; ranges of exactly 30 and exactly 730 days are accepted, ranges of 29 and 731
days are rejected. -/
theorem validateDateRange_valid_iff (tz : Zone) (s e : Int)
    (hStart : (setHoursZero tz s).isSome = true) (hEnd : (setHoursZero tz e).isSome = true)
    (hOffset : NoSetBack tz s e) :
    ((validateDateRange tz (.at s) (.at e)).valid = true ↔
      localDay tz s < localDay tz e ∧ 30 ≤ localDay tz e - localDay tz s ∧
        localDay tz e - localDay tz s ≤ 730) ∧
    (localDay tz e - localDay tz s = 30 →
      (validateDateRange tz (.at s) (.at e)).valid = true) ∧
    (localDay tz e - localDay tz s = 730 →
      (validateDateRange tz (.at s) (.at e)).valid = true) ∧
    (localDay tz e - localDay tz s = 29 →
      (validateDateRange tz (.at s) (.at e)).valid = false) ∧
    (localDay tz e - localDay tz s = 731 →
      (validateDateRange tz (.at s) (.at e)).valid = false) := by
  have hs := timeClip_isSome hStart
  have he := timeClip_isSome hEnd
  obtain ⟨hLe, hLt⟩ := hOffset
  simp only [validateDateRange, setHoursZero, hs, he]
  generalize tz.offsetAtLocal (localDay tz s * msPerDay) = p at hLe hLt ⊢
  generalize tz.offsetAtLocal (localDay tz e * msPerDay) = q at hLe hLt ⊢
  generalize localDay tz s = a
  generalize localDay tz e = b
  simp only [ceilDiv, msPerDay_eq] at hLe hLt ⊢
  refine ⟨?_, ?_, ?_, ?_, ?_⟩ <;> split_ifs <;> (try simp) <;> omega

/-- The range from noon of 1 March 2024 to noon of 31 March 2024 on a host four hours
behind UTC: 30 days, accepted. -/
theorem validateDateRange_valid_iff_witness :
    (validateDateRange fourHoursBehind (.at 1709308800000) (.at 1711900800000)).valid =
      true :=
  (validateDateRange_valid_iff fourHoursBehind 1709308800000 1711900800000
    (by decide) (by decide) ⟨by decide, by decide⟩).2.1 (by decide)

/-- C4: `doDateRangesOverlap` is symmetric, for all ranges, those with missing or
unparseable dates included. -/
theorem doDateRangesOverlap_symm (A B : DateRange) :
    doDateRangesOverlap A B = doDateRangesOverlap B A := by
  simp only [doDateRangesOverlap]
  cases isValidDate A.startDate <;> cases isValidDate A.endDate <;>
    cases isValidDate B.startDate <;> cases isValidDate B.endDate <;> simp [Bool.and_comm]

/-- C5 (code defect): for the role value `"constructor"`, which is not a key of the role
table but a property every object inherits, `hasPermission` throws a `TypeError` instead
of returning `false`. -/
theorem hasPermission_throws_on_inherited_key :
    hasPermission (.str "constructor") "GET_CLASSES" = .error .typeError := by
  decide

/-- C6: for every role `R` listed in `ROLES` with capability array `list` and every
capability `C`, `hasPermission(R, C)` is `true` if and only if `C` is an element of
`list`. -/
theorem hasPermission_iff_mem (R : String) (list : List String) (C : String)
    (hListed : (R, list) ∈ ROLES) : hasPermission (.str R) C = .ok true ↔ C ∈ list := by
  simp only [ROLES, List.mem_cons, Prod.mk.injEq, List.mem_singleton, List.not_mem_nil,
    or_false] at hListed
  rcases hListed with ⟨rfl, rfl⟩ | ⟨rfl, rfl⟩ | ⟨rfl, rfl⟩ | ⟨rfl, rfl⟩ <;>
    simp [hasPermission, rolesMember, ROLES, Role.value, RoleArg.toPropertyKey, List.lookup]

/-- The table entry of `TEACHER` and the capability `GET_CLASSES`. -/
theorem hasPermission_iff_mem_witness :
    hasPermission (.str "TEACHER") "GET_CLASSES" = .ok true ↔
      "GET_CLASSES" ∈ ["GET_MY_PROFILE", "GET_MY_STUDENTS", "GET_CLASSES"] :=
  hasPermission_iff_mem "TEACHER" ["GET_MY_PROFILE", "GET_MY_STUDENTS", "GET_CLASSES"]
    "GET_CLASSES" (by decide)

/-- For a role of the user schema `hasPermission` returns a boolean. -/
theorem hasPermission_role (r : Role) (p : String) :
    ∃ b, hasPermission (.str r.value) p = .ok b := by
  cases r <;>
    simp [hasPermission, rolesMember, ROLES, Role.value, RoleArg.toPropertyKey, List.lookup,
      objectPrototypeKeys]

/-- A truthy value is a string. -/
theorem truthy_eq_true {v : Option String} (h : truthy v = true) :
    ∃ p, v = some p ∧ v.getD "" = p := by
  cases v with
  | none => simp [truthy] at h
  | some p => exact ⟨p, rfl, rfl⟩

/-- The gate on a verified token, by the outcome of the lookup and of the permission test. -/
theorem checkPermission_of_verified {env : AuthEnv} {requiredPermission : Option String}
    {tokenCache tokenCache2 : TokenCache} {authorization : Option String} {req : RequestState}
    {payload : Payload} {contextUserId : ObjectId}
    (hVerified : VerifiedToken env tokenCache authorization payload tokenCache2 contextUserId) :
    checkPermission env requiredPermission tokenCache authorization req =
      match fetchUserById env contextUserId with
      | .error err => ⟨some (catchInner err), false, [contextUserId], req, tokenCache2⟩
      | .ok existingUser =>
        if truthy requiredPermission then
          match hasPermission (.str existingUser.role.value) (requiredPermission.getD "") with
          | .error err => ⟨some (catchInner err), false, [contextUserId], req, tokenCache2⟩
          | .ok false =>
            ⟨some (setForbidden "Insufficient permissions"), false, [contextUserId], req,
              tokenCache2⟩
          | .ok true =>
            ⟨none, true, [contextUserId], setAuthContext req (spread payload existingUser),
              tokenCache2⟩
        else
          ⟨none, true, [contextUserId], setAuthContext req (spread payload existingUser),
            tokenCache2⟩ := by
  obtain ⟨token, userId, hToken, hTruthy, hVerify, hUser, hUserTruthy, hId⟩ := hVerified
  unfold checkPermission
  simp only [hToken, hTruthy, hVerify, hUser, hUserTruthy, hId]
  simp

/-- C7 (counterexample): for a soft-deleted identity the gate answers with the `NotFound`
kind, the kind it also uses for an absent identity, and not with `Gone`. -/
theorem checkPermission_deleted_answers_notFound :
    (checkPermission (sampleEnv (some sampleDeleted)) none [] (some "Bearer abc")
        freshRequest).response.map Response.kind = some ErrorKind.NotFound ∧
      (checkPermission (sampleEnv (some sampleDeleted)) none [] (some "Bearer abc")
        freshRequest).response.map Response.kind ≠ some ErrorKind.Gone := by
  decide

/-- C7 (amended): for a verified token carrying a `userId`, the gate answers `NotFound`
("User not found") when no identity has that id, `NotFound` ("User has been deleted")
when the identity is soft-deleted, and `Forbidden` when it is not deleted but inactive;
in all three cases `next` is not called and the request is left as it was. -/
theorem checkPermission_identity_failures (env : AuthEnv) (requiredPermission : Option String)
    (tokenCache tokenCache2 : TokenCache) (authorization : Option String) (req : RequestState)
    (payload : Payload) (contextUserId : ObjectId)
    (hVerified : VerifiedToken env tokenCache authorization payload tokenCache2 contextUserId) :
    (env.findById contextUserId = .ok none →
      checkPermission env requiredPermission tokenCache authorization req =
        ⟨some ⟨.NotFound, "User not found"⟩, false, [contextUserId], req, tokenCache2⟩) ∧
    (∀ doc, env.findById contextUserId = .ok (some doc) → doc.isDeleted = true →
      checkPermission env requiredPermission tokenCache authorization req =
        ⟨some ⟨.NotFound, "User has been deleted"⟩, false, [contextUserId], req,
          tokenCache2⟩) ∧
    (∀ doc, env.findById contextUserId = .ok (some doc) → doc.isDeleted = false →
      doc.isActive = false →
      checkPermission env requiredPermission tokenCache authorization req =
        ⟨some ⟨.Forbidden, "User account is inactive"⟩, false, [contextUserId], req,
          tokenCache2⟩) := by
  rw [checkPermission_of_verified hVerified]
  refine ⟨?_, ?_, ?_⟩
  · intro hFind
    simp [fetchUserById, hFind, catchInner, JsError.message, setNotFoundError]
  · intro doc hFind hDeleted
    simp [fetchUserById, hFind, hDeleted, catchInner, JsError.message, setNotFoundError]
  · intro doc hFind hDeleted hActive
    simp [fetchUserById, hFind, hDeleted, hActive, catchInner, JsError.message, setForbidden]

/-- The soft-deleted sample teacher is answered `NotFound`. -/
theorem checkPermission_identity_failures_witness :
    checkPermission (sampleEnv (some sampleDeleted)) (some "GET_CLASSES") []
        (some "Bearer abc") freshRequest =
      ⟨some ⟨.NotFound, "User has been deleted"⟩, false, [⟨7⟩], freshRequest,
        [("abc", samplePayload)]⟩ :=
  (checkPermission_identity_failures (sampleEnv (some sampleDeleted)) (some "GET_CLASSES") []
    [("abc", samplePayload)] (some "Bearer abc") freshRequest samplePayload ⟨7⟩
    (sampleEnv_verified _)).2.1 sampleDeleted rfl rfl

/-- C8: for a request whose token verifies and whose identity `doc` exists, is active and
is not deleted, `next` is called if and only if `requiredPermission` is null/empty or
`hasPermission(doc.role, requiredPermission)` is `true`; otherwise the gate answers
`Forbidden` and leaves the request, its context store included, as it was. -/
theorem checkPermission_admits_iff (env : AuthEnv) (requiredPermission : Option String)
    (tokenCache tokenCache2 : TokenCache) (authorization : Option String) (req : RequestState)
    (payload : Payload) (contextUserId : ObjectId) (doc : UserDoc) (out : GateResult)
    (hVerified : VerifiedToken env tokenCache authorization payload tokenCache2 contextUserId)
    (hFind : env.findById contextUserId = .ok (some doc))
    (hNotDeleted : doc.isDeleted = false) (hActive : doc.isActive = true)
    (hRun : checkPermission env requiredPermission tokenCache authorization req = out) :
    (out.nextCalled = true ↔
      (truthy requiredPermission = false ∨
        ∃ p, requiredPermission = some p ∧
          hasPermission (.str doc.role.value) p = .ok true)) ∧
    (out.nextCalled = false →
      out.response = some ⟨.Forbidden, "Insufficient permissions"⟩ ∧ out.req = req) := by
  subst hRun
  rw [checkPermission_of_verified hVerified]
  have hFetch : fetchUserById env contextUserId = .ok doc := by
    simp [fetchUserById, hFind, hNotDeleted, hActive]
  simp only [hFetch]
  cases hPerm : truthy requiredPermission with
  | false => simp
  | true =>
    obtain ⟨p, hp, hpD⟩ := truthy_eq_true hPerm
    obtain ⟨b, hb⟩ := hasPermission_role doc.role p
    subst hp
    simp only [hpD, hb]
    cases b <;> simp [setForbidden, hb]

/-- The sample teacher is admitted to an operation that requires `GET_CLASSES`. -/
theorem checkPermission_admits_iff_witness :
    (checkPermission (sampleEnv (some sampleTeacher)) (some "GET_CLASSES") []
      (some "Bearer abc") freshRequest).nextCalled = true :=
  (checkPermission_admits_iff (sampleEnv (some sampleTeacher)) (some "GET_CLASSES") []
    [("abc", samplePayload)] (some "Bearer abc") freshRequest samplePayload ⟨7⟩ sampleTeacher
    _ (sampleEnv_verified _) rfl rfl rfl rfl).1.mpr
    (Or.inr ⟨"GET_CLASSES", rfl, by decide⟩)

/-- An admitted request: the lookup found an identity and the request afterwards is the
one `setAuthContext` built from the merged object. -/
theorem checkPermission_admitted {env : AuthEnv} {requiredPermission : Option String}
    {tokenCache tokenCache2 : TokenCache} {authorization : Option String} {req : RequestState}
    {payload : Payload} {contextUserId : ObjectId}
    (hVerified : VerifiedToken env tokenCache authorization payload tokenCache2 contextUserId)
    (hAdmit :
      (checkPermission env requiredPermission tokenCache authorization req).nextCalled = true) :
    ∃ doc, env.findById contextUserId = .ok (some doc) ∧
      (checkPermission env requiredPermission tokenCache authorization req).req =
        setAuthContext req (spread payload doc) := by
  rw [checkPermission_of_verified hVerified] at hAdmit ⊢
  unfold fetchUserById at hAdmit ⊢
  cases hFind : env.findById contextUserId with
  | error e => simp [hFind] at hAdmit
  | ok found =>
    cases found with
    | none => simp [hFind] at hAdmit
    | some doc =>
      refine ⟨doc, rfl, ?_⟩
      simp only [hFind] at hAdmit ⊢
      cases hDel : doc.isDeleted with
      | true => simp [hDel] at hAdmit
      | false =>
        cases hAct : doc.isActive with
        | false => simp [hDel, hAct] at hAdmit
        | true =>
          simp only [hDel, hAct] at hAdmit ⊢
          cases hPerm : truthy requiredPermission with
          | false => simp
          | true =>
            obtain ⟨b, hb⟩ := hasPermission_role doc.role (requiredPermission.getD "")
            cases b with
            | false => simp [hPerm, hb] at hAdmit
            | true => simp [hb]

/-- The store that `setAuthContext` leaves, starting from the store of `contextMiddleware`. -/
theorem setAuthContext_store (req : RequestState) (user : AuthUser)
    (hStore : req.store = contextMiddleware) :
    getUserId (setAuthContext req user).store = .id user._id ∧
    getUserRole (setAuthContext req user).store = .role user.role ∧
    getUser (setAuthContext req user).store = .user user ∧
    (setAuthContext req user).user = some user ∧
    (user.role ≠ Role.SUPER_ADMIN → ∀ instituteId, user.instituteId = some instituteId →
      getInstituteId (setAuthContext req user).store = .id instituteId ∧
        (setAuthContext req user).instituteId = some instituteId) ∧
    (user.role ≠ Role.SUPER_ADMIN → user.instituteId = none →
      getInstituteId (setAuthContext req user).store = .undefined) ∧
    (user.role = Role.SUPER_ADMIN →
      getInstituteId (setAuthContext req user).store = .undefined ∧
        (setAuthContext req user).instituteId = req.instituteId) := by
  obtain ⟨reqUser, reqInstituteId, store⟩ := req
  simp only at hStore
  subst hStore
  by_cases hRole : user.role = Role.SUPER_ADMIN
  · simp [setAuthContext, hRole, getUserId, getUserRole, getUser, getInstituteId, getContext,
      setContext, setUserId, setUserRole, setUser, contextMiddleware, Store.set, Store.get,
      List.lookup]
  · cases hInst : user.instituteId with
    | none =>
      simp [setAuthContext, hRole, hInst, getUserId, getUserRole, getUser, getInstituteId,
        getContext, setContext, setUserId, setUserRole, setUser, contextMiddleware,
        Store.set, Store.get, List.lookup]
    | some instituteId =>
      simp [setAuthContext, hRole, hInst, getUserId, getUserRole, getUser, getInstituteId,
        getContext, setContext, setUserId, setUserRole, setUser, setInstituteId,
        contextMiddleware, Store.set, Store.get, List.lookup]

/-- C9: when the gate admits a request (token verified, store created by
`contextMiddleware`), the identity `doc` it loaded is in the context afterwards: its `_id`
under `userId`, its role under `role`, and under `user` the merged object, whose document
part is `doc`; for every role other than `SUPER_ADMIN` the context holds the identity's
`instituteId` under `instituteId` (nothing when the identity has none); for a
`SUPER_ADMIN` identity the context `instituteId` stays unset. -/
theorem checkPermission_populates_context (env : AuthEnv) (requiredPermission : Option String)
    (tokenCache tokenCache2 : TokenCache) (authorization : Option String) (req : RequestState)
    (payload : Payload) (contextUserId : ObjectId) (out : GateResult)
    (hVerified : VerifiedToken env tokenCache authorization payload tokenCache2 contextUserId)
    (hStore : req.store = contextMiddleware)
    (hRun : checkPermission env requiredPermission tokenCache authorization req = out)
    (hAdmit : out.nextCalled = true) :
    ∃ doc, env.findById contextUserId = .ok (some doc) ∧
      getUserId out.req.store = .id doc._id ∧
      getUserRole out.req.store = .role doc.role ∧
      getUser out.req.store = .user (spread payload doc) ∧
      (spread payload doc).doc = doc ∧
      out.req.user = some (spread payload doc) ∧
      (doc.role ≠ Role.SUPER_ADMIN → ∀ instituteId, doc.instituteId = some instituteId →
        getInstituteId out.req.store = .id instituteId ∧
          out.req.instituteId = some instituteId) ∧
      (doc.role ≠ Role.SUPER_ADMIN → doc.instituteId = none →
        getInstituteId out.req.store = .undefined) ∧
      (doc.role = Role.SUPER_ADMIN → getInstituteId out.req.store = .undefined) := by
  subst hRun
  obtain ⟨doc, hFind, hReq⟩ := checkPermission_admitted hVerified hAdmit
  obtain ⟨hId, hRole, hUser, hReqUser, hInst, hNoInst, hSuper⟩ :=
    setAuthContext_store req (spread payload doc) hStore
  rw [hReq]
  exact ⟨doc, hFind, hId, hRole, hUser, rfl, hReqUser, hInst, hNoInst,
    fun h => (hSuper h).1⟩

/-- The admitted sample teacher is in the context under `userId`. -/
theorem checkPermission_populates_context_witness :
    ∃ doc, (sampleEnv (some sampleTeacher)).findById ⟨7⟩ = .ok (some doc) ∧
      getUserId (checkPermission (sampleEnv (some sampleTeacher)) (some "GET_CLASSES") []
        (some "Bearer abc") freshRequest).req.store = .id doc._id :=
  let ⟨doc, hFind, hId, _⟩ :=
    checkPermission_populates_context (sampleEnv (some sampleTeacher)) (some "GET_CLASSES") []
      [("abc", samplePayload)] (some "Bearer abc") freshRequest samplePayload ⟨7⟩ _
      (sampleEnv_verified _) rfl rfl (by decide)
  ⟨doc, hFind, hId⟩

/-- C10: for a request with no bearer token (no `Authorization` header, a header with no
second space-separated part, or an empty one) the gate answers `Unauthenticated`, asks
the user collection for nothing, leaves the request and its context as they were and
does not call `next`. -/
theorem checkPermission_no_token (env : AuthEnv) (requiredPermission : Option String)
    (tokenCache : TokenCache) (authorization : Option String) (req : RequestState)
    (hNoToken : truthy (bearerToken authorization) = false) :
    checkPermission env requiredPermission tokenCache authorization req =
      ⟨some ⟨.Unauthenticated, "No token provided"⟩, false, [], req, tokenCache⟩ := by
  unfold checkPermission
  cases hToken : bearerToken authorization with
  | none => simp [setNotAuthorized]
  | some token =>
    rw [hToken] at hNoToken
    simp [hNoToken, setNotAuthorized]

/-- The header `Bearer`, which has no second part. -/
theorem checkPermission_no_token_witness :
    checkPermission (sampleEnv (some sampleTeacher)) (some "GET_CLASSES") [] (some "Bearer")
        freshRequest =
      ⟨some ⟨.Unauthenticated, "No token provided"⟩, false, [], freshRequest, []⟩ :=
  checkPermission_no_token (sampleEnv (some sampleTeacher)) (some "GET_CLASSES") []
    (some "Bearer") freshRequest (by decide)

/-- In the failing-storage environment the header `Bearer abc` carries a verified token. -/
theorem failingStorageEnv_verified :
    VerifiedToken failingStorageEnv [] (some "Bearer abc") samplePayload
      [("abc", samplePayload)] ⟨7⟩ :=
  ⟨"abc", "000000000000000000000007", by decide, by decide, rfl, rfl, by decide, rfl⟩

/-- C11 (counterexample): when the lookup of the identity fails with a storage error the
gate answers with the `Unauthenticated` kind. -/
theorem checkPermission_storage_error_is_unauthenticated :
    (checkPermission failingStorageEnv none [] (some "Bearer abc")
      freshRequest).response.map Response.kind = some ErrorKind.Unauthenticated := by
  decide

/-- C11 (amended): a storage error raised while the gate loads the identity (an error
whose message is none of the three that `fetchUserById` throws itself) is rethrown to
the outer handler and answered as `Unauthenticated` with the message "Session expired.
Please login again", the answer a token that fails verification gets; `next` is not
called and the request is left as it was. -/
theorem checkPermission_storage_error (env : AuthEnv) (requiredPermission : Option String)
    (tokenCache tokenCache2 : TokenCache) (authorization : Option String) (req : RequestState)
    (payload : Payload) (contextUserId : ObjectId) (err : JsError)
    (hVerified : VerifiedToken env tokenCache authorization payload tokenCache2 contextUserId)
    (hFind : env.findById contextUserId = .error err)
    (hNotFound : err.message ≠ "User not found") (hDeleted : err.message ≠ "User deleted")
    (hInactive : err.message ≠ "User inactive") :
    checkPermission env requiredPermission tokenCache authorization req =
      ⟨some ⟨.Unauthenticated, "Session expired. Please login again"⟩, false,
        [contextUserId], req, tokenCache2⟩ := by
  rw [checkPermission_of_verified hVerified]
  simp [fetchUserById, hFind, catchInner, hNotFound, hDeleted, hInactive, setNotAuthorized]

/-- The failing-storage environment: the gate answers `Unauthenticated`. -/
theorem checkPermission_storage_error_witness :
    checkPermission failingStorageEnv (some "GET_CLASSES") [] (some "Bearer abc")
        freshRequest =
      ⟨some ⟨.Unauthenticated, "Session expired. Please login again"⟩, false, [⟨7⟩],
        freshRequest, [("abc", samplePayload)]⟩ :=
  checkPermission_storage_error failingStorageEnv (some "GET_CLASSES") []
    [("abc", samplePayload)] (some "Bearer abc") freshRequest samplePayload ⟨7⟩
    (.error "connection lost") failingStorageEnv_verified rfl (by decide) (by decide)
    (by decide)

/-- C12: for every supplied email and password, a login whose email matches no identity
and a login whose email resolves an existing active identity but whose password does not
match do the same thing: both throw the error "Invalid email or password", update no
last-login timestamp and sign no token. -/
theorem login_unknown_email_same_as_wrong_password (env : UserEnv) (users : Users)
    (institutes : Institutes) (email1 password1 email2 password2 : String)
    (user : UserRecord)
    (hEmail1 : truthy (some email1) = true) (hPassword1 : truthy (some password1) = true)
    (hEmail2 : truthy (some email2) = true) (hPassword2 : truthy (some password2) = true)
    (hUnknown : ∀ u ∈ users, u.email ≠ castEmail env email1)
    (hKnown : UserRepo.getUserByEmailForLogin env users email2 = some user)
    (hActive : user.isActive = true)
    (hWrong : env.compare password2 user.password = false) :
    UserService.login env users institutes (some email1) (some password1) =
        UserService.login env users institutes (some email2) (some password2) ∧
      (UserService.login env users institutes (some email2) (some password2)).result =
        .error (.error "Invalid email or password") := by
  have hNone : UserRepo.getUserByEmailForLogin env users email1 = none := by
    simp only [UserRepo.getUserByEmailForLogin, List.find?_eq_none]
    intro u hu
    simp [hUnknown u hu]
  have hNotDeleted : user.isDeleted = false := by
    have h := List.find?_some hKnown
    simp only [Bool.and_eq_true, Bool.not_eq_true'] at h
    exact h.2
  simp [UserService.login, hEmail1, hPassword1, hEmail2, hPassword2, hNone, hKnown, hActive,
    hNotDeleted, hWrong]

/-- The sample teacher and the unknown address `nobody@school.test`. -/
theorem login_unknown_email_same_as_wrong_password_witness :
    UserService.login sampleUserEnv [teacherRecord] [sampleInstitute]
        (some "nobody@school.test") (some "hash") =
      UserService.login sampleUserEnv [teacherRecord] [sampleInstitute]
        (some "Teacher@School.test") (some "guess") ∧
    (UserService.login sampleUserEnv [teacherRecord] [sampleInstitute]
        (some "Teacher@School.test") (some "guess")).result =
      .error (.error "Invalid email or password") :=
  login_unknown_email_same_as_wrong_password sampleUserEnv [teacherRecord] [sampleInstitute]
    "nobody@school.test" "hash" "Teacher@School.test" "guess" teacherRecord (by decide)
    (by decide) (by decide) (by decide) (by decide) (by decide) (by decide) (by decide)

/-- C13 (code defect): a login with the email and the password of a soft-deleted identity
throws "Invalid email or password", the error of an unknown email, because the lookup
only returns documents with `isDeleted: false`; the test that throws "User account has
been deleted" is never reached. A deactivated identity does get "User account is
inactive". -/
theorem login_deleted_identity_is_invalid_credentials :
    (UserService.login sampleUserEnv [deletedRecord] [sampleInstitute]
        (some "teacher@school.test") (some "hash")).result =
      .error (.error "Invalid email or password") ∧
    (UserService.login sampleUserEnv [inactiveRecord] [sampleInstitute]
        (some "teacher@school.test") (some "hash")).result =
      .error (.error "User account is inactive") := by
  decide

/-- The lookup for a login never resolves a soft-deleted identity. -/
theorem getUserByEmailForLogin_not_deleted {env : UserEnv} {users : Users} {email : String}
    {user : UserRecord} (h : UserRepo.getUserByEmailForLogin env users email = some user) :
    user ∈ users ∧ user.isDeleted = false := by
  have hProp := List.find?_some h
  simp only [Bool.and_eq_true, Bool.not_eq_true'] at hProp
  exact ⟨List.mem_of_find?_eq_some h, hProp.2⟩

/-- A login with accepted credentials, from the tenant check on. -/
theorem login_of_accepted {env : UserEnv} {users : Users} {institutes : Institutes}
    {email password : Option String} {user : UserRecord}
    (hAccepted : CredentialsAccepted env users email password user) :
    UserService.login env users institutes email password =
      match (match user.instituteId with
          | some instituteId =>
            UserService.instituteFailure
              (InstituteRepo.getInstituteById institutes (some instituteId))
          | none => none) with
      | some e => ⟨.error e, [], []⟩
      | none =>
        match env.updateLastLogin user._id with
        | .error e => ⟨.error e, [user._id], []⟩
        | .ok _ =>
          match env.jwtSign (UserService.tokenPayload env user) with
          | .error e => ⟨.error e, [user._id], [UserService.tokenPayload env user]⟩
          | .ok token =>
            ⟨.ok ⟨deletePassword user, token⟩, [user._id],
              [UserService.tokenPayload env user]⟩ := by
  obtain ⟨hEmail, hPassword, hFound, hActive, hCompare⟩ := hAccepted
  have hNotDeleted := (getUserByEmailForLogin_not_deleted hFound).2
  simp [UserService.login, hEmail, hPassword, hFound, hActive, hNotDeleted, hCompare]

/-- The sample teacher's credentials are accepted. -/
theorem teacher_credentials_accepted (env : UserEnv)
    (hLower : env.toLowerCase = sampleUserEnv.toLowerCase)
    (hCompare : env.compare = sampleUserEnv.compare) :
    CredentialsAccepted env [teacherRecord] (some "teacher@school.test") (some "hash")
      teacherRecord := by
  refine ⟨by decide, by decide, ?_, by decide, ?_⟩
  · simp only [UserRepo.getUserByEmailForLogin, castEmail, hLower]
    decide
  · rw [hCompare]
    decide

/-- C14 (counterexample): with correct credentials on an active identity of an active
tenant, a last-login update that fails in storage makes the login fail with the storage
error; no identity and no token are returned. -/
theorem login_fails_when_last_login_update_fails :
    (UserService.login failingLastLoginEnv [teacherRecord] [sampleInstitute]
        (some "teacher@school.test") (some "hash")).result =
      .error (.error "connection lost") := by
  decide

/-- C14 (amended): the last-login update is not best-effort. For every login with
accepted credentials on an identity whose tenant is accepted, if the update fails in
storage the login throws that error after the one update attempt and signs no token; if
the update succeeds and the signer succeeds the login returns the identity and the
token. -/
theorem login_propagates_last_login_failure (env : UserEnv) (users : Users)
    (institutes : Institutes) (email password : Option String) (user : UserRecord)
    (hAccepted : CredentialsAccepted env users email password user)
    (hTenant : TenantAccepted institutes user) :
    (∀ err, env.updateLastLogin user._id = .error err →
      UserService.login env users institutes email password =
        ⟨.error err, [user._id], []⟩) ∧
    (∀ token, env.updateLastLogin user._id = .ok () →
      env.jwtSign (UserService.tokenPayload env user) = .ok token →
      (UserService.login env users institutes email password).result =
        .ok ⟨deletePassword user, token⟩) := by
  rw [login_of_accepted hAccepted]
  have hNoFailure : (match user.instituteId with
      | some instituteId =>
        UserService.instituteFailure
          (InstituteRepo.getInstituteById institutes (some instituteId))
      | none => none) = none := by
    cases hInst : user.instituteId with
    | none => rfl
    | some instituteId => exact hTenant instituteId hInst
  simp only [hNoFailure]
  refine ⟨?_, ?_⟩
  · intro err hErr
    simp [hErr]
  · intro token hOk hSign
    simp [hOk, hSign]

/-- The sample teacher with a failing last-login write: the login throws the storage
error. -/
theorem login_propagates_last_login_failure_witness :
    UserService.login failingLastLoginEnv [teacherRecord] [sampleInstitute]
        (some "teacher@school.test") (some "hash") =
      ⟨.error (.error "connection lost"), [⟨7⟩], []⟩ :=
  (login_propagates_last_login_failure failingLastLoginEnv [teacherRecord] [sampleInstitute]
    (some "teacher@school.test") (some "hash") teacherRecord
    (teacher_credentials_accepted failingLastLoginEnv rfl rfl)
    (by intro instituteId h; cases h; decide)).1 (.error "connection lost") rfl

/-- C15: for an identity with accepted credentials that belongs to a tenant, the login
throws "Institute not found" when the tenant record is absent, "Institute has been
deleted" when the tenant is soft-deleted and "Institute is not active" when it is not
deleted but inactive (the spec's NotFound, Gone and Forbidden), in each case without
updating the last login and without signing a token; for an identity with no tenant the
institute collection is not consulted. -/
theorem login_tenant_checks (env : UserEnv) (users : Users) (institutes : Institutes)
    (email password : Option String) (user : UserRecord)
    (hAccepted : CredentialsAccepted env users email password user) :
    (∀ instituteId, user.instituteId = some instituteId →
      (InstituteRepo.getInstituteById institutes (some instituteId) = none →
        UserService.login env users institutes email password =
          ⟨.error (.error "Institute not found"), [], []⟩) ∧
      (∀ institute, InstituteRepo.getInstituteById institutes (some instituteId) =
          some institute → institute.isDeleted = true →
        UserService.login env users institutes email password =
          ⟨.error (.error "Institute has been deleted"), [], []⟩) ∧
      (∀ institute, InstituteRepo.getInstituteById institutes (some instituteId) =
          some institute → institute.isDeleted = false → institute.isActive = false →
        UserService.login env users institutes email password =
          ⟨.error (.error "Institute is not active"), [], []⟩)) ∧
    (user.instituteId = none → ∀ institutes2,
      UserService.login env users institutes email password =
        UserService.login env users institutes2 email password) := by
  refine ⟨?_, ?_⟩
  · intro instituteId hInst
    rw [login_of_accepted hAccepted]
    simp only [hInst]
    refine ⟨?_, ?_, ?_⟩
    · intro hNone
      simp [hNone, UserService.instituteFailure]
    · intro institute hSome hDeleted
      simp [hSome, hDeleted, UserService.instituteFailure]
    · intro institute hSome hDeleted hInactive
      simp [hSome, hDeleted, hInactive, UserService.instituteFailure]
  · intro hNone institutes2
    rw [login_of_accepted hAccepted, login_of_accepted hAccepted]
    simp only [hNone]

/-- The sample teacher when the institute collection is empty: "Institute not found". -/
theorem login_tenant_checks_witness :
    UserService.login sampleUserEnv [teacherRecord] [] (some "teacher@school.test")
        (some "hash") = ⟨.error (.error "Institute not found"), [], []⟩ :=
  ((login_tenant_checks sampleUserEnv [teacherRecord] [] (some "teacher@school.test")
    (some "hash") teacherRecord (teacher_credentials_accepted sampleUserEnv rfl rfl)).1
      ⟨1⟩ rfl).1 rfl

/-- A login that returns resolved an identity by its email and went through to the
signer. -/
theorem login_ok_inv {env : UserEnv} {users : Users} {institutes : Institutes}
    {email password : Option String} {success : LoginSuccess}
    (hOk : (UserService.login env users institutes email password).result = .ok success) :
    ∃ user, UserRepo.getUserByEmailForLogin env users (email.getD "") = some user ∧
      env.jwtSign (UserService.tokenPayload env user) = .ok success.token ∧
      success.user = deletePassword user ∧
      (UserService.login env users institutes email password).signed =
        [UserService.tokenPayload env user] := by
  cases hEmail : truthy email with
  | false => simp [UserService.login, hEmail] at hOk
  | true =>
    cases hPassword : truthy password with
    | false => simp [UserService.login, hEmail, hPassword] at hOk
    | true =>
      cases hFound : UserRepo.getUserByEmailForLogin env users (email.getD "") with
      | none => simp [UserService.login, hEmail, hPassword, hFound] at hOk
      | some user =>
        have hNotDeleted := (getUserByEmailForLogin_not_deleted hFound).2
        cases hActive : user.isActive with
        | false => simp [UserService.login, hEmail, hPassword, hFound, hActive] at hOk
        | true =>
          cases hCompare : env.compare (password.getD "") user.password with
          | false =>
            simp [UserService.login, hEmail, hPassword, hFound, hActive, hNotDeleted,
              hCompare] at hOk
          | true =>
            have hAccepted : CredentialsAccepted env users email password user :=
              ⟨hEmail, hPassword, hFound, hActive, hCompare⟩
            refine ⟨user, rfl, ?_⟩
            rw [login_of_accepted hAccepted] at hOk ⊢
            generalize (match user.instituteId with
              | some instituteId =>
                UserService.instituteFailure
                  (InstituteRepo.getInstituteById institutes (some instituteId))
              | none => none) = failure at hOk ⊢
            cases failure with
            | some e => simp at hOk
            | none =>
              cases hUpdate : env.updateLastLogin user._id with
              | error e => simp [hUpdate] at hOk
              | ok _ =>
                cases hSign : env.jwtSign (UserService.tokenPayload env user) with
                | error e => simp [hUpdate, hSign] at hOk
                | ok token =>
                  simp only [hUpdate, hSign, Except.ok.injEq] at hOk ⊢
                  subst hOk
                  simp

/-- C16: every login that returns was given a token signed from exactly the payload
`{ userId, email, role, instituteId }` of the stored identity it resolved: the string
form of its `_id`, its email, its role, and the string form of its `instituteId`, or
`null` when it has none; and it returns that identity's plain copy, which has no
`password` key. -/
theorem login_success_payload (env : UserEnv) (users : Users) (institutes : Institutes)
    (email password : Option String) (success : LoginSuccess)
    (hOk : (UserService.login env users institutes email password).result = .ok success) :
    ∃ user ∈ users,
      user.email = castEmail env (email.getD "") ∧
      env.jwtSign (UserService.tokenPayload env user) = .ok success.token ∧
      (UserService.login env users institutes email password).signed =
        [UserService.tokenPayload env user] ∧
      (UserService.tokenPayload env user).userId = some (env.idToString user._id) ∧
      (UserService.tokenPayload env user).email = some user.email ∧
      (UserService.tokenPayload env user).role = some user.role.value ∧
      (user.instituteId = none → (UserService.tokenPayload env user).instituteId = none) ∧
      (∀ instituteId, user.instituteId = some instituteId →
        env.idToString instituteId ≠ "" →
        (UserService.tokenPayload env user).instituteId =
          some (env.idToString instituteId)) ∧
      success.user = deletePassword user ∧ success.user.password = none := by
  obtain ⟨user, hFound, hSign, hUser, hSigned⟩ := login_ok_inv hOk
  have hMem := (getUserByEmailForLogin_not_deleted hFound).1
  have hProp := List.find?_some hFound
  simp only [Bool.and_eq_true, Bool.not_eq_true', decide_eq_true_eq] at hProp
  refine ⟨user, hMem, hProp.1, hSign, hSigned, rfl, rfl, rfl, ?_, ?_, hUser, ?_⟩
  · intro hNone
    simp [UserService.tokenPayload, hNone]
  · intro instituteId hSome hNonEmpty
    simp [UserService.tokenPayload, hSome, truthy, hNonEmpty]
  · rw [hUser]
    rfl

/-- The sample teacher logs in: the token is the one signed from the teacher's payload. -/
theorem login_success_payload_witness :
    ∃ user ∈ [teacherRecord],
      sampleUserEnv.jwtSign (UserService.tokenPayload sampleUserEnv user) = .ok "jwt.7" :=
  let ⟨user, hMem, _, hSign, _⟩ :=
    login_success_payload sampleUserEnv [teacherRecord] [sampleInstitute]
      (some "teacher@school.test") (some "hash") ⟨deletePassword teacherRecord, "jwt.7"⟩
      (by decide)
  ⟨user, hMem, hSign⟩

/-- What `User.create` leaves: the collection as it was, with an error, or one more
record, built from the data it was handed. -/
theorem createUser_cases (env : UserEnv) (users : Users) (data : DataToCreate) :
    ((UserRepo.createUser env users data).1 = users ∧
        ∃ e, (UserRepo.createUser env users data).2 = .error e) ∨
      ∃ user, (UserRepo.createUser env users data).1 = users ++ [user] ∧
        (UserRepo.createUser env users data).2 = .ok user ∧
        user.instituteId = data.instituteId ∧ user.password = data.password ∧
        (∀ s, data.role = some s → Role.ofValue? s = some user.role) := by
  unfold UserRepo.createUser
  cases hRole : (match data.role with
      | none => some Role.USER
      | some s => Role.ofValue? s) with
  | none => exact Or.inl ⟨by simp [hRole], by simp [hRole]⟩
  | some role =>
    simp only [hRole]
    split_ifs
    · exact Or.inl ⟨rfl, _, rfl⟩
    · exact Or.inl ⟨rfl, _, rfl⟩
    · exact Or.inl ⟨rfl, _, rfl⟩
    · refine Or.inr ⟨_, rfl, rfl, rfl, rfl, ?_⟩
      intro s hs
      simpa [hs] using hRole

/-- What the shared tail of the creations leaves: the collection as it was, with an
error, or one more record carrying the role, the institute and the hashed password the
service chose. -/
theorem hashAndCreate_cases (env : UserEnv) (users : Users) (userData : UserData)
    (role : Option String) (instituteId : Option ObjectId) :
    ((UserService.hashAndCreate env users userData role instituteId).users = users ∧
        ∃ e, (UserService.hashAndCreate env users userData role instituteId).result =
          .error e) ∨
      ∃ user password,
        (UserService.hashAndCreate env users userData role instituteId).users =
          users ++ [user] ∧
        (UserService.hashAndCreate env users userData role instituteId).result =
          .ok (deletePassword user) ∧
        user.instituteId = instituteId ∧ userData.password = some password ∧
        user.password = env.hash password ∧
        (∀ s, role = some s → Role.ofValue? s = some user.role) := by
  unfold UserService.hashAndCreate
  cases hPassword : userData.password with
  | none => exact Or.inl ⟨by simp [UserService.hashPassword], by simp [UserService.hashPassword]⟩
  | some password =>
    simp only [UserService.hashPassword]
    rcases createUser_cases env users
      { firstName := userData.firstName, lastName := userData.lastName,
        email := userData.email, password := env.hash password, phoneNo := userData.phoneNo,
        countryCode := userData.countryCode, role := role, instituteId := instituteId }
      with ⟨hUsers, e, hErr⟩ | ⟨user, hUsers, hOk, hInst, hPass, hRole⟩
    · left
      generalize UserRepo.createUser env users _ = created at hUsers hErr ⊢
      obtain ⟨users2, result⟩ := created
      simp only at hUsers hErr
      subst hUsers hErr
      exact ⟨rfl, e, rfl⟩
    · right
      generalize UserRepo.createUser env users _ = created at hUsers hOk ⊢
      obtain ⟨users2, result⟩ := created
      simp only at hUsers hOk
      subst hUsers hOk
      exact ⟨user, password, rfl, rfl, hInst, rfl, hPass, hRole⟩

/-- C17: `createSuperAdmin` throws on every `userData` that carries an `instituteId` and
leaves the user collection as it was; and every record it adds to the collection has the
role `SUPER_ADMIN` and `instituteId = null`. -/
theorem createSuperAdmin_untenanted (env : UserEnv) (users : Users) (userData : UserData) :
    (truthy userData.instituteId = true →
      (UserService.createSuperAdmin env users userData).users = users ∧
        ∃ e, (UserService.createSuperAdmin env users userData).result = .error e) ∧
    (∀ u ∈ (UserService.createSuperAdmin env users userData).users, u ∉ users →
      u.role = Role.SUPER_ADMIN ∧ u.instituteId = none) := by
  unfold UserService.createSuperAdmin
  refine ⟨?_, ?_⟩
  · intro hCarries
    simp only [hCarries]
    split_ifs <;> exact ⟨rfl, _, rfl⟩
  · intro u hu hNew
    split_ifs at hu
    · exact absurd hu hNew
    · exact absurd hu hNew
    · exact absurd hu hNew
    · exact absurd hu hNew
    · rcases hashAndCreate_cases env users userData (some Role.SUPER_ADMIN.value) none with
        ⟨hUsers, _⟩ | ⟨user, _, hUsers, _, hInst, _, _, hRole⟩
      · rw [hUsers] at hu
        exact absurd hu hNew
      · rw [hUsers, List.mem_append, List.mem_singleton] at hu
        rcases hu with hu | rfl
        · exact absurd hu hNew
        · have hParsed := hRole _ rfl
          have hValue : Role.ofValue? Role.SUPER_ADMIN.value = some Role.SUPER_ADMIN := by
            decide
          rw [hValue] at hParsed
          exact ⟨(Option.some.inj hParsed).symm, hInst⟩

/-- The super admin created from `rootData` on an empty collection. -/
theorem createSuperAdmin_untenanted_witness :
    (UserService.createSuperAdmin sampleUserEnv [] rootData).users.map
        (fun u => (u.email, u.password)) = [("root@school.test", "$2b$10$secret")] ∧
      ∀ u ∈ (UserService.createSuperAdmin sampleUserEnv [] rootData).users,
        u.role = Role.SUPER_ADMIN ∧ u.instituteId = none :=
  ⟨by decide, fun u hu =>
    (createSuperAdmin_untenanted sampleUserEnv [] rootData).2 u hu (List.not_mem_nil u)⟩

/-- C18: `createInstituteUser` with a role that is not one of `TEACHER`, `STUDENT`,
`PARENT`, `STAFF`, `USER` (a missing role included) is answered by the handler with
`setBadRequest`, the `InvalidRequest` kind, and the user collection is left as it was. -/
theorem createInstituteUser_rejects_other_roles (env : UserEnv) (users : Users)
    (institutes : Institutes) (req : CreateUserRequest)
    (hRole : ∀ r ∈ UserController.allowedRoles, (UserController.bodyOf req).role ≠ some r) :
    ∃ message,
      (UserController.createInstituteUser env users institutes req).response =
        .failure ⟨.InvalidRequest, message⟩ ∧
      (UserController.createInstituteUser env users institutes req).users = users := by
  unfold UserController.createInstituteUser
  simp only
  split_ifs with hFields hMissing hInvalid hInstitute
  · exact ⟨_, rfl, rfl⟩
  · exact ⟨_, rfl, rfl⟩
  · exact ⟨_, rfl, rfl⟩
  · exfalso
    cases hBody : (UserController.bodyOf req).role with
    | none => simp [hBody, truthy] at hMissing
    | some r =>
      simp [hBody] at hInvalid
      exact hRole r hInvalid hBody
  · exfalso
    cases hBody : (UserController.bodyOf req).role with
    | none => simp [hBody, truthy] at hMissing
    | some r =>
      simp [hBody] at hInvalid
      exact hRole r hInvalid hBody

/-- The role `ADMIN_ROOT` is answered "Invalid role" and nothing is created. -/
theorem createInstituteUser_rejects_other_roles_witness :
    ∃ message,
      (UserController.createInstituteUser sampleUserEnv [teacherRecord] [sampleInstitute]
        adminRootRequest).response = .failure ⟨.InvalidRequest, message⟩ ∧
      (UserController.createInstituteUser sampleUserEnv [teacherRecord] [sampleInstitute]
        adminRootRequest).users = [teacherRecord] :=
  createInstituteUser_rejects_other_roles sampleUserEnv [teacherRecord] [sampleInstitute]
    adminRootRequest (by decide)

/-- The lookup by email finds a document exactly when the email is in use in the scope. -/
theorem existingUserByEmail_isSome (env : UserEnv) (users : Users) (userData : UserData)
    (email : String) (instituteId : Option ObjectId) (hEmail : userData.email = some email) :
    (UserService.existingUserByEmail env users userData instituteId).isSome = true ↔
      EmailInUse env users email instituteId := by
  simp only [UserService.existingUserByEmail, hEmail, UserRepo.getUserByEmail,
    List.find?_isSome, EmailInUse, Bool.and_eq_true, Bool.not_eq_true', decide_eq_true_eq,
    and_assoc]

/-- `User.create` fails only with a validation error or a duplicate-key error. -/
theorem createUser_error (env : UserEnv) (users : Users) (data : DataToCreate) (e : JsError)
    (h : (UserRepo.createUser env users data).2 = .error e) :
    e = .validation ∨ e = .duplicateKey := by
  unfold UserRepo.createUser at h
  cases hRole : (match data.role with
      | none => some Role.USER
      | some s => Role.ofValue? s) with
  | none =>
    simp only [hRole, Except.error.injEq] at h
    exact Or.inl h.symm
  | some role =>
    simp only [hRole] at h
    split_ifs at h
    · simp only [Except.error.injEq] at h
      exact Or.inl h.symm
    · simp only [Except.error.injEq] at h
      exact Or.inr h.symm
    · simp only [Except.error.injEq] at h
      exact Or.inr h.symm

/-- The shared tail of the creations throws neither of the duplicate-email errors. -/
theorem hashAndCreate_error (env : UserEnv) (users : Users) (userData : UserData)
    (role : Option String) (instituteId : Option ObjectId) (message : String)
    (hMessage : message ≠ "data and salt arguments required") :
    (UserService.hashAndCreate env users userData role instituteId).result ≠
      .error (.error message) := by
  unfold UserService.hashAndCreate
  cases hPassword : userData.password with
  | none =>
    simp only [UserService.hashPassword]
    intro h
    injection h with h
    injection h with h
    exact hMessage h.symm
  | some password =>
    simp only [UserService.hashPassword]
    generalize hCreated : UserRepo.createUser env users _ = created
    obtain ⟨users2, result⟩ := created
    cases result with
    | ok user => simp
    | error e =>
      have hErr := createUser_error env users _ e (by rw [hCreated])
      rcases hErr with rfl | rfl <;> simp

/-- The unique index holds the pair exactly when an identity of the scope has the
email. -/
theorem emailTaken_iff (env : UserEnv) (users : Users) (email : String)
    (instituteId : Option ObjectId) :
    UserRepo.emailTaken users (castEmail env email) instituteId = true ↔
      EmailStored env users email instituteId := by
  simp only [UserRepo.emailTaken, List.any_eq_true, Bool.and_eq_true, decide_eq_true_eq,
    EmailStored]

/-- An email in use in the scope is stored in the scope. -/
theorem EmailInUse.stored {env : UserEnv} {users : Users} {email : String}
    {instituteId : Option ObjectId} (h : EmailInUse env users email instituteId) :
    EmailStored env users email instituteId := by
  obtain ⟨u, hu, hMail, _, hInst⟩ := h
  exact ⟨u, hu, hMail, hInst⟩

/-- The shared tail of the creations, when nothing but the email can stop it: a
duplicate-key error when the index holds the pair, one more identity otherwise. -/
theorem hashAndCreate_of_fine (env : UserEnv) (users : Users) (userData : UserData)
    (role : Option String) (r : Role) (instituteId : Option ObjectId) (email : String)
    (hEmail : userData.email = some email)
    (hFine : NothingButEmail env users userData instituteId)
    (hRole : (match role with
      | none => some Role.USER
      | some s => Role.ofValue? s) = some r) :
    (EmailStored env users email instituteId →
      UserService.hashAndCreate env users userData role instituteId =
        ⟨users, .error .duplicateKey⟩) ∧
    (¬EmailStored env users email instituteId →
      ∃ u, UserService.hashAndCreate env users userData role instituteId =
          ⟨users ++ [u], .ok (deletePassword u)⟩ ∧
        u.email = castEmail env email ∧ u.instituteId = instituteId ∧
        u.isDeleted = false) := by
  obtain ⟨hFirst, hLast, hMail, ⟨password, hPassword, hHash⟩, _, hPhone⟩ := hFine
  rw [hEmail] at hMail
  simp only [Option.getD_some] at hMail
  unfold UserService.hashAndCreate UserRepo.createUser
  simp only [hPassword, UserService.hashPassword, hRole, hEmail, Option.getD_some, hFirst,
    hLast, hMail, hHash, or_self, if_false, hPhone, Bool.false_eq_true]
  refine ⟨?_, ?_⟩
  · intro hStored
    rw [if_pos ((emailTaken_iff env users email instituteId).mpr hStored)]
  · intro hFree
    have hTaken : ¬UserRepo.emailTaken users (castEmail env email) instituteId = true :=
      fun h => hFree ((emailTaken_iff env users email instituteId).mp h)
    rw [if_neg hTaken]
    exact ⟨_, rfl, rfl, rfl, rfl⟩

/-- The two lookups followed by the shared tail, when nothing but the email can stop the
creation. -/
theorem lookups_decided_by_email (env : UserEnv) (users : Users) (userData : UserData)
    (role : Option String) (r : Role) (instituteId : Option ObjectId) (email : String)
    (byEmail byPhone : String) (hEmail : userData.email = some email)
    (hFine : NothingButEmail env users userData instituteId)
    (hRole : (match role with
      | none => some Role.USER
      | some s => Role.ofValue? s) = some r) :
    DecidedByEmailOfScope env users email instituteId
      (if (UserService.existingUserByEmail env users userData instituteId).isSome then
        ⟨users, .error (.error byEmail)⟩
      else if (UserService.existingUserByPhone users userData instituteId).isSome then
        ⟨users, .error (.error byPhone)⟩
      else UserService.hashAndCreate env users userData role instituteId) := by
  have hTail := hashAndCreate_of_fine env users userData role r instituteId email hEmail
    hFine hRole
  have hLookup := existingUserByEmail_isSome env users userData email instituteId hEmail
  have hPhone : (UserService.existingUserByPhone users userData instituteId).isSome =
      false := by
    rw [hFine.2.2.2.2.1]
    rfl
  cases hIn : (UserService.existingUserByEmail env users userData instituteId).isSome with
  | true =>
    have hUse := hLookup.mp hIn
    simp only [if_true]
    exact ⟨⟨fun _ => hUse.stored, fun _ => ⟨_, rfl⟩⟩, fun _ => ⟨rfl, fun h => absurd hUse h⟩,
      fun h => absurd hUse.stored h⟩
  | false =>
    simp only [hPhone, Bool.false_eq_true, if_false]
    by_cases hStored : EmailStored env users email instituteId
    · rw [hTail.1 hStored]
      exact ⟨⟨fun _ => hStored, fun _ => ⟨_, rfl⟩⟩, fun _ => ⟨rfl, fun _ => rfl⟩,
        fun h => absurd hStored h⟩
    · obtain ⟨u, hOut, hProps⟩ := hTail.2 hStored
      rw [hOut]
      refine ⟨⟨?_, fun h => absurd h hStored⟩, fun h => absurd h hStored,
        fun _ => ⟨u, rfl, rfl, hProps⟩⟩
      rintro ⟨e, he⟩
      simp at he

/-- C19 (counterexample): the only identity of institute 1 that has the email is
soft-deleted, so the lookup finds no non-deleted identity with the email in the tenant;
the creation in institute 1 is blocked all the same, by the unique index
`{ email, instituteId }`, and stores nothing. -/
theorem soft_deleted_email_blocks_creation :
    UserRepo.getUserByEmail sampleUserEnv [deletedRecord] "Teacher@School.test"
        (some ⟨1⟩) = none ∧
      (UserService.createInstituteUser sampleUserEnv [deletedRecord] [sampleInstitute]
          sameEmailData (some "TEACHER") (some ⟨1⟩)).result = .error .duplicateKey ∧
      (UserService.createInstituteUser sampleUserEnv [deletedRecord] [sampleInstitute]
          sameEmailData (some "TEACHER") (some ⟨1⟩)).users = [deletedRecord] := by
  decide

/-- C19 (amended): duplicate-email rejection is scoped by tenant. For a creation that
reaches the email check (the tenant `T` exists, is active and is not deleted; for the
administrator creations the required fields are present, and for `createSuperAdmin` no
`instituteId` is carried), `createInstituteUser` and `createInstituteAdmin` throw "User
with this email already exists in this institute" if and only if a non-deleted identity
of `T` has the email, and `createSuperAdmin` throws "User with this email already exists"
if and only if a non-deleted untenanted identity has the email. When nothing but the
email can stop the creation, it is decided by the identities of its own scope: it fails
if and only if an identity of `T` (an untenanted one for `createSuperAdmin`),
soft-deleted or not, has the email, with the duplicate-key error of the unique index when
only soft-deleted ones do; when no identity of the scope has the email it succeeds and
stores the new identity in the scope, whatever identities of other tenants have the
email. -/
theorem duplicate_email_scoped_by_tenant (env : UserEnv) (users : Users)
    (institutes : Institutes) (userData : UserData) (role : Option String) (T : ObjectId)
    (email : String) (hEmail : userData.email = some email)
    (hTenant : UserService.instituteFailure
      (InstituteRepo.getInstituteById institutes (some T)) = none) :
    ((UserService.createInstituteUser env users institutes userData role (some T)).result =
        .error (.error "User with this email already exists in this institute") ↔
      EmailInUse env users email (some T)) ∧
    (RequiredFields userData →
      ((UserService.createInstituteAdmin env users institutes userData (some T)).result =
          .error (.error "User with this email already exists in this institute") ↔
        EmailInUse env users email (some T))) ∧
    (RequiredFields userData → truthy userData.instituteId = false →
      ((UserService.createSuperAdmin env users userData).result =
          .error (.error "User with this email already exists") ↔
        EmailInUse env users email none)) ∧
    (NothingButEmail env users userData (some T) →
      (∀ s, role = some s → (Role.ofValue? s).isSome = true) →
      DecidedByEmailOfScope env users email (some T)
        (UserService.createInstituteUser env users institutes userData role (some T))) ∧
    (NothingButEmail env users userData (some T) → RequiredFields userData →
      DecidedByEmailOfScope env users email (some T)
        (UserService.createInstituteAdmin env users institutes userData (some T))) ∧
    (NothingButEmail env users userData none → RequiredFields userData →
      truthy userData.instituteId = false →
      DecidedByEmailOfScope env users email none
        (UserService.createSuperAdmin env users userData)) := by
  refine ⟨?_, ?_, ?_, ?_, ?_, ?_⟩
  · rw [← existingUserByEmail_isSome env users userData email (some T) hEmail]
    unfold UserService.createInstituteUser
    simp only [hTenant]
    cases hIn : (UserService.existingUserByEmail env users userData (some T)).isSome with
    | true => simp
    | false =>
      refine iff_of_false ?_ (by simp)
      cases hPhone : (UserService.existingUserByPhone users userData (some T)).isSome with
      | true => simp
      | false =>
        simp only [Bool.false_eq_true, if_false]
        exact hashAndCreate_error env users userData role (some T)
          "User with this email already exists in this institute" (by decide)
  · intro hRequired
    obtain ⟨hFirst, hLast, hMail, hPass⟩ := hRequired
    rw [← existingUserByEmail_isSome env users userData email (some T) hEmail]
    unfold UserService.createInstituteAdmin
    simp only [hFirst, hLast, hMail, hPass, hTenant, Bool.not_true, Bool.or_self,
      Bool.false_eq_true, if_false, Option.isNone_some]
    cases hIn : (UserService.existingUserByEmail env users userData (some T)).isSome with
    | true => simp
    | false =>
      refine iff_of_false ?_ (by simp)
      cases hPhone : (UserService.existingUserByPhone users userData (some T)).isSome with
      | true => simp
      | false =>
        simp only [Bool.false_eq_true, if_false]
        exact hashAndCreate_error env users userData (some Role.INSTITUTE_ADMIN.value)
          (some T) "User with this email already exists in this institute" (by decide)
  · intro hRequired hNoInstitute
    obtain ⟨hFirst, hLast, hMail, hPass⟩ := hRequired
    rw [← existingUserByEmail_isSome env users userData email none hEmail]
    unfold UserService.createSuperAdmin
    simp only [hFirst, hLast, hMail, hPass, hNoInstitute, Bool.not_true, Bool.or_self,
      Bool.false_eq_true, if_false]
    cases hIn : (UserService.existingUserByEmail env users userData none).isSome with
    | true => simp
    | false =>
      refine iff_of_false ?_ (by simp)
      cases hPhone : (UserService.existingUserByPhone users userData none).isSome with
      | true => simp
      | false =>
        simp only [Bool.false_eq_true, if_false]
        exact hashAndCreate_error env users userData (some Role.SUPER_ADMIN.value) none
          "User with this email already exists" (by decide)
  · intro hFine hRole
    have hParsed : ∃ r, (match role with
        | none => some Role.USER
        | some s => Role.ofValue? s) = some r := by
      cases role with
      | none => exact ⟨_, rfl⟩
      | some s => exact Option.isSome_iff_exists.mp (hRole s rfl)
    obtain ⟨r, hr⟩ := hParsed
    unfold UserService.createInstituteUser
    simp only [hTenant]
    exact lookups_decided_by_email env users userData role r (some T) email _ _ hEmail
      hFine hr
  · intro hFine hRequired
    obtain ⟨hFirst, hLast, hMail, hPass⟩ := hRequired
    unfold UserService.createInstituteAdmin
    simp only [hFirst, hLast, hMail, hPass, hTenant, Bool.not_true, Bool.or_self,
      Bool.false_eq_true, if_false, Option.isNone_some]
    exact lookups_decided_by_email env users userData (some Role.INSTITUTE_ADMIN.value)
      Role.INSTITUTE_ADMIN (some T) email _ _ hEmail hFine (by decide)
  · intro hFine hRequired hNoInstitute
    obtain ⟨hFirst, hLast, hMail, hPass⟩ := hRequired
    unfold UserService.createSuperAdmin
    simp only [hFirst, hLast, hMail, hPass, hNoInstitute, Bool.not_true, Bool.or_self,
      Bool.false_eq_true, if_false]
    exact lookups_decided_by_email env users userData (some Role.SUPER_ADMIN.value)
      Role.SUPER_ADMIN none email _ _ hEmail hFine (by decide)

/-- The sample teacher of institute 1 has the email; a creation with the same email in
institute 2 succeeds and stores the new identity in institute 2. -/
theorem duplicate_email_scoped_by_tenant_witness :
    teacherRecord.email = castEmail sampleUserEnv "Teacher@School.test" ∧
      teacherRecord.instituteId = some ⟨1⟩ ∧
      ∃ u, (UserService.createInstituteUser sampleUserEnv [teacherRecord]
            [sampleInstitute, otherInstitute] sameEmailData (some "TEACHER")
            (some ⟨2⟩)).users = [teacherRecord] ++ [u] ∧
        (UserService.createInstituteUser sampleUserEnv [teacherRecord]
            [sampleInstitute, otherInstitute] sameEmailData (some "TEACHER")
            (some ⟨2⟩)).result = .ok (deletePassword u) ∧
        u.email = castEmail sampleUserEnv "Teacher@School.test" ∧
        u.instituteId = some ⟨2⟩ ∧ u.isDeleted = false :=
  ⟨by decide, by decide,
    ((duplicate_email_scoped_by_tenant sampleUserEnv [teacherRecord]
      [sampleInstitute, otherInstitute] sameEmailData (some "TEACHER") ⟨2⟩
      "Teacher@School.test" rfl (by decide)).2.2.2.1
        ⟨by decide, by decide, by decide, ⟨"secret", rfl, by decide⟩, by decide, by decide⟩
        (fun s hs => by cases hs; decide)).2.2
      (by unfold EmailStored; decide)⟩

/-- C20: given a query with no `instituteId`, each of `getAllUsers`,
`getUsersWithoutProfile`, `getAllTeachers` and `getAllStudents` throws its
"Institute ID is required" error and makes no repository call, whatever the repository
would do. -/
theorem listings_require_tenant {ρ₁ ρ₂ ρ₃ ρ₄ : Type} (users : ListQuery → Except JsError ρ₁)
    (withoutProfile : ListQuery → Except JsError ρ₂)
    (teachers : ListQuery → Except JsError ρ₃) (students : ListQuery → Except JsError ρ₄)
    (query : ListQuery) (hNoTenant : truthy query.instituteId = false) :
    UserService.getAllUsers users query =
        ⟨.error (.error "Institute ID is required to fetch users."), []⟩ ∧
    UserService.getUsersWithoutProfile withoutProfile query =
        ⟨.error (.error "Institute ID is required to fetch users without profile."), []⟩ ∧
    TeacherService.getAllTeachers teachers query =
        ⟨.error (.error "Institute ID is required to fetch teachers."), []⟩ ∧
    StudentService.getAllStudents students query =
        ⟨.error (.error "Institute ID is required to fetch students."), []⟩ := by
  simp [UserService.getAllUsers, UserService.getUsersWithoutProfile,
    TeacherService.getAllTeachers, StudentService.getAllStudents, listWithGuard, hNoTenant]

/-- A query that carries only a role filter. -/
theorem listings_require_tenant_witness :
    UserService.getAllUsers (fun _ => Except.ok (0 : Nat)) ⟨none, [("role", "TEACHER")]⟩ =
      ⟨.error (.error "Institute ID is required to fetch users."), []⟩ :=
  (listings_require_tenant (fun _ => Except.ok (0 : Nat)) (fun _ => Except.ok (0 : Nat))
    (fun _ => Except.ok (0 : Nat)) (fun _ => Except.ok (0 : Nat))
    ⟨none, [("role", "TEACHER")]⟩ rfl).1

/-- A session that `AcademicSession.create` stores belongs to the institute of the data
it was handed. -/
theorem repo_createSession_tenant (tz : Zone) (db : Sessions) (data : CreateData)
    (created : Session)
    (h : (AcademicSessionRepo.createSession tz db data).2 = .ok created) :
    created.instituteId = data.instituteId := by
  unfold AcademicSessionRepo.createSession at h
  split at h
  · simp only at h
    split_ifs at h
    simp only [Except.ok.injEq] at h
    rw [← h]
  · simp at h

/-- A session that the service creates belongs to the institute of the data it was
called with. -/
theorem createSession_tenant (tz : Zone) (db : Sessions) (data : CreateData)
    (created : Session)
    (h : (AcademicSessionService.createSession tz db data).result = .ok created) :
    created.instituteId = data.instituteId := by
  unfold AcademicSessionService.createSession at h
  cases hValid : (validateDateRange tz data.startDate data.endDate).valid
  · simp [hValid] at h
  · cases hCur : data.isCurrent
    · simp only [hValid, hCur, Bool.not_true, Bool.false_eq_true, if_false] at h
      generalize hRepo : AcademicSessionRepo.createSession tz db data = out at h
      obtain ⟨db2, result⟩ := out
      cases result with
      | error e => simp at h
      | ok s =>
        simp only [Except.ok.injEq] at h
        rw [← h]
        exact repo_createSession_tenant tz db data s (by rw [hRepo])
    · simp only [hValid, hCur, Bool.not_true, Bool.false_eq_true, if_false, if_true] at h
      generalize hRepo : AcademicSessionRepo.createSession tz _ _ = out at h
      obtain ⟨db2, result⟩ := out
      cases result with
      | error e => simp at h
      | ok s =>
        simp only [Bool.false_eq_true, if_false, Except.ok.injEq] at h
        rw [← h]
        exact repo_createSession_tenant tz _
          ⟨data.name, data.startDate, data.endDate, false, data.instituteId⟩ s (by rw [hRepo])

/-- A user that `createInstituteUser` returns belongs to the institute it was called
with. -/
theorem createInstituteUser_tenant (env : UserEnv) (users : Users) (institutes : Institutes)
    (userData : UserData) (role : Option String) (instituteId : Option ObjectId)
    (created : UserResponse)
    (h : (UserService.createInstituteUser env users institutes userData role
      instituteId).result = .ok created) :
    created.instituteId = instituteId := by
  unfold UserService.createInstituteUser at h
  cases hTenant : UserService.instituteFailure
      (InstituteRepo.getInstituteById institutes instituteId) with
  | some e => simp [hTenant] at h
  | none =>
    simp only [hTenant] at h
    cases hIn : (UserService.existingUserByEmail env users userData instituteId).isSome with
    | true => simp [hIn] at h
    | false =>
      cases hPhone : (UserService.existingUserByPhone users userData instituteId).isSome with
      | true => simp [hIn, hPhone] at h
      | false =>
        simp only [hIn, hPhone, Bool.false_eq_true, if_false] at h
        rcases hashAndCreate_cases env users userData role instituteId with
          ⟨_, e, hErr⟩ | ⟨user, _, _, hOk, hInst, _⟩
        · rw [hErr] at h
          simp at h
        · rw [hOk] at h
          simp only [Except.ok.injEq] at h
          rw [← h]
          exact hInst

/-- A user that `createInstituteAdmin` returns belongs to the institute it was called
with. -/
theorem createInstituteAdmin_tenant (env : UserEnv) (users : Users)
    (institutes : Institutes) (userData : UserData) (instituteId : Option ObjectId)
    (created : UserResponse)
    (h : (UserService.createInstituteAdmin env users institutes userData
      instituteId).result = .ok created) :
    created.instituteId = instituteId := by
  unfold UserService.createInstituteAdmin at h
  split_ifs at h <;>
    cases hTenant : UserService.instituteFailure
      (InstituteRepo.getInstituteById institutes instituteId) <;>
    simp only [hTenant] at h
  all_goals first
    | exact absurd h (by simp)
    | skip
  rcases hashAndCreate_cases env users userData (some Role.INSTITUTE_ADMIN.value)
    instituteId with ⟨_, e, hErr⟩ | ⟨user, _, _, hOk, hInst, _⟩
  · rw [hErr] at h
    simp at h
  · rw [hOk] at h
    simp only [Except.ok.injEq] at h
    rw [← h]
    exact hInst

/-- The sessions `getAllSessions({ instituteId, isDeleted: false })` fetches for the
service are those of the full query, but for their order. -/
theorem getAllSessionsBy_perm (db : Sessions) (T : ObjectId) :
    (AcademicSessionRepo.getAllSessionsBy db ⟨some T, none, none⟩).Perm
      (AcademicSessionRepo.getAllSessions db T) := by
  unfold AcademicSessionRepo.getAllSessionsBy AcademicSessionRepo.getAllSessions
  refine (List.perm_insertionSort _ _).trans ?_
  simp only [Bool.and_true]
  exact List.Perm.refl _

/-- Every session that `getAllSessions` lists for a query with an `instituteId` belongs
to that institute and is not deleted. -/
theorem getAllSessions_tenant (db : Sessions) (T : ObjectId)
    (isCurrent isActive : Option String) :
    ∀ s ∈ AcademicSessionService.getAllSessions db ⟨some T, isCurrent, isActive⟩,
      s ∈ db ∧ s.instituteId = T ∧ s.isDeleted = false := by
  intro s hs
  unfold AcademicSessionService.getAllSessions AcademicSessionRepo.getAllSessionsBy at hs
  rw [(List.perm_insertionSort _ _).mem_iff, List.mem_filter] at hs
  obtain ⟨hMem, hProp⟩ := hs
  simp only [Bool.and_eq_true, Bool.not_eq_true', decide_eq_true_eq] at hProp
  exact ⟨hMem, hProp.1.1.2, hProp.1.1.1⟩

/-- C21 (counterexample): the request-scoped store holds tenant X and session 1 belongs
to X. Two `updateSession` requests that differ only in the `instituteId` the client
supplies in the session body leave session 1 in different tenants: the one that names
tenant Y moves the session to Y. -/
theorem updateSession_handler_writes_client_tenant :
    getInstituteId tenantStore = .id tenantX ∧
    stored2024.instituteId = tenantX ∧
    (AcademicSessionController.updateSession utc [stored2024]
        ⟨⟨1⟩, some ⟨none, none, none, none, none, none, some tenantY⟩, tenantStore⟩).db.map
      (fun s => (s._id, s.instituteId)) = [(⟨1⟩, tenantY)] ∧
    (AcademicSessionController.updateSession utc [stored2024]
        ⟨⟨1⟩, some ⟨none, none, none, none, none, none, some tenantX⟩, tenantStore⟩).db.map
      (fun s => (s._id, s.instituteId)) = [(⟨1⟩, tenantX)] := by
  decide

/-- C21 (amended): whenever the request-scoped store holds a tenant id `T`, the handlers
that pass a tenant id downstream (`createSession`, `getAllSessions`, `getCurrentSession`,
`setCurrentSession`, `findSessionByDate`, `createInstituteAdmin`, `createInstituteUser`)
resolve `T` for every client-supplied `instituteId` of the body or the query and hand `T`
to their service: on a request that passes the handler's own field checks, the response
the handler gives and the collection it leaves are those of the service called with `T`;
a session or a user it creates belongs to `T`, and the sessions it lists belong to `T`;
two requests that differ only in the client-supplied `instituteId` get the same answer
and leave the same collections. -/
theorem handlers_prefer_context_tenant (env : UserEnv) (users : Users)
    (institutes : Institutes) (tz : Zone) (db : Sessions) (store : Option Store)
    (T : ObjectId) (client1 client2 : Option ObjectId) (user : Option UserBody)
    (session : Option SessionBody) (id : ObjectId) (isCurrent isActive : Option String)
    (date : DateInput)
    (hContext : getInstituteId store = .id T) :
    (contextOrClient store client1 = some T ∧
      UserController.resolveInstituteId ⟨user, client1, store⟩ = some T) ∧
    (∀ body, session = some body → truthy body.name = true → body.startDate ≠ .falsy →
      body.endDate ≠ .falsy →
      (AcademicSessionController.createSession tz db ⟨session, client1, store⟩).db =
        (AcademicSessionService.createSession tz db
          ⟨body.name.getD "", body.startDate, body.endDate, body.isCurrent, T⟩).db ∧
      (∀ created, (AcademicSessionService.createSession tz db
          ⟨body.name.getD "", body.startDate, body.endDate, body.isCurrent, T⟩).result =
            .ok created →
        (AcademicSessionController.createSession tz db ⟨session, client1, store⟩).response =
            .createSuccess "Academic session created successfully" created ∧
          created.instituteId = T) ∧
      (∀ e, (AcademicSessionService.createSession tz db
          ⟨body.name.getD "", body.startDate, body.endDate, body.isCurrent, T⟩).result =
            .error e →
        (AcademicSessionController.createSession tz db ⟨session, client1, store⟩).response =
          .failure (setServerError e.message))) ∧
    (AcademicSessionController.getAllSessions db ⟨client1, isCurrent, isActive, store⟩ =
        .many "Academic sessions fetched successfully"
          (AcademicSessionService.getAllSessions db ⟨some T, isCurrent, isActive⟩)
          (AcademicSessionService.getAllSessions db ⟨some T, isCurrent, isActive⟩).length ∧
      ∀ s ∈ AcademicSessionService.getAllSessions db ⟨some T, isCurrent, isActive⟩,
        s ∈ db ∧ s.instituteId = T ∧ s.isDeleted = false) ∧
    ((AcademicSessionService.getCurrentSession db T = none →
        AcademicSessionController.getCurrentSession db ⟨client1, store⟩ =
          .one "No current session found" none) ∧
      (∀ current, AcademicSessionService.getCurrentSession db T = some current →
        AcademicSessionController.getCurrentSession db ⟨client1, store⟩ =
            .one "Current academic session fetched successfully" (some current) ∧
          current.instituteId = T)) ∧
    ((AcademicSessionController.setCurrentSession db ⟨id, client1, store⟩).db =
        (AcademicSessionService.setCurrentSession db T id).db ∧
      (∀ current, (AcademicSessionService.setCurrentSession db T id).result = .ok current →
        (AcademicSessionController.setCurrentSession db ⟨id, client1, store⟩).response =
          .success "Current academic session set successfully" current) ∧
      (∀ e, (AcademicSessionService.setCurrentSession db T id).result = .error e →
        (AcademicSessionController.setCurrentSession db ⟨id, client1, store⟩).response =
          .failure (setServerError e.message))) ∧
    (∀ d, date = .at d →
      (AcademicSessionService.findSessionByDate tz db T d = .ok none →
        AcademicSessionController.findSessionByDate tz db ⟨date, client1, store⟩ =
          .one "No session found for the given date" none) ∧
      (∀ found, AcademicSessionService.findSessionByDate tz db T d = .ok (some found) →
        AcademicSessionController.findSessionByDate tz db ⟨date, client1, store⟩ =
            .one "Session found for the given date" (some found) ∧
          found.instituteId = T) ∧
      (∀ e, AcademicSessionService.findSessionByDate tz db T d = .error e →
        AcademicSessionController.findSessionByDate tz db ⟨date, client1, store⟩ =
          .failure (setServerError e.message))) ∧
    (∀ body, user = some body → truthy body.firstName = true → truthy body.lastName = true →
      truthy body.email = true → truthy body.password = true →
      (UserController.createInstituteAdmin env users institutes
          ⟨user, client1, store⟩).users =
        (UserService.createInstituteAdmin env users institutes
          (UserController.userDataOf body) (some T)).users ∧
      (∀ created, (UserService.createInstituteAdmin env users institutes
          (UserController.userDataOf body) (some T)).result = .ok created →
        (UserController.createInstituteAdmin env users institutes
            ⟨user, client1, store⟩).response =
            .createSuccess "Institute admin created successfully" created ∧
          created.instituteId = some T) ∧
      (∀ e, (UserService.createInstituteAdmin env users institutes
          (UserController.userDataOf body) (some T)).result = .error e →
        (UserController.createInstituteAdmin env users institutes
            ⟨user, client1, store⟩).response = .failure (setServerError e.message))) ∧
    (∀ body, user = some body → truthy body.firstName = true → truthy body.lastName = true →
      truthy body.email = true → truthy body.password = true → truthy body.role = true →
      UserController.allowedRoles.contains (body.role.getD "") = true →
      (UserController.createInstituteUser env users institutes ⟨user, client1, store⟩).users =
        (UserService.createInstituteUser env users institutes (UserController.userDataOf body)
          body.role (some T)).users ∧
      (∀ created, (UserService.createInstituteUser env users institutes
          (UserController.userDataOf body) body.role (some T)).result = .ok created →
        (UserController.createInstituteUser env users institutes
            ⟨user, client1, store⟩).response =
            .createSuccess (body.role.getD "" ++ " created successfully") created ∧
          created.instituteId = some T) ∧
      (∀ e, (UserService.createInstituteUser env users institutes
          (UserController.userDataOf body) body.role (some T)).result = .error e →
        (UserController.createInstituteUser env users institutes
            ⟨user, client1, store⟩).response = .failure (setServerError e.message))) ∧
    (AcademicSessionController.createSession tz db ⟨session, client1, store⟩ =
        AcademicSessionController.createSession tz db ⟨session, client2, store⟩ ∧
      AcademicSessionController.getAllSessions db ⟨client1, isCurrent, isActive, store⟩ =
        AcademicSessionController.getAllSessions db ⟨client2, isCurrent, isActive, store⟩ ∧
      AcademicSessionController.getCurrentSession db ⟨client1, store⟩ =
        AcademicSessionController.getCurrentSession db ⟨client2, store⟩ ∧
      AcademicSessionController.setCurrentSession db ⟨id, client1, store⟩ =
        AcademicSessionController.setCurrentSession db ⟨id, client2, store⟩ ∧
      AcademicSessionController.findSessionByDate tz db ⟨date, client1, store⟩ =
        AcademicSessionController.findSessionByDate tz db ⟨date, client2, store⟩ ∧
      UserController.createInstituteAdmin env users institutes ⟨user, client1, store⟩ =
        UserController.createInstituteAdmin env users institutes ⟨user, client2, store⟩ ∧
      UserController.createInstituteUser env users institutes ⟨user, client1, store⟩ =
        UserController.createInstituteUser env users institutes ⟨user, client2, store⟩) := by
  refine ⟨⟨?_, ?_⟩, ?_, ⟨?_, ?_⟩, ⟨?_, ?_⟩, ?_, ?_, ?_, ?_, ⟨?_, ?_, ?_, ?_, ?_, ?_, ?_⟩⟩
  · simp [contextOrClient, hContext]
  · simp [UserController.resolveInstituteId, hContext]
  · intro body hBody hName hStart hEnd
    simp only [AcademicSessionController.createSession, contextOrClient, hContext, hBody,
      Option.getD_some, hName, hStart, hEnd, Bool.not_true, decide_False, Bool.or_self,
      Bool.false_eq_true, if_false]
    have hTenant := createSession_tenant tz db
      ⟨body.name.getD "", body.startDate, body.endDate, body.isCurrent, T⟩
    generalize AcademicSessionService.createSession tz db
      ⟨body.name.getD "", body.startDate, body.endDate, body.isCurrent, T⟩ = run at hTenant ⊢
    obtain ⟨db2, result, warned⟩ := run
    cases result with
    | error e => simp
    | ok created =>
      simp only [Except.ok.injEq, forall_eq', true_and, reduceCtorEq, false_implies,
        implies_true, and_true]
      exact hTenant created rfl
  · simp [AcademicSessionController.getAllSessions, contextOrClient, hContext]
  · exact getAllSessions_tenant db T isCurrent isActive
  · intro hNone
    simp [AcademicSessionController.getCurrentSession, contextOrClient, hContext, hNone]
  · intro current hCurrent
    refine ⟨by simp [AcademicSessionController.getCurrentSession, contextOrClient, hContext,
      hCurrent], ?_⟩
    have hProp := List.find?_some hCurrent
    simp only [Bool.and_eq_true, decide_eq_true_eq] at hProp
    exact hProp.1.1.1
  · simp only [AcademicSessionController.setCurrentSession, contextOrClient, hContext]
    generalize AcademicSessionService.setCurrentSession db T id = run
    obtain ⟨db2, result, warned⟩ := run
    cases result <;> simp
  · intro d hDate
    simp only [AcademicSessionController.findSessionByDate, contextOrClient, hContext, hDate]
    refine ⟨fun h => by simp [h], ?_, fun e h => by simp [h]⟩
    intro found hFound
    refine ⟨by simp [hFound], ?_⟩
    unfold AcademicSessionService.findSessionByDate AcademicSessionRepo.findSessionByDate
      at hFound
    split at hFound
    · simp at hFound
    · have hProp := List.find?_some (Except.ok.inj hFound)
      simp only [Bool.and_eq_true, decide_eq_true_eq] at hProp
      exact hProp.1.1.1.1
  · intro body hBody hFirst hLast hMail hPass
    simp only [UserController.createInstituteAdmin, UserController.resolveInstituteId,
      UserController.bodyOf, hContext, hBody, Option.getD_some, hFirst, hLast, hMail, hPass,
      Bool.not_true, Bool.or_self, Bool.false_eq_true, if_false, Option.isNone_some]
    have hTenant := createInstituteAdmin_tenant env users institutes
      (UserController.userDataOf body) (some T)
    generalize UserService.createInstituteAdmin env users institutes
      (UserController.userDataOf body) (some T) = run at hTenant ⊢
    obtain ⟨users2, result⟩ := run
    cases result with
    | error e => simp
    | ok created =>
      simp only [Except.ok.injEq, forall_eq', true_and, reduceCtorEq, false_implies,
        implies_true, and_true]
      exact hTenant created rfl
  · intro body hBody hFirst hLast hMail hPass hRole hAllowed
    simp only [UserController.createInstituteUser, UserController.resolveInstituteId,
      UserController.bodyOf, hContext, hBody, Option.getD_some, hFirst, hLast, hMail, hPass,
      hRole, hAllowed, Bool.not_true, Bool.or_self, Bool.false_eq_true, if_false,
      Option.isNone_some]
    have hTenant := createInstituteUser_tenant env users institutes
      (UserController.userDataOf body) body.role (some T)
    generalize UserService.createInstituteUser env users institutes
      (UserController.userDataOf body) body.role (some T) = run at hTenant ⊢
    obtain ⟨users2, result⟩ := run
    cases result with
    | error e => simp
    | ok created =>
      simp only [Except.ok.injEq, forall_eq', true_and, reduceCtorEq, false_implies,
        implies_true, and_true]
      exact hTenant created rfl
  · simp [AcademicSessionController.createSession, contextOrClient, hContext]
  · simp [AcademicSessionController.getAllSessions, contextOrClient, hContext]
  · simp [AcademicSessionController.getCurrentSession, contextOrClient, hContext]
  · simp [AcademicSessionController.setCurrentSession, contextOrClient, hContext]
  · simp [AcademicSessionController.findSessionByDate, contextOrClient, hContext]
  · simp [UserController.createInstituteAdmin, UserController.resolveInstituteId,
      UserController.bodyOf, hContext]
  · simp [UserController.createInstituteUser, UserController.resolveInstituteId,
      UserController.bodyOf, hContext]

/-- Requests that name tenant Y while the store holds tenant X: `setCurrentSession` leaves
what the service called with X leaves, and `getCurrentSession` answers with the current
session of X. -/
theorem handlers_prefer_context_tenant_witness :
    contextOrClient tenantStore (some tenantY) = some tenantX ∧
    (AcademicSessionController.setCurrentSession [stored2024, stored2025]
        ⟨⟨1⟩, some tenantY, tenantStore⟩).db =
      (AcademicSessionService.setCurrentSession [stored2024, stored2025] tenantX ⟨1⟩).db ∧
    AcademicSessionController.getCurrentSession [stored2024, stored2025]
        ⟨some tenantY, tenantStore⟩ =
      .one "Current academic session fetched successfully" (some stored2025) :=
  have h := handlers_prefer_context_tenant sampleUserEnv [] [] utc [stored2024, stored2025]
    tenantStore tenantX (some tenantY) none none none ⟨1⟩ none none .falsy (by decide)
  ⟨h.1.1, h.2.2.2.2.1.1, (h.2.2.2.1.2 stored2025 (by decide)).1⟩

/-- A lookup by identifier after a map that keeps identifiers. -/
theorem find?_id_map (db : Sessions) (id : ObjectId) (g : Session → Session)
    (hId : ∀ s, (g s)._id = s._id) :
    (db.map g).find? (fun s => decide (s._id = id)) =
      (db.find? fun s => decide (s._id = id)).map g := by
  induction db with
  | nil => rfl
  | cons x rest ih =>
    by_cases hx : x._id = id
    · simp [List.find?, hId, hx]
    · simp [List.find?, hId, hx, ih]

/-- No session of the institute is current after the `updateMany`. -/
theorem unsetCurrent_not_current (db : Sessions) (T : ObjectId) :
    ∀ x ∈ AcademicSessionRepo.unsetCurrent db T, x.instituteId = T → x.isCurrent = false := by
  intro x hx hT
  simp only [AcademicSessionRepo.unsetCurrent, List.mem_map] at hx
  obtain ⟨y, _, rfl⟩ := hx
  by_cases hy : y.instituteId = T ∧ y.isCurrent = true
  · simp [hy]
  · simp only [hy, if_false] at hT ⊢
    cases hCur : y.isCurrent with
    | false => rfl
    | true => exact absurd ⟨hT, hCur⟩ hy

/-- The `updateMany` keeps every identifier, so a lookup by identifier finds a document
after it exactly when it did before. -/
theorem unsetCurrent_find? (db : Sessions) (T id : ObjectId) :
    (AcademicSessionRepo.unsetCurrent db T).find? (fun s => decide (s._id = id)) =
      (db.find? fun s => decide (s._id = id)).map fun s =>
        if s.instituteId = T ∧ s.isCurrent = true then { s with isCurrent := false } else s := by
  unfold AcademicSessionRepo.unsetCurrent
  apply find?_id_map
  intro s
  split_ifs <;> rfl

/-- The service call `setCurrentSession`, by whether the target is found after the
`updateMany`. -/
theorem setCurrentSession_eq (db : Sessions) (T id : ObjectId) :
    AcademicSessionService.setCurrentSession db T id =
      match (AcademicSessionRepo.unsetCurrent db T).find? (fun s => decide (s._id = id)) with
      | none => ⟨AcademicSessionRepo.unsetCurrent db T, .error (.error "Session not found"),
          false⟩
      | some found =>
        ⟨(AcademicSessionRepo.unsetCurrent db T).map fun s =>
            if s._id = id then { s with isCurrent := true, isActive := true } else s,
          .ok { found with isCurrent := true, isActive := true }, false⟩ := by
  unfold AcademicSessionService.setCurrentSession AcademicSessionRepo.setCurrentSession
    AcademicSessionRepo.findByIdAndUpdate
  simp only
  cases (AcademicSessionRepo.unsetCurrent db T).find? (fun s => decide (s._id = id)) <;> rfl

/-- The `updateMany` keeps every identifier. -/
theorem unsetCurrent_ids (db : Sessions) (T : ObjectId) :
    (AcademicSessionRepo.unsetCurrent db T).map (fun x => x._id) = db.map fun x => x._id := by
  unfold AcademicSessionRepo.unsetCurrent
  rw [List.map_map]
  apply List.map_congr_left
  intro x _
  simp only [Function.comp]
  split_ifs <;> rfl

/-- C22: for every tenant `T` and session id `s`: if a session with id `s` exists,
`setCurrentSession(T, s)` returns the session with id `s`, with `isCurrent = true`, as it
is stored afterwards; afterwards a session with id `s` is stored and has
`isCurrent = true`, every stored session with id `s` has `isCurrent = true` and every
other session of `T` has `isCurrent = false`; the collection holds the same identifiers
as before, in the same order, and is exactly the old one with `isCurrent` unset on the
current sessions of `T` and then `isCurrent` and `isActive` set on the target; if no
session with id `s` exists it throws "Session not found". -/
theorem setCurrentSession_sets_target (db : Sessions) (T s : ObjectId) :
    ((∃ x ∈ db, x._id = s) →
      (∃ session, (AcademicSessionService.setCurrentSession db T s).result = .ok session ∧
        session._id = s ∧ session.isCurrent = true ∧
        session ∈ (AcademicSessionService.setCurrentSession db T s).db) ∧
      (∃ x ∈ (AcademicSessionService.setCurrentSession db T s).db,
        x._id = s ∧ x.isCurrent = true) ∧
      (∀ x ∈ (AcademicSessionService.setCurrentSession db T s).db,
        (x._id = s → x.isCurrent = true) ∧
        (x._id ≠ s → x.instituteId = T → x.isCurrent = false)) ∧
      (AcademicSessionService.setCurrentSession db T s).db.map (fun x => x._id) =
        db.map (fun x => x._id) ∧
      (AcademicSessionService.setCurrentSession db T s).db =
        (AcademicSessionRepo.unsetCurrent db T).map fun x =>
          if x._id = s then { x with isCurrent := true, isActive := true } else x) ∧
    ((¬∃ x ∈ db, x._id = s) →
      (AcademicSessionService.setCurrentSession db T s).result =
        .error (.error "Session not found")) := by
  rw [setCurrentSession_eq, unsetCurrent_find?]
  refine ⟨?_, ?_⟩
  · rintro ⟨x, hx, hxs⟩
    cases hFind : db.find? (fun y => decide (y._id = s)) with
    | none =>
      rw [List.find?_eq_none] at hFind
      exact absurd (by simpa using hxs) (hFind x hx)
    | some found =>
      have hFoundId : found._id = s := by simpa using List.find?_some hFind
      have hFoundMem : found ∈ db := List.mem_of_find?_eq_some hFind
      have hUnsetId : (if found.instituteId = T ∧ found.isCurrent = true then
          { found with isCurrent := false } else found)._id = s := by
        split_ifs <;> exact hFoundId
      have hStored : ({ (if found.instituteId = T ∧ found.isCurrent = true then
            { found with isCurrent := false } else found) with
            isCurrent := true, isActive := true } : Session) ∈
          (AcademicSessionRepo.unsetCurrent db T).map fun x =>
            if x._id = s then { x with isCurrent := true, isActive := true } else x := by
        rw [List.mem_map]
        refine ⟨if found.instituteId = T ∧ found.isCurrent = true then
          { found with isCurrent := false } else found, ?_, ?_⟩
        · unfold AcademicSessionRepo.unsetCurrent
          exact List.mem_map.mpr ⟨found, hFoundMem, rfl⟩
        · rw [if_pos hUnsetId]
      simp only [Option.map_some']
      refine ⟨⟨_, rfl, hUnsetId, rfl, hStored⟩, ⟨_, hStored, hUnsetId, rfl⟩, ?_, ?_, trivial⟩
      · intro y hy
        simp only [List.mem_map] at hy
        obtain ⟨z, hz, rfl⟩ := hy
        refine ⟨?_, ?_⟩
        · intro hId
          by_cases hzs : z._id = s
          · simp [hzs]
          · simp [hzs] at hId
        · intro hId hT
          by_cases hzs : z._id = s
          · simp [hzs] at hId
          · simp only [hzs, if_false] at hT ⊢
            exact unsetCurrent_not_current db T z hz hT
      · rw [← unsetCurrent_ids db T, List.map_map]
        apply List.map_congr_left
        intro y _
        simp only [Function.comp]
        split_ifs <;> rfl
  · intro hNone
    have hFind : db.find? (fun y => decide (y._id = s)) = none := by
      rw [List.find?_eq_none]
      intro y hy hys
      exact hNone ⟨y, hy, by simpa using hys⟩
    simp [hFind]

/-- Session 1 of tenant X is made current while session 2 was: afterwards session 1 is
stored with `isCurrent = true`. -/
theorem setCurrentSession_sets_target_witness :
    ∃ x ∈ (AcademicSessionService.setCurrentSession [stored2024, stored2025] tenantX
        ⟨1⟩).db, x._id = ⟨1⟩ ∧ x.isCurrent = true :=
  ((setCurrentSession_sets_target [stored2024, stored2025] tenantX ⟨1⟩).1
    ⟨stored2024, by decide, rfl⟩).2.1

/-- C29: when `setCurrentSession(T, s)` throws "Session not found", the collection it
leaves is the one after the `updateMany`: every session of `T` has `isCurrent = false`,
so `T` has no current session. -/
theorem setCurrentSession_failure_unsets (db : Sessions) (T s : ObjectId)
    (hFail : (AcademicSessionService.setCurrentSession db T s).result =
      .error (.error "Session not found")) :
    (AcademicSessionService.setCurrentSession db T s).db =
        AcademicSessionRepo.unsetCurrent db T ∧
      (∀ x ∈ (AcademicSessionService.setCurrentSession db T s).db,
        x.instituteId = T → x.isCurrent = false) ∧
      currentSessions (AcademicSessionService.setCurrentSession db T s).db T = [] := by
  rw [setCurrentSession_eq] at hFail ⊢
  cases hFind : (AcademicSessionRepo.unsetCurrent db T).find?
      (fun y => decide (y._id = s)) with
  | some found => simp [hFind] at hFail
  | none =>
    refine ⟨rfl, unsetCurrent_not_current db T, ?_⟩
    simp only [currentSessions, List.filter_eq_nil_iff, Bool.and_eq_true, decide_eq_true_eq,
      not_and, Bool.not_eq_true]
    exact unsetCurrent_not_current db T

/-- Tenant X had session 2 current; a call with an unknown id leaves it with none. -/
theorem setCurrentSession_failure_unsets_witness :
    currentSessions [stored2024, stored2025] tenantX = [stored2025] ∧
      currentSessions
        (AcademicSessionService.setCurrentSession [stored2024, stored2025] tenantX ⟨9⟩).db
        tenantX = [] :=
  ⟨by decide,
    (setCurrentSession_failure_unsets [stored2024, stored2025] tenantX ⟨9⟩ (by decide)).2.2⟩

/-- C23 (code defect): creating a session, deleting it and then calling
`setCurrentSession` with its id leaves a session that has both `isDeleted = true` and
`isCurrent = true`. -/
theorem deleted_session_made_current :
    (AcademicSessionService.setCurrentSession
      (AcademicSessionService.deleteSession
        (AcademicSessionService.createSession utc [] plain2024).db ⟨1⟩).db
      tenantX ⟨1⟩).db.map (fun s => (s._id, s.isDeleted, s.isCurrent)) =
      [(⟨1⟩, true, true)] := by
  decide

/-- C24: for an existing session id, `deleteSession(id)` returns the session with
`isDeleted = true`, `isActive = false` and `isCurrent = false`, writes exactly these
three flags on the session with that id, keeps its other fields and every other session
as they were and removes no record; for an id with no session it throws "Session not
found" and leaves the collection as it was. -/
theorem deleteSession_frame (db : Sessions) (id : ObjectId) :
    (∀ found, AcademicSessionRepo.getSessionById db id = some found →
      (AcademicSessionService.deleteSession db id).result =
        .ok ⟨found._id, found.instituteId, found.name, found.startDate, found.endDate,
          false, false, true⟩ ∧
      (AcademicSessionService.deleteSession db id).db =
        db.map (fun s =>
          if s._id = id then
            ⟨s._id, s.instituteId, s.name, s.startDate, s.endDate, false, false, true⟩
          else s) ∧
      (AcademicSessionService.deleteSession db id).db.length = db.length) ∧
    (AcademicSessionRepo.getSessionById db id = none →
      (AcademicSessionService.deleteSession db id).result =
        .error (.error "Session not found") ∧
      (AcademicSessionService.deleteSession db id).db = db) := by
  unfold AcademicSessionService.deleteSession AcademicSessionRepo.deleteSession
    AcademicSessionRepo.findByIdAndUpdate AcademicSessionRepo.getSessionById
  refine ⟨?_, ?_⟩
  · intro found hFound
    simp [hFound]
  · intro hNone
    simp [hNone]

/-- Deleting the current session 2 of tenant X. -/
theorem deleteSession_frame_witness :
    (AcademicSessionService.deleteSession [stored2024, stored2025] ⟨2⟩).db =
      [stored2024,
        ⟨⟨2⟩, tenantX, "2025-2026", 1743638400000, 1774915200000, false, false, true⟩] :=
  ((deleteSession_frame [stored2024, stored2025] ⟨2⟩).1 stored2025 (by decide)).2.1.trans
    (by decide)

/-- C27 (counterexample): on a host one hour ahead of UTC, asked for the
earliest date there is, `findSessionByDate` does not return `null` although the store
holds no session at all: `setHours(0, 0, 0, 0)` leaves the date an Invalid Date and the
query fails with a cast error. -/
theorem findSessionByDate_throws_on_unrepresentable_midnight :
    setHoursZero oneHourAhead (-8640000000000000) = none ∧
    AcademicSessionService.findSessionByDate oneHourAhead [] tenantX (-8640000000000000) =
      .error .validation := by
  decide

/-- C27 (amended): for a date `d` whose local midnight `d'` is a time value,
`findSessionByDate(T, d)` returns; it returns a session only if it is stored, belongs to
`T`, is active, is not deleted and has `startDate ≤ d' ≤ endDate`; it returns `null` when
no stored session is such; in particular, when the tenant's two sessions are such that
`d'` lies strictly after the end of the first and strictly before the start of the
second, it returns `null`. -/
theorem findSessionByDate_spec (tz : Zone) (db : Sessions) (T : ObjectId) (d d' : Int)
    (hMidnight : setHoursZero tz d = some d') :
    (∃ found, AcademicSessionService.findSessionByDate tz db T d = .ok found) ∧
    (∀ s, AcademicSessionService.findSessionByDate tz db T d = .ok (some s) →
      s ∈ db ∧ s.instituteId = T ∧ s.isActive = true ∧ s.isDeleted = false ∧
        s.startDate ≤ d' ∧ d' ≤ s.endDate) ∧
    ((∀ s ∈ db, ¬(s.instituteId = T ∧ s.isActive = true ∧ s.isDeleted = false ∧
        s.startDate ≤ d' ∧ d' ≤ s.endDate)) →
      AcademicSessionService.findSessionByDate tz db T d = .ok none) ∧
    (∀ a b : Session, a.endDate < d' → d' < b.startDate →
      AcademicSessionService.findSessionByDate tz [a, b] T d = .ok none) := by
  unfold AcademicSessionService.findSessionByDate AcademicSessionRepo.findSessionByDate
  simp only [hMidnight]
  refine ⟨⟨_, rfl⟩, ?_, ?_, ?_⟩
  · intro s hFound
    have hFound := Except.ok.inj hFound
    have hMem := List.mem_of_find?_eq_some hFound
    have hProp := List.find?_some hFound
    simp only [Bool.and_eq_true, decide_eq_true_eq, Bool.not_eq_true', ge_iff_le] at hProp
    exact ⟨hMem, hProp.1.1.1.1, hProp.1.2, hProp.2, hProp.1.1.1.2, hProp.1.1.2⟩
  · intro hNone
    congr 1
    simp only [List.find?_eq_none, Bool.and_eq_true, decide_eq_true_eq, Bool.not_eq_true',
      ge_iff_le]
    intro s hs hProp
    exact hNone s hs ⟨hProp.1.1.1.1, hProp.1.2, hProp.2, hProp.1.1.1.2, hProp.1.1.2⟩
  · intro a b hAfter hBefore
    congr 1
    simp only [List.find?_eq_none, Bool.and_eq_true, decide_eq_true_eq, Bool.not_eq_true',
      ge_iff_le, List.mem_cons, List.mem_singleton, List.not_mem_nil, or_false]
    rintro s (rfl | rfl) hProp
    · exact absurd hProp.1.1.2 (not_le.mpr hAfter)
    · exact absurd hProp.1.1.1.2 (not_le.mpr hBefore)

/-- The first of April 2025, ten in the morning, between the two sessions of tenant X, on
a host that runs on UTC. -/
theorem findSessionByDate_spec_witness :
    AcademicSessionService.findSessionByDate utc [stored2024, stored2025] tenantX
      1743501600000 = .ok none :=
  (findSessionByDate_spec utc [stored2024, stored2025] tenantX 1743501600000 1743465600000
    (by decide)).2.2.2 stored2024 stored2025 (by decide) (by decide)

/-- Every record the shared tail of the creations adds has the role and the institute the
service chose, and the hash of the submitted password. -/
theorem hashAndCreate_new (env : UserEnv) (users : Users) (userData : UserData)
    (role : Role) (instituteId : Option ObjectId) :
    ∀ u ∈ (UserService.hashAndCreate env users userData (some role.value) instituteId).users,
      u ∉ users →
      u.role = role ∧ u.instituteId = instituteId ∧
        ∃ p, userData.password = some p ∧ u.password = env.hash p := by
  intro u hu hNew
  rcases hashAndCreate_cases env users userData (some role.value) instituteId with
    ⟨hUsers, _⟩ | ⟨user, p, hUsers, _, hInst, hPassword, hHash, hRole⟩
  · rw [hUsers] at hu
    exact absurd hu hNew
  · rw [hUsers, List.mem_append, List.mem_singleton] at hu
    rcases hu with hu | rfl
    · exact absurd hu hNew
    · have hParsed := hRole _ rfl
      have hValue : Role.ofValue? role.value = some role := by
        cases role <;> decide
      rw [hValue] at hParsed
      exact ⟨(Option.some.inj hParsed).symm, hInst, p, hPassword, hHash⟩

/-- C30: for every `userData`, also one that carries a `role` or an `instituteId` of its
own, every record `createInstituteAdmin(userData, instituteId)` adds has the role
`INSTITUTE_ADMIN` and the given `instituteId`, every record `createSuperAdmin` adds has
the role `SUPER_ADMIN`, and the stored password is the hash of the submitted one (so it
is not the plaintext wherever the hash differs from it). -/
theorem administrator_role_fixed (env : UserEnv) (users : Users) (institutes : Institutes)
    (userData : UserData) (instituteId : Option ObjectId) :
    (∀ u ∈ (UserService.createInstituteAdmin env users institutes userData
        instituteId).users, u ∉ users →
      u.role = Role.INSTITUTE_ADMIN ∧ u.instituteId = instituteId ∧
        ∃ p, userData.password = some p ∧ u.password = env.hash p ∧
          (env.hash p ≠ p → u.password ≠ p)) ∧
    (∀ u ∈ (UserService.createSuperAdmin env users userData).users, u ∉ users →
      u.role = Role.SUPER_ADMIN ∧
        ∃ p, userData.password = some p ∧ u.password = env.hash p ∧
          (env.hash p ≠ p → u.password ≠ p)) := by
  refine ⟨?_, ?_⟩
  · intro u hu hNew
    unfold UserService.createInstituteAdmin at hu
    repeat' split at hu
    all_goals first
      | exact absurd hu hNew
      | (obtain ⟨hRole, hInst, p, hPassword, hHash⟩ :=
          hashAndCreate_new env users userData Role.INSTITUTE_ADMIN instituteId u hu hNew
         exact ⟨hRole, hInst, p, hPassword, hHash, fun hne => by rw [hHash]; exact hne⟩)
  · intro u hu hNew
    unfold UserService.createSuperAdmin at hu
    repeat' split at hu
    all_goals first
      | exact absurd hu hNew
      | (obtain ⟨hRole, _, p, hPassword, hHash⟩ :=
          hashAndCreate_new env users userData Role.SUPER_ADMIN none u hu hNew
         exact ⟨hRole, p, hPassword, hHash, fun hne => by rw [hHash]; exact hne⟩)

/-- An administrator created from data that asks for `SUPER_ADMIN` and institute 999. -/
theorem administrator_role_fixed_witness :
    (UserService.createInstituteAdmin sampleUserEnv [] [sampleInstitute] forgedAdminData
        (some ⟨1⟩)).users.map (fun u => (u.email, u.password)) =
      [("root@school.test", "$2b$10$secret")] ∧
    ∀ u ∈ (UserService.createInstituteAdmin sampleUserEnv [] [sampleInstitute]
        forgedAdminData (some ⟨1⟩)).users,
      u.role = Role.INSTITUTE_ADMIN ∧ u.instituteId = some ⟨1⟩ :=
  ⟨by decide, fun u hu =>
    have h := (administrator_role_fixed sampleUserEnv [] [sampleInstitute] forgedAdminData
      (some ⟨1⟩)).1 u hu (List.not_mem_nil u)
    ⟨h.1, h.2.1⟩⟩

/-- In the forged-claims environment the header `Bearer abc` carries a verified token. -/
theorem forgedEnv_verified :
    VerifiedToken forgedEnv [] (some "Bearer abc") forgedPayload [("abc", forgedPayload)]
      ⟨7⟩ :=
  ⟨"abc", "000000000000000000000007", by decide, by decide, rfl, rfl, by decide, rfl⟩

/-- C28: the stored identity, not the token's claims, decides. Two verified tokens of the
same `userId`, whatever their other claims, get the same response, the same decision and
the same request afterwards; and for a stored identity `doc` that is active and not
deleted, `next` is called exactly when the capability is granted to `doc.role`, and the
context then holds `doc.role` under `role`, a `user` whose role and `instituteId` are
the stored ones, and the stored `instituteId` under `instituteId` (unset for
`SUPER_ADMIN` or when the identity has none). -/
theorem checkPermission_decides_on_stored_identity (env : AuthEnv)
    (requiredPermission : Option String) (tokenCache tokenCache1 tokenCache2 : TokenCache)
    (authorization1 authorization2 : Option String) (req : RequestState)
    (payload1 payload2 : Payload) (contextUserId : ObjectId)
    (hVerified1 :
      VerifiedToken env tokenCache authorization1 payload1 tokenCache1 contextUserId)
    (hVerified2 :
      VerifiedToken env tokenCache authorization2 payload2 tokenCache2 contextUserId)
    (hUserId : payload1.userId = payload2.userId)
    (hStore : req.store = contextMiddleware) :
    ((checkPermission env requiredPermission tokenCache authorization1 req).response =
        (checkPermission env requiredPermission tokenCache authorization2 req).response ∧
      (checkPermission env requiredPermission tokenCache authorization1 req).nextCalled =
        (checkPermission env requiredPermission tokenCache authorization2 req).nextCalled ∧
      (checkPermission env requiredPermission tokenCache authorization1 req).req =
        (checkPermission env requiredPermission tokenCache authorization2 req).req) ∧
    (∀ doc, env.findById contextUserId = .ok (some doc) → doc.isDeleted = false →
      doc.isActive = true →
      ((checkPermission env requiredPermission tokenCache authorization1 req).nextCalled =
          true ↔
        (truthy requiredPermission = false ∨
          ∃ p, requiredPermission = some p ∧
            hasPermission (.str doc.role.value) p = .ok true)) ∧
      ((checkPermission env requiredPermission tokenCache authorization1 req).nextCalled =
          true →
        getUserRole
            (checkPermission env requiredPermission tokenCache authorization1 req).req.store =
          .role doc.role ∧
        (checkPermission env requiredPermission tokenCache authorization1 req).req.user.map
            (fun u => (u.role, u.instituteId)) = some (doc.role, doc.instituteId) ∧
        (doc.role ≠ Role.SUPER_ADMIN → ∀ instituteId, doc.instituteId = some instituteId →
          getInstituteId
              (checkPermission env requiredPermission tokenCache authorization1
                req).req.store = .id instituteId) ∧
        (doc.role = Role.SUPER_ADMIN ∨ doc.instituteId = none →
          getInstituteId
              (checkPermission env requiredPermission tokenCache authorization1
                req).req.store = .undefined))) := by
  have hSpread : ∀ u, spread payload1 u = spread payload2 u := by
    intro u
    simp [spread, hUserId]
  refine ⟨?_, ?_⟩
  · rw [checkPermission_of_verified hVerified1, checkPermission_of_verified hVerified2]
    simp only [hSpread]
    cases fetchUserById env contextUserId with
    | error e => exact ⟨rfl, rfl, rfl⟩
    | ok existingUser =>
      simp only
      cases truthy requiredPermission with
      | false => exact ⟨rfl, rfl, rfl⟩
      | true =>
        simp only [if_true]
        cases hasPermission (.str existingUser.role.value) (requiredPermission.getD "") with
        | error e => exact ⟨rfl, rfl, rfl⟩
        | ok b => cases b <;> exact ⟨rfl, rfl, rfl⟩
  · intro doc hFind hNotDeleted hActive
    have hFetch : fetchUserById env contextUserId = .ok doc := by
      simp [fetchUserById, hFind, hNotDeleted, hActive]
    refine ⟨?_, ?_⟩
    · rw [checkPermission_of_verified hVerified1]
      simp only [hFetch]
      cases hPerm : truthy requiredPermission with
      | false => simp
      | true =>
        obtain ⟨p, hp, hpD⟩ := truthy_eq_true hPerm
        obtain ⟨b, hb⟩ := hasPermission_role doc.role p
        subst hp
        simp only [hpD, hb]
        cases b <;> simp [hb]
    · intro hAdmit
      obtain ⟨found, hFound, hReq⟩ := checkPermission_admitted hVerified1 hAdmit
      have hSame : found = doc := by
        rw [hFind] at hFound
        simpa using hFound.symm
      subst hSame
      obtain ⟨_, hRole, _, hUser, hInst, hNoInst, hSuper⟩ :=
        setAuthContext_store req (spread payload1 found) hStore
      rw [hReq]
      refine ⟨hRole, ?_, ?_, ?_⟩
      · rw [hUser]
        rfl
      · intro hNotSuper instituteId hSome
        exact (hInst hNotSuper instituteId hSome).1
      · rintro (hIsSuper | hNone)
        · exact (hSuper hIsSuper).1
        · by_cases hIsSuper : found.role = Role.SUPER_ADMIN
          · exact (hSuper hIsSuper).1
          · exact hNoInst hIsSuper hNone

/-- A token of the sample teacher claiming `SUPER_ADMIN`: a super-admin capability is
still refused. -/
theorem checkPermission_decides_on_stored_identity_witness :
    (checkPermission forgedEnv (some "CREATE_NEW_INSTITUTES") [] (some "Bearer abc")
      freshRequest).nextCalled = false :=
  have h := ((checkPermission_decides_on_stored_identity forgedEnv
    (some "CREATE_NEW_INSTITUTES") [] [("abc", forgedPayload)] [("abc", forgedPayload)]
    (some "Bearer abc") (some "Bearer abc") freshRequest forgedPayload forgedPayload ⟨7⟩
    forgedEnv_verified forgedEnv_verified rfl rfl).2 sampleTeacher rfl rfl rfl).1
  by
    cases hCalled : (checkPermission forgedEnv (some "CREATE_NEW_INSTITUTES") []
      (some "Bearer abc") freshRequest).nextCalled with
    | false => rfl
    | true =>
      rcases h.mp hCalled with hFalsy | ⟨p, hp, hGranted⟩
      · exact absurd hFalsy (by decide)
      · cases hp
        exact absurd hGranted (by decide)

/-- A rejected range comes with a reason. -/
theorem validateDateRange_reason (tz : Zone) (a b : DateInput)
    (h : (validateDateRange tz a b).valid = false) :
    ∃ reason, (validateDateRange tz a b).error = some reason := by
  unfold validateDateRange at h ⊢
  cases a <;> cases b <;> simp only at h ⊢ <;> first
    | exact ⟨_, rfl⟩
    | (rename_i s e
       cases hs : setHoursZero tz s <;> cases he : setHoursZero tz e <;>
         simp only [hs, he] at h ⊢ <;> first
           | (simp at h; done)
           | (split_ifs at h ⊢ <;> exact ⟨_, rfl⟩))

/-- An accepted range has two parseable dates. -/
theorem validateDateRange_valid_at (tz : Zone) (a b : DateInput)
    (h : (validateDateRange tz a b).valid = true) : ∃ s e, a = .at s ∧ b = .at e := by
  cases a <;> cases b <;> first
    | exact ⟨_, _, rfl, rfl⟩
    | exact absurd h (by simp [validateDateRange])

/-- The collection `setCurrentSession` leaves is the old one under a write that keeps
the keys. -/
theorem setCurrentSession_map (db : Sessions) (T : ObjectId) (sessionId : Option ObjectId) :
    ∃ g, KeepsKeys g ∧ (AcademicSessionRepo.setCurrentSession db T sessionId).1 = db.map g := by
  unfold AcademicSessionRepo.setCurrentSession AcademicSessionRepo.findByIdAndUpdate
    AcademicSessionRepo.unsetCurrent
  simp only
  split
  · refine ⟨_, ?_, rfl⟩
    intro s
    dsimp only
    split_ifs <;> exact ⟨rfl, rfl, rfl, rfl, rfl⟩
  · rw [List.map_map]
    refine ⟨_, ?_, rfl⟩
    intro s
    dsimp only [Function.comp]
    split_ifs <;> exact ⟨rfl, rfl, rfl, rfl, rfl⟩

/-- The unique name index sees the same keys after a write that keeps them. -/
theorem nameTaken_map (db : Sessions) (g : Session → Session) (hg : KeepsKeys g)
    (self : Option ObjectId) (T : ObjectId) (name : String) :
    nameTaken (db.map g) self T name = nameTaken db self T name := by
  unfold nameTaken
  rw [List.any_map]
  congr 1
  funext s
  obtain ⟨hId, hInst, hName, _, _⟩ := hg s
  simp [Function.comp, hId, hInst, hName]

/-- `AcademicSession.create` on accepted dates and a free, non-empty name inserts. -/
theorem repo_createSession_ok (tz : Zone) (db : Sessions) (data : CreateData)
    (hValid : (validateDateRange tz data.startDate data.endDate).valid = true)
    (hName : trim data.name ≠ "")
    (hFree : nameTaken db none data.instituteId (trim data.name) = false) :
    ∃ session, AcademicSessionRepo.createSession tz db data = (db ++ [session], .ok session) ∧
      session.instituteId = data.instituteId ∧ session.name = trim data.name ∧
      session.isCurrent = data.isCurrent := by
  obtain ⟨s, e, hs, he⟩ := validateDateRange_valid_at tz _ _ hValid
  rw [hs, he] at hValid
  unfold AcademicSessionRepo.createSession
  simp only [hs, he, hName, hValid, hFree, if_false, Bool.not_true, Bool.false_eq_true]
  exact ⟨_, rfl, rfl, rfl, rfl⟩

/-- C26 (counterexample): a second session of tenant X whose dates `validateDateRange`
accepts but whose name is the name of an existing session of X is not created:
`createSession` throws the duplicate-key error of the unique index on the name. -/
theorem createSession_duplicate_name_fails :
    (validateDateRange utc sameName2025.startDate sameName2025.endDate).valid = true ∧
      (AcademicSessionService.createSession utc
        (AcademicSessionService.createSession utc [] plain2024).db sameName2025).result =
        .error .duplicateKey := by
  decide

/-- C26 (amended): for every `createSession` input whose date range `validateDateRange`
rejects, `createSession` throws that reason and leaves the collection as it was; and for
every input it accepts whose name is non-empty after trimming and is not the name of a
session of the tenant already, `createSession` returns the new session and stores it,
whether or not the new range overlaps an existing active session of the tenant. -/
theorem createSession_validation_and_overlap (tz : Zone) (db : Sessions) (data : CreateData) :
    ((validateDateRange tz data.startDate data.endDate).valid = false →
      ∃ reason, (validateDateRange tz data.startDate data.endDate).error = some reason ∧
        (AcademicSessionService.createSession tz db data).result = .error (.error reason) ∧
        (AcademicSessionService.createSession tz db data).db = db) ∧
    ((validateDateRange tz data.startDate data.endDate).valid = true →
      trim data.name ≠ "" → nameTaken db none data.instituteId (trim data.name) = false →
      ∃ session, (AcademicSessionService.createSession tz db data).result = .ok session ∧
        session ∈ (AcademicSessionService.createSession tz db data).db ∧
        session.instituteId = data.instituteId ∧ session.name = trim data.name ∧
        (AcademicSessionService.createSession tz db data).db.length = db.length + 1) := by
  refine ⟨?_, ?_⟩
  · intro hInvalid
    obtain ⟨reason, hReason⟩ := validateDateRange_reason tz _ _ hInvalid
    refine ⟨reason, hReason, ?_, ?_⟩ <;>
      simp [AcademicSessionService.createSession, hInvalid, hReason]
  · intro hValid hName hFree
    cases hCur : data.isCurrent with
    | false =>
      obtain ⟨session, hCreate, hInst, hSessName, _⟩ :=
        repo_createSession_ok tz db data hValid hName hFree
      refine ⟨session, ?_, ?_, hInst, hSessName, ?_⟩ <;>
        simp [AcademicSessionService.createSession, hValid, hCur, hCreate]
    | true =>
      obtain ⟨g, hg, hMid⟩ := setCurrentSession_map db data.instituteId none
      have hFreeMid : nameTaken (db.map g) none data.instituteId (trim data.name) = false := by
        rw [nameTaken_map db g hg]
        exact hFree
      obtain ⟨session, hCreate, hInst, hSessName, _⟩ :=
        repo_createSession_ok tz (db.map g) { data with isCurrent := false } hValid hName
          hFreeMid
      refine ⟨session, ?_, ?_, hInst, hSessName, ?_⟩ <;>
        simp [AcademicSessionService.createSession, hValid, hCur, hMid, hCreate]

/-- A summer session inside the 2024-2025 range: created, with the overlap warning. -/
theorem createSession_validation_and_overlap_witness :
    (AcademicSessionService.createSession utc [stored2024] summer2024).overlapWarned = true ∧
      ∃ session,
        (AcademicSessionService.createSession utc [stored2024] summer2024).result =
          .ok session ∧
        session ∈ (AcademicSessionService.createSession utc [stored2024] summer2024).db :=
  ⟨by decide,
    let ⟨session, hResult, hMem, _⟩ :=
      (createSession_validation_and_overlap utc [stored2024] summer2024).2 (by decide)
        (by decide) (by decide)
    ⟨session, hResult, hMem⟩⟩

/-- When the pre-update hook accepts the merged range of the stored document, the
repository update throws no plain `Error`: it returns, or fails in the schema layer. -/
theorem repo_updateSession_schema_errors (tz : Zone) (db : Sessions) (id : ObjectId)
    (data : SessionPatch) (doc : Session)
    (hFind : db.find? (fun s => decide (s._id = id)) = some doc)
    (hHook : (if truthyDate data.startDate || truthyDate data.endDate then
        validateDateRange tz (orStored data.startDate doc.startDate)
          (orStored data.endDate doc.endDate)
      else ⟨true, none⟩).valid = true) :
    ∀ reason, (AcademicSessionRepo.updateSession tz db id data).2 ≠ .error (.error reason) := by
  intro reason
  unfold AcademicSessionRepo.updateSession
  split
  · by_cases hName : data.name.map trim = some ""
    · simp [hName]
    · simp only [hName, hFind, hHook, if_false, Bool.not_true, Bool.false_eq_true]
      split_ifs <;> simp
  · simp

/-- The collection on which `updateSession` runs the repository update: the one after
`setCurrentSession` when the patch has `isCurrent: true`, the given one otherwise. It is
the given one under a write that keeps the keys. -/
theorem updateSession_mid_map (db : Sessions) (T id : ObjectId) (isCurrent : Option Bool) :
    ∃ g, KeepsKeys g ∧
      (if isCurrent = some true then
        (AcademicSessionRepo.setCurrentSession db T (some id)).1 else db) = db.map g := by
  split_ifs
  · exact setCurrentSession_map db T (some id)
  · exact ⟨fun s => s, fun _ => ⟨rfl, rfl, rfl, rfl, rfl⟩, (List.map_id db).symm⟩

/-- C25: for an existing session and a patch that carries a start or an end date,
`updateSession` validates the merged range (the patched value where present, the stored
one otherwise): when `validateDateRange` rejects it, the call throws that reason and
leaves the collection as it was; when it accepts it, the call throws no `Error` of its
own and its outcome is exactly that of the repository update, whatever the overlap
check found. -/
theorem updateSession_validates_merged_range (tz : Zone) (db : Sessions) (id : ObjectId)
    (data : SessionPatch) (existing : Session)
    (hExists : AcademicSessionRepo.getSessionById db id = some existing)
    (hPatch : (truthyDate data.startDate || truthyDate data.endDate) = true) :
    ((validateDateRange tz (orStored data.startDate existing.startDate)
        (orStored data.endDate existing.endDate)).valid = false →
      ∃ reason,
        (validateDateRange tz (orStored data.startDate existing.startDate)
          (orStored data.endDate existing.endDate)).error = some reason ∧
        (AcademicSessionService.updateSession tz db id data).result =
          .error (.error reason) ∧
        (AcademicSessionService.updateSession tz db id data).db = db) ∧
    ((validateDateRange tz (orStored data.startDate existing.startDate)
        (orStored data.endDate existing.endDate)).valid = true →
      (∀ reason, (AcademicSessionService.updateSession tz db id data).result ≠
        .error (.error reason)) ∧
      (AcademicSessionService.updateSession tz db id data).result =
        (AcademicSessionRepo.updateSession tz
          (if data.isCurrent = some true then
            (AcademicSessionRepo.setCurrentSession db existing.instituteId (some id)).1
          else db) id data).2 ∧
      (AcademicSessionService.updateSession tz db id data).db =
        (AcademicSessionRepo.updateSession tz
          (if data.isCurrent = some true then
            (AcademicSessionRepo.setCurrentSession db existing.instituteId (some id)).1
          else db) id data).1) := by
  refine ⟨?_, ?_⟩
  · intro hInvalid
    obtain ⟨reason, hReason⟩ := validateDateRange_reason tz _ _ hInvalid
    refine ⟨reason, hReason, ?_, ?_⟩ <;>
      simp [AcademicSessionService.updateSession, hExists, hPatch, hInvalid, hReason]
  · intro hValid
    have hOutcome :
        (AcademicSessionService.updateSession tz db id data).result =
          (AcademicSessionRepo.updateSession tz
            (if data.isCurrent = some true then
              (AcademicSessionRepo.setCurrentSession db existing.instituteId (some id)).1
            else db) id data).2 ∧
        (AcademicSessionService.updateSession tz db id data).db =
          (AcademicSessionRepo.updateSession tz
            (if data.isCurrent = some true then
              (AcademicSessionRepo.setCurrentSession db existing.instituteId (some id)).1
            else db) id data).1 := by
      simp only [AcademicSessionService.updateSession, hExists, hPatch, hValid, if_true,
        Bool.not_true, Bool.false_eq_true, if_false]
      generalize AcademicSessionRepo.updateSession tz _ id data = updated
      obtain ⟨db2, result⟩ := updated
      cases result <;> exact ⟨rfl, rfl⟩
    refine ⟨?_, hOutcome.1, hOutcome.2⟩
    intro reason
    rw [hOutcome.1]
    obtain ⟨g, hg, hMid⟩ := updateSession_mid_map db existing.instituteId id data.isCurrent
    rw [hMid]
    have hFindDb : db.find? (fun s => decide (s._id = id)) = some existing := hExists
    have hFind : (db.map g).find? (fun s => decide (s._id = id)) = some (g existing) := by
      rw [find?_id_map db id g (fun s => (hg s).1), hFindDb]
      rfl
    refine repo_updateSession_schema_errors tz (db.map g) id data (g existing) hFind ?_ reason
    obtain ⟨_, _, _, hStart, hEnd⟩ := hg existing
    simp only [hPatch, if_true, hStart, hEnd]
    exact hValid

/-- Shortening the 2024-2025 session to ten days: rejected, nothing written. -/
theorem updateSession_validates_merged_range_witness :
    (AcademicSessionService.updateSession utc [stored2024, stored2025] ⟨1⟩ shortenPatch).result =
        .error (.error "Session duration must be at least 30 days") ∧
      (AcademicSessionService.updateSession utc [stored2024, stored2025] ⟨1⟩ shortenPatch).db =
        [stored2024, stored2025] :=
  let ⟨_, hReason, hResult, hDb⟩ :=
    (updateSession_validates_merged_range utc [stored2024, stored2025] ⟨1⟩ shortenPatch
      stored2024 (by decide) (by decide)).1 (by decide)
  ⟨hResult.trans (by
    rw [show (validateDateRange utc (orStored shortenPatch.startDate stored2024.startDate)
        (orStored shortenPatch.endDate stored2024.endDate)).error =
        some "Session duration must be at least 30 days" from by decide] at hReason
    cases hReason
    rfl), hDb⟩

/-- Extending the 2024-2025 session into the range of the later one: the overlap is
logged and the update is applied. -/
theorem updateSession_overlap_only_warns :
    (AcademicSessionService.updateSession utc [stored2024, stored2025] ⟨1⟩
        extendPatch).overlapWarned = true ∧
      (AcademicSessionService.updateSession utc [stored2024, stored2025] ⟨1⟩
        extendPatch).result.toOption.map (fun s => s.map fun x => x.endDate) =
        some (some 1751241600000) := by
  decide

end School
